import Mathlib

/-! Intel 8080 emulator core (`emulatorShell.c`): embedding and verified properties.

The C program keeps the processor in one `state8080` record and executes one instruction
per call of `emulateOp`. The definitions below follow the C text statement by statement.

Conventions of the embedding:

* `uint8_t`, `uint16_t`, `uint32_t` and one-bit bit-field values are natural numbers; each
  assignment that converts an `int` (or a wider unsigned value) to such a type carries the
  conversion explicitly (`% 256`, `% 65536`, `% 4294967296`, `% 2`). An expression that can be
  negative in C (a subtraction, a bitwise complement) is computed in `Int` and converted with
  `Int.toNat (_ % 2^w)`, which is the C conversion to an unsigned type.
* `state->memory` points to a block of 0x10000 bytes. The embedding takes the byte space as a
  function of an integer index, so the index expressions of the program (`state->sp - 1`,
  `opCode[2]`, ...) are written exactly as in the source; the block itself is the range
  `0 .. 0xFFFF`. `state8080.WellFormed` states that every field holds a value of its C type.
* `exit` ends the run: a step returns `Except.error` with the reason (`Stop`), otherwise the
  new state together with the value of `cycles[*opCode]`, which is `none` when the index lies
  beyond the end of the table.
-/

namespace Emu8080

/-- Flags of the processor (`struct conditionCodes`); every member is a one-bit bit-field. -/
structure conditionCodes where
  z : Nat
  s : Nat
  p : Nat
  cy : Nat
  ac : Nat
  pad : Nat

/-- Processor state (`struct state8080`). -/
structure state8080 where
  a : Nat
  b : Nat
  c : Nat
  d : Nat
  e : Nat
  h : Nat
  l : Nat
  sp : Nat
  pc : Nat
  memory : Int → Nat
  cc : conditionCodes
  intEnable : Nat

/-- Every field of the state holds a value of its C type. -/
structure state8080.WellFormed (state : state8080) : Prop where
  a_lt : state.a < 256
  b_lt : state.b < 256
  c_lt : state.c < 256
  d_lt : state.d < 256
  e_lt : state.e < 256
  h_lt : state.h < 256
  l_lt : state.l < 256
  sp_lt : state.sp < 65536
  pc_lt : state.pc < 65536
  memory_lt : ∀ i, state.memory i < 256
  z_lt : state.cc.z < 2
  s_lt : state.cc.s < 2
  p_lt : state.cc.p < 2
  cy_lt : state.cc.cy < 2
  ac_lt : state.cc.ac < 2
  pad_lt : state.cc.pad < 2
  intEnable_lt : state.intEnable < 256

/-- Ways in which the program ends the process from inside a step. -/
inductive Stop where
  /-- Call `exit(0)` of the HLT case. -/
  | halt
  /-- Call `exit(1)` of `unimplementedInstruction`. -/
  | unimplemented
  /-- Call `exit(1)` of the "Address out of bounds." branch of the memory accessors. -/
  | outOfBounds
  deriving DecidableEq

/-- Exit code passed to `exit`. -/
def Stop.code : Stop → Nat
  | .halt => 0
  | .unimplemented => 1
  | .outOfBounds => 1

/-- Value of a C comparison: 1 when it holds, 0 otherwise. -/
def cbool (p : Prop) [Decidable p] : Nat := if p then 1 else 0

/-- Assignment `memory[address] = value`. -/
def store (memory : Int → Nat) (address : Int) (value : Nat) : Int → Nat :=
  fun i => if i = address then value else memory i

/-- Function `unimplementedInstruction`: prints an error and calls `exit(1)`. -/
def unimplementedInstruction (_state : state8080) : Except Stop state8080 :=
  throw Stop.unimplemented

/-- Function `parity`: the loop counts the bits `input & (b << i)` for `i = 0 .. 7` with
`b = 1`, and the function returns `count % 2`. -/
def parity (input : Nat) : Nat :=
  let b := 1
  let count := (List.range 8).foldl (fun count i => if input &&& (b <<< i) ≠ 0 then count + 1 else count) 0
  count % 2

/-- Table `cycles`, copied row by row (the first two rows of the source have 15 entries). -/
def cycles : List Nat := [
  4, 10, 7, 5, 5, 7, 4, 4, 10, 7, 5, 5, 5, 7, 4,
  4, 10, 7, 5, 5, 7, 4, 4, 10, 7, 5, 5, 5, 7, 4,
  4, 10, 16, 5, 5, 5, 7, 4, 4, 10, 16, 5, 5, 5, 7, 4,
  4, 10, 13, 5, 10, 10, 10, 4, 4, 10, 13, 5, 5, 5, 7, 4,
  5, 5, 5, 5, 5, 5, 7, 5, 5, 5, 5, 5, 5, 5, 7, 5,
  5, 5, 5, 5, 5, 5, 7, 5, 5, 5, 5, 5, 5, 5, 7, 5,
  5, 5, 5, 5, 5, 5, 7, 5, 5, 5, 5, 5, 5, 5, 7, 5,
  7, 7, 7, 7, 7, 7, 7, 7, 5, 5, 5, 5, 5, 5, 7, 5,
  4, 4, 4, 4, 4, 4, 7, 4, 4, 4, 4, 4, 4, 4, 7, 4,
  4, 4, 4, 4, 4, 4, 7, 4, 4, 4, 4, 4, 4, 4, 7, 4,
  4, 4, 4, 4, 4, 4, 7, 4, 4, 4, 4, 4, 4, 4, 7, 4,
  4, 4, 4, 4, 4, 4, 7, 4, 4, 4, 4, 4, 4, 4, 7, 4,
  11, 10, 10, 10, 17, 11, 7, 11, 11, 10, 10, 10, 10, 17, 7, 11,
  11, 10, 10, 10, 17, 11, 7, 11, 11, 10, 10, 10, 10, 17, 7, 11,
  11, 10, 10, 18, 17, 11, 7, 11, 11, 5, 10, 5, 17, 17, 7, 11,
  11, 10, 10, 4, 17, 11, 7, 11, 11, 5, 10, 4, 17, 17, 7, 11
]

/-- Function `writeToMemory`: no write when `address <= 2000` (the message is printed and the
call returns), `exit(1)` when `address >= 0x10000`, otherwise `memory[address] = value`. -/
def writeToMemory (state : state8080) (value topBits botBits : Nat) : Except Stop state8080 :=
  let address := ((topBits <<< 8) ||| botBits) % 65536
  if address ≤ 2000 then
    pure state
  else if address ≥ 0x10000 then
    throw Stop.outOfBounds
  else
    pure { state with memory := store state.memory (address : Int) value }

/-- Function `readFromMemory`: `exit(1)` when `address >= 0x10000`, otherwise `memory[address]`. -/
def readFromMemory (state : state8080) (topBits botBits : Nat) : Except Stop Nat :=
  let address := ((topBits <<< 8) ||| botBits) % 65536
  if address ≥ 0x10000 then
    throw Stop.outOfBounds
  else
    pure (state.memory (address : Int))

set_option maxRecDepth 100000

/-- Cases 0x00 to 0x3f of the switch in `emulateOp` (source section "Register Manipulation"): one branch per
case label, one line per C statement. The argument `opCode` is the pointer taken at entry. -/
def emulateOpRegister (op : Nat) (opCode : Int) (state : state8080) : Except Stop state8080 :=
  if op = 0x01 then do  -- LXI B,D1
    let state := { state with c := state.memory (opCode + 1) }
    let state := { state with b := state.memory (opCode + 2) }
    let state := { state with pc := (state.pc + 2) % 65536 }
    pure state
  else if op = 0x02 then do  -- STAX B
    let state ← writeToMemory state state.a state.b state.c
    pure state
  else if op = 0x03 then do  -- INX B
    let combined := ((state.b <<< 8) ||| state.c) % 65536
    let combined := (combined + 1) % 65536
    let state := { state with c := (combined &&& 0xff) % 256 }
    let state := { state with b := ((combined >>> 8) &&& 0xff) % 256 }
    pure state
  else if op = 0x04 then do  -- INR B
    let val := (state.b + 1) % 65536
    let state := { state with cc.z := cbool ((val &&& 0xff) = 0) }
    let state := { state with cc.s := cbool ((val &&& 0x80) ≠ 0) }
    let state := { state with cc.p := (parity ((val &&& 0xff) % 256)) % 2 }
    let state := { state with b := (val &&& 0xff) % 256 }
    pure state
  else if op = 0x05 then do  -- DCR B
    let val := Int.toNat (((state.b : Int) - 1) % 65536)
    let state := { state with cc.z := cbool ((val &&& 0xff) = 0) }
    let state := { state with cc.s := cbool ((val &&& 0x80) ≠ 0) }
    let state := { state with cc.p := (parity ((val &&& 0xff) % 256)) % 2 }
    let state := { state with b := (val &&& 0xff) % 256 }
    pure state
  else if op = 0x06 then do  -- MVI B,D8
    let state := { state with b := state.memory (opCode + 1) }
    let state := { state with pc := (state.pc + 1) % 65536 }
    pure state
  else if op = 0x07 then do  -- RLC
    let leftMost := ((state.a >>> 7) &&& 0x01) % 256
    let state := { state with a := ((state.a <<< 1) ||| leftMost) % 256 }
    let state := { state with cc.cy := leftMost % 2 }
    pure state
  else if op = 0x09 then do  -- DAD B
    let hl := ((state.h <<< 8) ||| state.l) % 65536
    let bc := ((state.b <<< 8) ||| state.c) % 65536
    let total := (hl + bc) % 4294967296
    let state :=
      if total > 0xffff then
        let state := { state with cc.cy := 1 }
        state
      else
        let state := { state with cc.cy := 0 }
        state
    let state := { state with h := ((total >>> 8) &&& 0xff) % 256 }
    let state := { state with l := (total &&& 0xff) % 256 }
    pure state
  else if op = 0x0a then do  -- LDAX B
    let state := { state with a := (← readFromMemory state state.b state.c) }
    pure state
  else if op = 0x0b then do  -- DCX B
    let combined := ((state.b <<< 8) ||| state.c) % 65536
    let combined := Int.toNat (((combined : Int) - 1) % 65536)
    let state := { state with c := (combined &&& 0xff) % 256 }
    let state := { state with b := ((combined >>> 8) &&& 0xff) % 256 }
    pure state
  else if op = 0x0c then do  -- INR C
    let val := (state.c + 1) % 65536
    let state := { state with cc.z := cbool ((val &&& 0xff) = 0) }
    let state := { state with cc.s := cbool ((val &&& 0x80) ≠ 0) }
    let state := { state with cc.p := (parity ((val &&& 0xff) % 256)) % 2 }
    let state := { state with c := (val &&& 0xff) % 256 }
    pure state
  else if op = 0x0d then do  -- DCR C
    let val := Int.toNat (((state.c : Int) - 1) % 65536)
    let state := { state with cc.z := cbool ((val &&& 0xff) = 0) }
    let state := { state with cc.s := cbool ((val &&& 0x80) ≠ 0) }
    let state := { state with cc.p := (parity ((val &&& 0xff) % 256)) % 2 }
    let state := { state with c := (val &&& 0xff) % 256 }
    pure state
  else if op = 0x0e then do  -- MVI C,D8
    let state := { state with c := state.memory (opCode + 1) }
    let state := { state with pc := (state.pc + 1) % 65536 }
    pure state
  else if op = 0x0f then do  -- RRC
    let rightMost := (state.a &&& 0x01) % 256
    let state := { state with a := ((state.a >>> 1) ||| (rightMost <<< 7)) % 256 }
    let state := { state with cc.cy := rightMost % 2 }
    pure state
  else if op = 0x11 then do  -- LXI D,D16
    let state := { state with e := state.memory (opCode + 1) }
    let state := { state with d := state.memory (opCode + 2) }
    let state := { state with pc := (state.pc + 2) % 65536 }
    pure state
  else if op = 0x12 then do  -- STAX D
    let state ← writeToMemory state state.a state.d state.e
    pure state
  else if op = 0x13 then do  -- INX D
    let combined := ((state.d <<< 8) ||| state.e) % 65536
    let combined := (combined + 1) % 65536
    let state := { state with e := (combined &&& 0xff) % 256 }
    let state := { state with d := ((combined >>> 8) &&& 0xff) % 256 }
    pure state
  else if op = 0x14 then do  -- INR D
    let val := (state.d + 1) % 65536
    let state := { state with cc.z := cbool ((val &&& 0xff) = 0) }
    let state := { state with cc.s := cbool ((val &&& 0x80) ≠ 0) }
    let state := { state with cc.p := (parity ((val &&& 0xff) % 256)) % 2 }
    let state := { state with d := (val &&& 0xff) % 256 }
    pure state
  else if op = 0x15 then do  -- DCR D
    let val := Int.toNat (((state.d : Int) - 1) % 65536)
    let state := { state with cc.z := cbool ((val &&& 0xff) = 0) }
    let state := { state with cc.s := cbool ((val &&& 0x80) ≠ 0) }
    let state := { state with cc.p := (parity ((val &&& 0xff) % 256)) % 2 }
    let state := { state with d := (val &&& 0xff) % 256 }
    pure state
  else if op = 0x16 then do  -- MVI D,D8
    let state := { state with d := state.memory (opCode + 1) }
    let state := { state with pc := (state.pc + 1) % 65536 }
    pure state
  else if op = 0x17 then do  -- RAL
    let leftMost := ((state.a >>> 7) &&& 0x01) % 256
    let state := { state with a := ((state.a <<< 1) ||| state.cc.cy) % 256 }
    let state := { state with cc.cy := leftMost % 2 }
    pure state
  else if op = 0x19 then do  -- DAD D
    let hl := ((state.h <<< 8) ||| state.l) % 65536
    let de := ((state.d <<< 8) ||| state.e) % 65536
    let total := (hl + de) % 4294967296
    let state :=
      if total > 0xffff then
        let state := { state with cc.cy := 1 }
        state
      else
        let state := { state with cc.cy := 0 }
        state
    let state := { state with h := ((total >>> 8) &&& 0xff) % 256 }
    let state := { state with l := (total &&& 0xff) % 256 }
    pure state
  else if op = 0x1a then do  -- LDAX D
    let state := { state with a := (← readFromMemory state state.d state.e) }
    pure state
  else if op = 0x1b then do  -- DCX D
    let combined := ((state.d <<< 8) ||| state.e) % 65536
    let combined := Int.toNat (((combined : Int) - 1) % 65536)
    let state := { state with e := (combined &&& 0xff) % 256 }
    let state := { state with d := ((combined >>> 8) &&& 0xff) % 256 }
    pure state
  else if op = 0x1c then do  -- ICR E
    let val := (state.e + 1) % 65536
    let state := { state with cc.z := cbool ((val &&& 0xff) = 0) }
    let state := { state with cc.s := cbool ((val &&& 0x80) ≠ 0) }
    let state := { state with cc.p := (parity ((val &&& 0xff) % 256)) % 2 }
    let state := { state with e := (val &&& 0xff) % 256 }
    pure state
  else if op = 0x1d then do  -- DCR E
    let val := Int.toNat (((state.e : Int) - 1) % 65536)
    let state := { state with cc.z := cbool ((val &&& 0xff) = 0) }
    let state := { state with cc.s := cbool ((val &&& 0x80) ≠ 0) }
    let state := { state with cc.p := (parity ((val &&& 0xff) % 256)) % 2 }
    let state := { state with e := (val &&& 0xff) % 256 }
    pure state
  else if op = 0x1e then do  -- MVI E,D8
    let state := { state with e := state.memory (opCode + 1) }
    let state := { state with pc := (state.pc + 1) % 65536 }
    pure state
  else if op = 0x1f then do  -- RAR
    let rightMost := (state.a &&& 0x01) % 256
    let leftMost := (state.a &&& 0x80) % 256
    let state := { state with a := ((state.a >>> 1) ||| leftMost) % 256 }
    let state := { state with cc.cy := rightMost % 2 }
    pure state
  else if op = 0x21 then do  -- LXIH,D16
    let state := { state with l := state.memory (opCode + 1) }
    let state := { state with h := state.memory (opCode + 2) }
    let state := { state with pc := (state.pc + 2) % 65536 }
    pure state
  else if op = 0x22 then do  -- SHLD adr
    let state := { state with memory := store state.memory ((((state.memory (opCode + 2)) <<< 8) ||| (state.memory (opCode + 1)) : Nat) : Int) (state.l) }
    let state := { state with memory := store state.memory (((((state.memory (opCode + 2)) <<< 8) ||| (state.memory (opCode + 1))) + 1 : Nat) : Int) (state.h) }
    let state := { state with pc := (state.pc + 2) % 65536 }
    pure state
  else if op = 0x23 then do  -- INX H
    let combined := ((state.h <<< 8) ||| state.l) % 65536
    let combined := (combined + 1) % 65536
    let state := { state with l := (combined &&& 0xff) % 256 }
    let state := { state with h := ((combined >>> 8) &&& 0xff) % 256 }
    pure state
  else if op = 0x24 then do  -- INR H
    let val := (state.h + 1) % 65536
    let state := { state with cc.z := cbool ((val &&& 0xff) = 0) }
    let state := { state with cc.s := cbool ((val &&& 0x80) ≠ 0) }
    let state := { state with cc.p := (parity ((val &&& 0xff) % 256)) % 2 }
    let state := { state with h := (val &&& 0xff) % 256 }
    pure state
  else if op = 0x25 then do  -- DCR H
    let val := Int.toNat (((state.h : Int) - 1) % 65536)
    let state := { state with cc.z := cbool ((val &&& 0xff) = 0) }
    let state := { state with cc.s := cbool ((val &&& 0x80) ≠ 0) }
    let state := { state with cc.p := (parity ((val &&& 0xff) % 256)) % 2 }
    let state := { state with h := (val &&& 0xff) % 256 }
    pure state
  else if op = 0x26 then do  -- MVI L,D8
    let state := { state with h := state.memory (opCode + 1) }
    let state := { state with pc := (state.pc + 1) % 65536 }
    pure state
  else if op = 0x27 then do  -- DAA
    let state ← unimplementedInstruction state
    pure state
  else if op = 0x29 then do  -- DAD H
    let hl := ((state.h <<< 8) ||| state.l) % 65536
    let total := (hl + hl) % 4294967296
    let state :=
      if total > 0xffff then
        let state := { state with cc.cy := 1 }
        state
      else
        let state := { state with cc.cy := 0 }
        state
    let state := { state with h := ((total >>> 8) &&& 0xff) % 256 }
    let state := { state with l := (total &&& 0xff) % 256 }
    pure state
  else if op = 0x2a then do  -- LHLD adr
    let state := { state with l := state.memory ((((state.memory (opCode + 2)) <<< 8) ||| (state.memory (opCode + 1)) : Nat) : Int) }
    let state := { state with h := state.memory (((((state.memory (opCode + 2)) <<< 8) ||| (state.memory (opCode + 1))) + 1 : Nat) : Int) }
    let state := { state with pc := (state.pc + 2) % 65536 }
    pure state
  else if op = 0x2b then do  -- DCX H
    let combined := ((state.h <<< 8) ||| state.l) % 65536
    let combined := Int.toNat (((combined : Int) - 1) % 65536)
    let state := { state with l := (combined &&& 0xff) % 256 }
    let state := { state with h := ((combined >>> 8) &&& 0xff) % 256 }
    pure state
  else if op = 0x2c then do  -- INR L
    let val := (state.l + 1) % 65536
    let state := { state with cc.z := cbool ((val &&& 0xff) = 0) }
    let state := { state with cc.s := cbool ((val &&& 0x80) ≠ 0) }
    let state := { state with cc.p := (parity ((val &&& 0xff) % 256)) % 2 }
    let state := { state with l := (val &&& 0xff) % 256 }
    pure state
  else if op = 0x2d then do  -- DCR L
    let val := Int.toNat (((state.l : Int) - 1) % 65536)
    let state := { state with cc.z := cbool ((val &&& 0xff) = 0) }
    let state := { state with cc.s := cbool ((val &&& 0x80) ≠ 0) }
    let state := { state with cc.p := (parity ((val &&& 0xff) % 256)) % 2 }
    let state := { state with l := (val &&& 0xff) % 256 }
    pure state
  else if op = 0x2e then do  -- MVI L,D8
    let state := { state with l := state.memory (opCode + 1) }
    let state := { state with pc := (state.pc + 1) % 65536 }
    pure state
  else if op = 0x2f then do  -- CMA
    let state := { state with a := Int.toNat ((~~~(state.a : Int)) % 256) }
    pure state
  else if op = 0x31 then do  -- LXI SP,D16
    let state := { state with sp := (((state.memory (opCode + 2)) <<< 8) ||| (state.memory (opCode + 1))) % 65536 }
    let state := { state with pc := (state.pc + 2) % 65536 }
    pure state
  else if op = 0x32 then do  -- STA adr
    let state ← writeToMemory state state.a (state.memory (opCode + 2)) (state.memory (opCode + 1))
    let state := { state with pc := (state.pc + 2) % 65536 }
    pure state
  else if op = 0x33 then do  -- INX SP
    let state := { state with sp := (state.sp + 1) % 65536 }
    pure state
  else if op = 0x34 then do  -- INR M
    let val := ((state.memory (((state.h <<< 8) ||| state.l : Nat) : Int)) + 1) % 65536
    let state := { state with cc.z := cbool ((val &&& 0xff) = 0) }
    let state := { state with cc.s := cbool ((val &&& 0x80) ≠ 0) }
    let state := { state with cc.p := (parity ((val &&& 0xff) % 256)) % 2 }
    let state := { state with memory := store state.memory (((state.h <<< 8) ||| state.l : Nat) : Int) (((state.memory (((state.h <<< 8) ||| state.l : Nat) : Int)) + 1) % 256) }
    pure state
  else if op = 0x35 then do  -- DCR M
    let val := Int.toNat ((((state.memory (((state.h <<< 8) ||| state.l : Nat) : Int) : Nat) : Int) - 1) % 65536)
    let state := { state with cc.z := cbool ((val &&& 0xff) = 0) }
    let state := { state with cc.s := cbool ((val &&& 0x80) ≠ 0) }
    let state := { state with cc.p := (parity ((val &&& 0xff) % 256)) % 2 }
    let state := { state with memory := store state.memory (((state.h <<< 8) ||| state.l : Nat) : Int) (Int.toNat ((((state.memory (((state.h <<< 8) ||| state.l : Nat) : Int) : Nat) : Int) - 1) % 256)) }
    pure state
  else if op = 0x36 then do  -- MVI M,D8
    let state ← writeToMemory state (state.memory (opCode + 1)) state.h state.l
    let state := { state with pc := (state.pc + 1) % 65536 }
    pure state
  else if op = 0x37 then do  -- STC
    let state := { state with cc.cy := 1 }
    pure state
  else if op = 0x39 then do  -- DAD SP
    let val := (((state.h <<< 8) ||| state.l) + state.sp) % 4294967296
    let state :=
      if val > 0xffff then
        let state := { state with cc.cy := 1 }
        state
      else
        state
    let state := { state with h := ((val >>> 8) &&& 0xff) % 256 }
    let state := { state with l := (val &&& 0xff) % 256 }
    pure state
  else if op = 0x3a then do  -- LDA adr (the source line has no `=` sign; read as an assignment)
    let state := { state with a := (← readFromMemory state (state.memory (opCode + 2)) (state.memory (opCode + 1))) }
    let state := { state with pc := (state.pc + 2) % 65536 }
    pure state
  else if op = 0x3b then do  -- DCX SP
    let state := { state with sp := Int.toNat (((state.sp : Int) - 1) % 65536) }
    pure state
  else if op = 0x3c then do  -- INR A
    let val := (state.a + 1) % 65536
    let state := { state with cc.z := cbool ((val &&& 0xff) = 0) }
    let state := { state with cc.s := cbool ((val &&& 0x80) ≠ 0) }
    let state := { state with cc.p := (parity ((val &&& 0xff) % 256)) % 2 }
    let state := { state with a := (val &&& 0xff) % 256 }
    pure state
  else if op = 0x3d then do  -- DCR A
    let val := Int.toNat (((state.a : Int) - 1) % 65536)
    let state := { state with cc.z := cbool ((val &&& 0xff) = 0) }
    let state := { state with cc.s := cbool ((val &&& 0x80) ≠ 0) }
    let state := { state with cc.p := (parity ((val &&& 0xff) % 256)) % 2 }
    let state := { state with a := (val &&& 0xff) % 256 }
    pure state
  else if op = 0x3e then do  -- MVI A,D8
    let state := { state with a := state.memory (opCode + 1) }
    let state := { state with pc := (state.pc + 1) % 65536 }
    pure state
  else if op = 0x3f then do  -- CMC
    let state := { state with cc.cy := Int.toNat ((~~~(state.cc.cy : Int)) % 2) }
    pure state
  else pure state

/-- Cases 0x40 to 0x7f of the switch in `emulateOp` (source section "Data Transfer Operations"): one branch per
case label, one line per C statement. -/
def emulateOpTransfer (op : Nat) (state : state8080) : Except Stop state8080 :=
  if op = 0x40 then do  -- MOV B,B
    let state := { state with b := state.b }
    pure state
  else if op = 0x41 then do  -- MOV B,C
    let state := { state with b := state.c }
    pure state
  else if op = 0x42 then do  -- MOV B,D
    let state := { state with b := state.d }
    pure state
  else if op = 0x43 then do  -- MOV B,E
    let state := { state with b := state.e }
    pure state
  else if op = 0x44 then do  -- MOV B,H
    let state := { state with b := state.h }
    pure state
  else if op = 0x45 then do  -- MOV B,L
    let state := { state with b := state.l }
    pure state
  else if op = 0x46 then do  -- MOV B,M
    let state := { state with b := (← readFromMemory state state.h state.l) }
    pure state
  else if op = 0x47 then do  -- MOV B,A
    let state := { state with b := state.a }
    pure state
  else if op = 0x48 then do
    let state := { state with c := state.b }
    pure state
  else if op = 0x49 then do
    let state := { state with c := state.c }
    pure state
  else if op = 0x4a then do
    let state := { state with c := state.d }
    pure state
  else if op = 0x4b then do
    let state := { state with c := state.e }
    pure state
  else if op = 0x4c then do
    let state := { state with c := state.h }
    pure state
  else if op = 0x4d then do
    let state := { state with c := state.l }
    pure state
  else if op = 0x4e then do  -- MOV C,M
    let state := { state with c := (← readFromMemory state state.h state.l) }
    pure state
  else if op = 0x4f then do
    let state := { state with c := state.a }
    pure state
  else if op = 0x50 then do
    let state := { state with d := state.b }
    pure state
  else if op = 0x51 then do
    let state := { state with d := state.c }
    pure state
  else if op = 0x52 then do
    let state := { state with d := state.d }
    pure state
  else if op = 0x53 then do
    let state := { state with d := state.e }
    pure state
  else if op = 0x54 then do
    let state := { state with d := state.h }
    pure state
  else if op = 0x55 then do
    let state := { state with d := state.l }
    pure state
  else if op = 0x56 then do  -- MOV D,M
    let state := { state with d := (← readFromMemory state state.h state.l) }
    pure state
  else if op = 0x57 then do
    let state := { state with d := state.a }
    pure state
  else if op = 0x58 then do
    let state := { state with e := state.b }
    pure state
  else if op = 0x59 then do
    let state := { state with e := state.c }
    pure state
  else if op = 0x5a then do
    let state := { state with e := state.d }
    pure state
  else if op = 0x5b then do
    let state := { state with e := state.e }
    pure state
  else if op = 0x5c then do
    let state := { state with e := state.h }
    pure state
  else if op = 0x5d then do
    let state := { state with e := state.l }
    pure state
  else if op = 0x5e then do  -- MOV E,M
    let state := { state with e := (← readFromMemory state state.h state.l) }
    pure state
  else if op = 0x5f then do
    let state := { state with e := state.a }
    pure state
  else if op = 0x60 then do
    let state := { state with h := state.b }
    pure state
  else if op = 0x61 then do
    let state := { state with h := state.c }
    pure state
  else if op = 0x62 then do
    let state := { state with h := state.d }
    pure state
  else if op = 0x63 then do
    let state := { state with h := state.e }
    pure state
  else if op = 0x64 then do
    let state := { state with h := state.h }
    pure state
  else if op = 0x65 then do
    let state := { state with h := state.l }
    pure state
  else if op = 0x66 then do  -- MOV H,M
    let state := { state with h := (← readFromMemory state state.h state.l) }
    pure state
  else if op = 0x67 then do
    let state := { state with h := state.a }
    pure state
  else if op = 0x68 then do
    let state := { state with l := state.b }
    pure state
  else if op = 0x69 then do
    let state := { state with l := state.c }
    pure state
  else if op = 0x6a then do
    let state := { state with l := state.d }
    pure state
  else if op = 0x6b then do
    let state := { state with l := state.e }
    pure state
  else if op = 0x6c then do
    let state := { state with l := state.h }
    pure state
  else if op = 0x6d then do
    let state := { state with l := state.l }
    pure state
  else if op = 0x6e then do  -- MOV L,M
    let state := { state with l := (← readFromMemory state state.h state.l) }
    pure state
  else if op = 0x6f then do
    let state := { state with l := state.a }
    pure state
  else if op = 0x70 then do  -- MOV M,B
    let state ← writeToMemory state state.b state.h state.l
    pure state
  else if op = 0x71 then do  -- MOV M,C
    let state ← writeToMemory state state.c state.h state.l
    pure state
  else if op = 0x72 then do  -- MOV M,D
    let state ← writeToMemory state state.d state.h state.l
    pure state
  else if op = 0x73 then do  -- MOV M,E
    let state ← writeToMemory state state.e state.h state.l
    pure state
  else if op = 0x74 then do  -- MOV M,H
    let state ← writeToMemory state state.h state.h state.l
    pure state
  else if op = 0x75 then do  -- MOV M,L
    let state ← writeToMemory state state.l state.h state.l
    pure state
  else if op = 0x76 then do  -- HLT
    let state ← (throw Stop.halt : Except Stop state8080)
    pure state
  else if op = 0x77 then do  -- MOV M,A
    let state ← writeToMemory state state.a state.h state.l
    pure state
  else if op = 0x78 then do
    let state := { state with a := state.b }
    pure state
  else if op = 0x79 then do
    let state := { state with a := state.c }
    pure state
  else if op = 0x7a then do
    let state := { state with a := state.d }
    pure state
  else if op = 0x7b then do
    let state := { state with a := state.e }
    pure state
  else if op = 0x7c then do
    let state := { state with a := state.h }
    pure state
  else if op = 0x7d then do
    let state := { state with a := state.l }
    pure state
  else if op = 0x7e then do  -- MOV A,M
    let state := { state with a := (← readFromMemory state state.h state.l) }
    pure state
  else if op = 0x7f then do  -- Arithmatic
    let state := { state with a := state.a }
    pure state
  else pure state

/-- Cases 0x80 to 0x9f of the switch in `emulateOp` (source section "Arithmatic"): one branch per
case label, one line per C statement. -/
def emulateOpArith (op : Nat) (state : state8080) : Except Stop state8080 :=
  if op = 0x80 then do  -- ADD B
    let val := (state.a + state.b) % 65536
    let state := { state with cc.z := cbool ((val &&& 0xff) = 0) }
    let state := { state with cc.s := cbool ((val &&& 0x80) ≠ 0) }
    let state := { state with cc.cy := cbool (val > 0xff) }
    let state := { state with cc.p := (parity ((val &&& 0xff) % 256)) % 2 }
    let state := { state with a := (val &&& 0xff) % 256 }
    pure state
  else if op = 0x81 then do  -- ADD C
    let val := (state.a + state.c) % 65536
    let state := { state with cc.z := cbool ((val &&& 0xff) = 0) }
    let state := { state with cc.s := cbool ((val &&& 0x80) ≠ 0) }
    let state := { state with cc.cy := cbool (val > 0xff) }
    let state := { state with cc.p := (parity ((val &&& 0xff) % 256)) % 2 }
    let state := { state with a := (val &&& 0xff) % 256 }
    pure state
  else if op = 0x82 then do  -- ADD D
    let val := (state.a + state.d) % 65536
    let state := { state with cc.z := cbool ((val &&& 0xff) = 0) }
    let state := { state with cc.s := cbool ((val &&& 0x80) ≠ 0) }
    let state := { state with cc.cy := cbool (val > 0xff) }
    let state := { state with cc.p := (parity ((val &&& 0xff) % 256)) % 2 }
    let state := { state with a := (val &&& 0xff) % 256 }
    pure state
  else if op = 0x83 then do  -- ADD E
    let val := (state.a + state.e) % 65536
    let state := { state with cc.z := cbool ((val &&& 0xff) = 0) }
    let state := { state with cc.s := cbool ((val &&& 0x80) ≠ 0) }
    let state := { state with cc.cy := cbool (val > 0xff) }
    let state := { state with cc.p := (parity ((val &&& 0xff) % 256)) % 2 }
    let state := { state with a := (val &&& 0xff) % 256 }
    pure state
  else if op = 0x84 then do  -- ADD B
    let val := (state.a + state.h) % 65536
    let state := { state with cc.z := cbool ((val &&& 0xff) = 0) }
    let state := { state with cc.s := cbool ((val &&& 0x80) ≠ 0) }
    let state := { state with cc.cy := cbool (val > 0xff) }
    let state := { state with cc.p := (parity ((val &&& 0xff) % 256)) % 2 }
    let state := { state with a := (val &&& 0xff) % 256 }
    pure state
  else if op = 0x85 then do  -- ADD L
    let val := (state.a + state.l) % 65536
    let state := { state with cc.z := cbool ((val &&& 0xff) = 0) }
    let state := { state with cc.s := cbool ((val &&& 0x80) ≠ 0) }
    let state := { state with cc.cy := cbool (val > 0xff) }
    let state := { state with cc.p := (parity ((val &&& 0xff) % 256)) % 2 }
    let state := { state with a := (val &&& 0xff) % 256 }
    pure state
  else if op = 0x86 then do  -- ADD M
    let val := (state.a + (← readFromMemory state state.h state.l)) % 65536
    let state := { state with cc.z := cbool ((val &&& 0xff) = 0) }
    let state := { state with cc.s := cbool ((val &&& 0x80) ≠ 0) }
    let state := { state with cc.cy := cbool (val > 0xff) }
    let state := { state with cc.p := (parity ((val &&& 0xff) % 256)) % 2 }
    let state := { state with a := (val &&& 0xff) % 256 }
    pure state
  else if op = 0x87 then do  -- ADD A
    let val := (state.a + state.a) % 65536
    let state := { state with cc.z := cbool ((val &&& 0xff) = 0) }
    let state := { state with cc.s := cbool ((val &&& 0x80) ≠ 0) }
    let state := { state with cc.cy := cbool (val > 0xff) }
    let state := { state with cc.p := (parity ((val &&& 0xff) % 256)) % 2 }
    let state := { state with a := (val &&& 0xff) % 256 }
    pure state
  else if op = 0x88 then do  -- ADC B
    let val := ((state.a + state.b) + state.cc.cy) % 65536
    let state := { state with cc.z := cbool ((val &&& 0xff) = 0) }
    let state := { state with cc.s := cbool ((val &&& 0x80) ≠ 0) }
    let state := { state with cc.cy := cbool (val > 0xff) }
    let state := { state with cc.p := (parity ((val &&& 0xff) % 256)) % 2 }
    let state := { state with a := (val &&& 0xff) % 256 }
    pure state
  else if op = 0x89 then do  -- ADC C
    let val := ((state.a + state.c) + state.cc.cy) % 65536
    let state := { state with cc.z := cbool ((val &&& 0xff) = 0) }
    let state := { state with cc.s := cbool ((val &&& 0x80) ≠ 0) }
    let state := { state with cc.cy := cbool (val > 0xff) }
    let state := { state with cc.p := (parity ((val &&& 0xff) % 256)) % 2 }
    let state := { state with a := (val &&& 0xff) % 256 }
    pure state
  else if op = 0x8a then do  -- ADC D
    let val := ((state.a + state.d) + state.cc.cy) % 65536
    let state := { state with cc.z := cbool ((val &&& 0xff) = 0) }
    let state := { state with cc.s := cbool ((val &&& 0x80) ≠ 0) }
    let state := { state with cc.cy := cbool (val > 0xff) }
    let state := { state with cc.p := (parity ((val &&& 0xff) % 256)) % 2 }
    let state := { state with a := (val &&& 0xff) % 256 }
    pure state
  else if op = 0x8b then do  -- ADC E
    let val := ((state.a + state.e) + state.cc.cy) % 65536
    let state := { state with cc.z := cbool ((val &&& 0xff) = 0) }
    let state := { state with cc.s := cbool ((val &&& 0x80) ≠ 0) }
    let state := { state with cc.cy := cbool (val > 0xff) }
    let state := { state with cc.p := (parity ((val &&& 0xff) % 256)) % 2 }
    let state := { state with a := (val &&& 0xff) % 256 }
    pure state
  else if op = 0x8c then do  -- ADC H
    let val := ((state.a + state.h) + state.cc.cy) % 65536
    let state := { state with cc.z := cbool ((val &&& 0xff) = 0) }
    let state := { state with cc.s := cbool ((val &&& 0x80) ≠ 0) }
    let state := { state with cc.cy := cbool (val > 0xff) }
    let state := { state with cc.p := (parity ((val &&& 0xff) % 256)) % 2 }
    let state := { state with a := (val &&& 0xff) % 256 }
    pure state
  else if op = 0x8d then do  -- ADC L
    let val := ((state.a + state.l) + state.cc.cy) % 65536
    let state := { state with cc.z := cbool ((val &&& 0xff) = 0) }
    let state := { state with cc.s := cbool ((val &&& 0x80) ≠ 0) }
    let state := { state with cc.cy := cbool (val > 0xff) }
    let state := { state with cc.p := (parity ((val &&& 0xff) % 256)) % 2 }
    let state := { state with a := (val &&& 0xff) % 256 }
    pure state
  else if op = 0x8e then do  -- ADC M
    let val := ((state.a + (← readFromMemory state state.h state.l)) + state.cc.cy) % 65536
    let state := { state with cc.z := cbool ((val &&& 0xff) = 0) }
    let state := { state with cc.s := cbool ((val &&& 0x80) ≠ 0) }
    let state := { state with cc.cy := cbool (val > 0xff) }
    let state := { state with cc.p := (parity ((val &&& 0xff) % 256)) % 2 }
    let state := { state with a := (val &&& 0xff) % 256 }
    pure state
  else if op = 0x8f then do  -- ADC A
    let val := ((state.a + state.a) + state.cc.cy) % 65536
    let state := { state with cc.z := cbool ((val &&& 0xff) = 0) }
    let state := { state with cc.s := cbool ((val &&& 0x80) ≠ 0) }
    let state := { state with cc.cy := cbool (val > 0xff) }
    let state := { state with cc.p := (parity ((val &&& 0xff) % 256)) % 2 }
    let state := { state with a := (val &&& 0xff) % 256 }
    pure state
  else if op = 0x90 then do  -- SUB B
    let val := Int.toNat (((state.a : Int) - (state.b : Int)) % 65536)
    let state := { state with cc.z := cbool ((val &&& 0xff) = 0) }
    let state := { state with cc.s := cbool ((val &&& 0x80) ≠ 0) }
    let state := { state with cc.cy := cbool (val > 0xff) }
    let state := { state with cc.p := (parity ((val &&& 0xff) % 256)) % 2 }
    let state := { state with a := (val &&& 0xff) % 256 }
    pure state
  else if op = 0x91 then do  -- SUB C
    let val := Int.toNat (((state.a : Int) - (state.c : Int)) % 65536)
    let state := { state with cc.z := cbool ((val &&& 0xff) = 0) }
    let state := { state with cc.s := cbool ((val &&& 0x80) ≠ 0) }
    let state := { state with cc.cy := cbool (val > 0xff) }
    let state := { state with cc.p := (parity ((val &&& 0xff) % 256)) % 2 }
    let state := { state with a := (val &&& 0xff) % 256 }
    pure state
  else if op = 0x92 then do  -- SUB D
    let val := Int.toNat (((state.a : Int) - (state.d : Int)) % 65536)
    let state := { state with cc.z := cbool ((val &&& 0xff) = 0) }
    let state := { state with cc.s := cbool ((val &&& 0x80) ≠ 0) }
    let state := { state with cc.cy := cbool (val > 0xff) }
    let state := { state with cc.p := (parity ((val &&& 0xff) % 256)) % 2 }
    let state := { state with a := (val &&& 0xff) % 256 }
    pure state
  else if op = 0x93 then do  -- SUB E
    let val := Int.toNat (((state.a : Int) - (state.e : Int)) % 65536)
    let state := { state with cc.z := cbool ((val &&& 0xff) = 0) }
    let state := { state with cc.s := cbool ((val &&& 0x80) ≠ 0) }
    let state := { state with cc.cy := cbool (val > 0xff) }
    let state := { state with cc.p := (parity ((val &&& 0xff) % 256)) % 2 }
    let state := { state with a := (val &&& 0xff) % 256 }
    pure state
  else if op = 0x94 then do  -- SUB H
    let val := Int.toNat (((state.a : Int) - (state.h : Int)) % 65536)
    let state := { state with cc.z := cbool ((val &&& 0xff) = 0) }
    let state := { state with cc.s := cbool ((val &&& 0x80) ≠ 0) }
    let state := { state with cc.cy := cbool (val > 0xff) }
    let state := { state with cc.p := (parity ((val &&& 0xff) % 256)) % 2 }
    let state := { state with a := (val &&& 0xff) % 256 }
    pure state
  else if op = 0x95 then do  -- SUB L
    let val := Int.toNat (((state.a : Int) - (state.l : Int)) % 65536)
    let state := { state with cc.z := cbool ((val &&& 0xff) = 0) }
    let state := { state with cc.s := cbool ((val &&& 0x80) ≠ 0) }
    let state := { state with cc.cy := cbool (val > 0xff) }
    let state := { state with cc.p := (parity ((val &&& 0xff) % 256)) % 2 }
    let state := { state with a := (val &&& 0xff) % 256 }
    pure state
  else if op = 0x96 then do  -- SUB M
    let val := Int.toNat (((state.a : Int) - ((← readFromMemory state state.h state.l) : Int)) % 65536)
    let state := { state with cc.z := cbool ((val &&& 0xff) = 0) }
    let state := { state with cc.s := cbool ((val &&& 0x80) ≠ 0) }
    let state := { state with cc.cy := cbool (val > 0xff) }
    let state := { state with cc.p := (parity ((val &&& 0xff) % 256)) % 2 }
    let state := { state with a := (val &&& 0xff) % 256 }
    pure state
  else if op = 0x97 then do  -- SUB A
    let val := Int.toNat (((state.a : Int) - (state.a : Int)) % 65536)
    let state := { state with cc.z := 1 }
    let state := { state with cc.s := cbool ((val &&& 0x80) ≠ 0) }
    let state := { state with cc.cy := cbool (val > 0xff) }
    let state := { state with cc.p := (parity ((val &&& 0xff) % 256)) % 2 }
    let state := { state with a := (val &&& 0xff) % 256 }
    pure state
  else if op = 0x98 then do  -- SBB B
    let val := Int.toNat ((((state.a : Int) - (state.b : Int)) - (state.cc.cy : Int)) % 65536)
    let state := { state with cc.z := cbool ((val &&& 0xff) = 0) }
    let state := { state with cc.s := cbool ((val &&& 0x80) ≠ 0) }
    let state := { state with cc.cy := cbool (val > 0xff) }
    let state := { state with cc.p := (parity ((val &&& 0xff) % 256)) % 2 }
    let state := { state with a := (val &&& 0xff) % 256 }
    pure state
  else if op = 0x99 then do  -- SBCBC
    let val := Int.toNat ((((state.a : Int) - (state.c : Int)) - (state.cc.cy : Int)) % 65536)
    let state := { state with cc.z := cbool ((val &&& 0xff) = 0) }
    let state := { state with cc.s := cbool ((val &&& 0x80) ≠ 0) }
    let state := { state with cc.cy := cbool (val > 0xff) }
    let state := { state with cc.p := (parity ((val &&& 0xff) % 256)) % 2 }
    let state := { state with a := (val &&& 0xff) % 256 }
    pure state
  else if op = 0x9a then do  -- SBB D
    let val := Int.toNat ((((state.a : Int) - (state.d : Int)) - (state.cc.cy : Int)) % 65536)
    let state := { state with cc.z := cbool ((val &&& 0xff) = 0) }
    let state := { state with cc.s := cbool ((val &&& 0x80) ≠ 0) }
    let state := { state with cc.cy := cbool (val > 0xff) }
    let state := { state with cc.p := (parity ((val &&& 0xff) % 256)) % 2 }
    let state := { state with a := (val &&& 0xff) % 256 }
    pure state
  else if op = 0x9b then do  -- SBB E
    let val := Int.toNat ((((state.a : Int) - (state.e : Int)) - (state.cc.cy : Int)) % 65536)
    let state := { state with cc.z := cbool ((val &&& 0xff) = 0) }
    let state := { state with cc.s := cbool ((val &&& 0x80) ≠ 0) }
    let state := { state with cc.cy := cbool (val > 0xff) }
    let state := { state with cc.p := (parity ((val &&& 0xff) % 256)) % 2 }
    let state := { state with a := (val &&& 0xff) % 256 }
    pure state
  else if op = 0x9c then do  -- SBB H
    let val := Int.toNat ((((state.a : Int) - (state.h : Int)) - (state.cc.cy : Int)) % 65536)
    let state := { state with cc.z := cbool ((val &&& 0xff) = 0) }
    let state := { state with cc.s := cbool ((val &&& 0x80) ≠ 0) }
    let state := { state with cc.cy := cbool (val > 0xff) }
    let state := { state with cc.p := (parity ((val &&& 0xff) % 256)) % 2 }
    let state := { state with a := (val &&& 0xff) % 256 }
    pure state
  else if op = 0x9d then do  -- SBB L
    let val := Int.toNat ((((state.a : Int) - (state.l : Int)) - (state.cc.cy : Int)) % 65536)
    let state := { state with cc.z := cbool ((val &&& 0xff) = 0) }
    let state := { state with cc.s := cbool ((val &&& 0x80) ≠ 0) }
    let state := { state with cc.cy := cbool (val > 0xff) }
    let state := { state with cc.p := (parity ((val &&& 0xff) % 256)) % 2 }
    let state := { state with a := (val &&& 0xff) % 256 }
    pure state
  else if op = 0x9e then do  -- SBB M
    let val := Int.toNat ((((state.a : Int) - ((← readFromMemory state state.h state.l) : Int)) - (state.cc.cy : Int)) % 65536)
    let state := { state with cc.z := cbool ((val &&& 0xff) = 0) }
    let state := { state with cc.s := cbool ((val &&& 0x80) ≠ 0) }
    let state := { state with cc.cy := cbool (val > 0xff) }
    let state := { state with cc.p := (parity ((val &&& 0xff) % 256)) % 2 }
    let state := { state with a := (val &&& 0xff) % 256 }
    pure state
  else if op = 0x9f then do  -- SBB A
    let val := Int.toNat ((((state.a : Int) - (state.a : Int)) - (state.cc.cy : Int)) % 65536)
    let state := { state with cc.z := cbool ((val &&& 0xff) = 0) }
    let state := { state with cc.s := cbool ((val &&& 0x80) ≠ 0) }
    let state := { state with cc.cy := cbool (val > 0xff) }
    let state := { state with cc.p := (parity ((val &&& 0xff) % 256)) % 2 }
    let state := { state with a := (val &&& 0xff) % 256 }
    pure state
  else pure state

/-- Cases 0xa0 to 0xbf of the switch in `emulateOp` (source section "Logic"): one branch per
case label, one line per C statement. -/
def emulateOpLogic (op : Nat) (state : state8080) : Except Stop state8080 :=
  if op = 0xa0 then do  -- AND B
    let val := (state.a &&& state.b) % 65536
    let state := { state with cc.z := cbool ((val &&& 0xff) = 0) }
    let state := { state with cc.s := cbool ((val &&& 0x80) ≠ 0) }
    let state := { state with cc.cy := cbool (val > 0xff) }
    let state := { state with cc.p := (parity ((val &&& 0xff) % 256)) % 2 }
    let state := { state with a := (val &&& 0xff) % 256 }
    pure state
  else if op = 0xa1 then do  -- AND C
    let val := (state.a &&& state.c) % 65536
    let state := { state with cc.z := cbool ((val &&& 0xff) = 0) }
    let state := { state with cc.s := cbool ((val &&& 0x80) ≠ 0) }
    let state := { state with cc.cy := cbool (val > 0xff) }
    let state := { state with cc.p := (parity ((val &&& 0xff) % 256)) % 2 }
    let state := { state with a := (val &&& 0xff) % 256 }
    pure state
  else if op = 0xa2 then do  -- AND D
    let val := (state.a &&& state.d) % 65536
    let state := { state with cc.z := cbool ((val &&& 0xff) = 0) }
    let state := { state with cc.s := cbool ((val &&& 0x80) ≠ 0) }
    let state := { state with cc.cy := cbool (val > 0xff) }
    let state := { state with cc.p := (parity ((val &&& 0xff) % 256)) % 2 }
    let state := { state with a := (val &&& 0xff) % 256 }
    pure state
  else if op = 0xa3 then do  -- AND E
    let val := (state.a &&& state.e) % 65536
    let state := { state with cc.z := cbool ((val &&& 0xff) = 0) }
    let state := { state with cc.s := cbool ((val &&& 0x80) ≠ 0) }
    let state := { state with cc.cy := cbool (val > 0xff) }
    let state := { state with cc.p := (parity ((val &&& 0xff) % 256)) % 2 }
    let state := { state with a := (val &&& 0xff) % 256 }
    pure state
  else if op = 0xa4 then do  -- AND H
    let val := (state.a &&& state.h) % 65536
    let state := { state with cc.z := cbool ((val &&& 0xff) = 0) }
    let state := { state with cc.s := cbool ((val &&& 0x80) ≠ 0) }
    let state := { state with cc.cy := cbool (val > 0xff) }
    let state := { state with cc.p := (parity ((val &&& 0xff) % 256)) % 2 }
    let state := { state with a := (val &&& 0xff) % 256 }
    pure state
  else if op = 0xa5 then do  -- AND L
    let val := (state.a &&& state.l) % 65536
    let state := { state with cc.z := cbool ((val &&& 0xff) = 0) }
    let state := { state with cc.s := cbool ((val &&& 0x80) ≠ 0) }
    let state := { state with cc.cy := cbool (val > 0xff) }
    let state := { state with cc.p := (parity ((val &&& 0xff) % 256)) % 2 }
    let state := { state with a := (val &&& 0xff) % 256 }
    pure state
  else if op = 0xa6 then do  -- AND M
    let val := (state.a &&& (← readFromMemory state state.h state.l)) % 65536
    let state := { state with cc.z := cbool ((val &&& 0xff) = 0) }
    let state := { state with cc.s := cbool ((val &&& 0x80) ≠ 0) }
    let state := { state with cc.cy := cbool (val > 0xff) }
    let state := { state with cc.p := (parity ((val &&& 0xff) % 256)) % 2 }
    let state := { state with a := (val &&& 0xff) % 256 }
    pure state
  else if op = 0xa7 then do  -- AND A
    let val := (state.a &&& state.a) % 65536
    let state := { state with cc.z := cbool ((val &&& 0xff) = 0) }
    let state := { state with cc.s := cbool ((val &&& 0x80) ≠ 0) }
    let state := { state with cc.cy := cbool (val > 0xff) }
    let state := { state with cc.p := (parity ((val &&& 0xff) % 256)) % 2 }
    let state := { state with a := (val &&& 0xff) % 256 }
    pure state
  else if op = 0xa8 then do  -- XRA B
    let val := (state.a ^^^ state.b) % 65536
    let state := { state with cc.z := cbool ((val &&& 0xff) = 0) }
    let state := { state with cc.s := cbool ((val &&& 0x80) ≠ 0) }
    let state := { state with cc.cy := cbool (val > 0xff) }
    let state := { state with cc.p := (parity ((val &&& 0xff) % 256)) % 2 }
    let state := { state with a := (val &&& 0xff) % 256 }
    pure state
  else if op = 0xa9 then do  -- XRA C
    let val := (state.a ^^^ state.c) % 65536
    let state := { state with cc.z := cbool ((val &&& 0xff) = 0) }
    let state := { state with cc.s := cbool ((val &&& 0x80) ≠ 0) }
    let state := { state with cc.cy := cbool (val > 0xff) }
    let state := { state with cc.p := (parity ((val &&& 0xff) % 256)) % 2 }
    let state := { state with a := (val &&& 0xff) % 256 }
    pure state
  else if op = 0xaa then do  -- XRA D
    let val := (state.a ^^^ state.d) % 65536
    let state := { state with cc.z := cbool ((val &&& 0xff) = 0) }
    let state := { state with cc.s := cbool ((val &&& 0x80) ≠ 0) }
    let state := { state with cc.cy := cbool (val > 0xff) }
    let state := { state with cc.p := (parity ((val &&& 0xff) % 256)) % 2 }
    let state := { state with a := (val &&& 0xff) % 256 }
    pure state
  else if op = 0xab then do  -- XRA E
    let val := (state.a ^^^ state.e) % 65536
    let state := { state with cc.z := cbool ((val &&& 0xff) = 0) }
    let state := { state with cc.s := cbool ((val &&& 0x80) ≠ 0) }
    let state := { state with cc.cy := cbool (val > 0xff) }
    let state := { state with cc.p := (parity ((val &&& 0xff) % 256)) % 2 }
    let state := { state with a := (val &&& 0xff) % 256 }
    pure state
  else if op = 0xac then do  -- XRA H
    let val := (state.a ^^^ state.h) % 65536
    let state := { state with cc.z := cbool ((val &&& 0xff) = 0) }
    let state := { state with cc.s := cbool ((val &&& 0x80) ≠ 0) }
    let state := { state with cc.cy := cbool (val > 0xff) }
    let state := { state with cc.p := (parity ((val &&& 0xff) % 256)) % 2 }
    let state := { state with a := (val &&& 0xff) % 256 }
    pure state
  else if op = 0xad then do  -- XRA L
    let val := (state.a ^^^ state.l) % 65536
    let state := { state with cc.z := cbool ((val &&& 0xff) = 0) }
    let state := { state with cc.s := cbool ((val &&& 0x80) ≠ 0) }
    let state := { state with cc.cy := cbool (val > 0xff) }
    let state := { state with cc.p := (parity ((val &&& 0xff) % 256)) % 2 }
    let state := { state with a := (val &&& 0xff) % 256 }
    pure state
  else if op = 0xae then do  -- XRA M
    let val := (state.a ^^^ (← readFromMemory state state.h state.l)) % 65536
    let state := { state with cc.z := cbool ((val &&& 0xff) = 0) }
    let state := { state with cc.s := cbool ((val &&& 0x80) ≠ 0) }
    let state := { state with cc.cy := cbool (val > 0xff) }
    let state := { state with cc.p := (parity ((val &&& 0xff) % 256)) % 2 }
    let state := { state with a := (val &&& 0xff) % 256 }
    pure state
  else if op = 0xaf then do  -- XRA A
    let val := (state.a ^^^ state.a) % 65536
    let state := { state with cc.z := cbool ((val &&& 0xff) = 0) }
    let state := { state with cc.s := cbool ((val &&& 0x80) ≠ 0) }
    let state := { state with cc.cy := cbool (val > 0xff) }
    let state := { state with cc.p := (parity ((val &&& 0xff) % 256)) % 2 }
    let state := { state with a := (val &&& 0xff) % 256 }
    pure state
  else if op = 0xb0 then do  -- ORA B
    let val := (state.a ||| state.b) % 65536
    let state := { state with cc.z := cbool ((val &&& 0xff) = 0) }
    let state := { state with cc.s := cbool ((val &&& 0x80) ≠ 0) }
    let state := { state with cc.cy := cbool (val > 0xff) }
    let state := { state with cc.p := (parity ((val &&& 0xff) % 256)) % 2 }
    let state := { state with a := (val &&& 0xff) % 256 }
    pure state
  else if op = 0xb1 then do  -- ORA C
    let val := (state.a ||| state.c) % 65536
    let state := { state with cc.z := cbool ((val &&& 0xff) = 0) }
    let state := { state with cc.s := cbool ((val &&& 0x80) ≠ 0) }
    let state := { state with cc.cy := cbool (val > 0xff) }
    let state := { state with cc.p := (parity ((val &&& 0xff) % 256)) % 2 }
    let state := { state with a := (val &&& 0xff) % 256 }
    pure state
  else if op = 0xb2 then do  -- ORA D
    let val := (state.a ||| state.d) % 65536
    let state := { state with cc.z := cbool ((val &&& 0xff) = 0) }
    let state := { state with cc.s := cbool ((val &&& 0x80) ≠ 0) }
    let state := { state with cc.cy := cbool (val > 0xff) }
    let state := { state with cc.p := (parity ((val &&& 0xff) % 256)) % 2 }
    let state := { state with a := (val &&& 0xff) % 256 }
    pure state
  else if op = 0xb3 then do  -- ORA E
    let val := (state.a ||| state.e) % 65536
    let state := { state with cc.z := cbool ((val &&& 0xff) = 0) }
    let state := { state with cc.s := cbool ((val &&& 0x80) ≠ 0) }
    let state := { state with cc.cy := cbool (val > 0xff) }
    let state := { state with cc.p := (parity ((val &&& 0xff) % 256)) % 2 }
    let state := { state with a := (val &&& 0xff) % 256 }
    pure state
  else if op = 0xb4 then do  -- ORA H
    let val := (state.a ||| state.h) % 65536
    let state := { state with cc.z := cbool ((val &&& 0xff) = 0) }
    let state := { state with cc.s := cbool ((val &&& 0x80) ≠ 0) }
    let state := { state with cc.cy := cbool (val > 0xff) }
    let state := { state with cc.p := (parity ((val &&& 0xff) % 256)) % 2 }
    let state := { state with a := (val &&& 0xff) % 256 }
    pure state
  else if op = 0xb5 then do  -- ORA L
    let val := (state.a ||| state.l) % 65536
    let state := { state with cc.z := cbool ((val &&& 0xff) = 0) }
    let state := { state with cc.s := cbool ((val &&& 0x80) ≠ 0) }
    let state := { state with cc.cy := cbool (val > 0xff) }
    let state := { state with cc.p := (parity ((val &&& 0xff) % 256)) % 2 }
    let state := { state with a := (val &&& 0xff) % 256 }
    pure state
  else if op = 0xb6 then do  -- ORA M
    let val := (state.a ||| (← readFromMemory state state.h state.l)) % 65536
    let state := { state with cc.z := cbool ((val &&& 0xff) = 0) }
    let state := { state with cc.s := cbool ((val &&& 0x80) ≠ 0) }
    let state := { state with cc.cy := cbool (val > 0xff) }
    let state := { state with cc.p := (parity ((val &&& 0xff) % 256)) % 2 }
    let state := { state with a := (val &&& 0xff) % 256 }
    pure state
  else if op = 0xb7 then do  -- ORA A
    let val := (state.a ||| state.a) % 65536
    let state := { state with cc.z := cbool ((val &&& 0xff) = 0) }
    let state := { state with cc.s := cbool ((val &&& 0x80) ≠ 0) }
    let state := { state with cc.cy := cbool (val > 0xff) }
    let state := { state with cc.p := (parity ((val &&& 0xff) % 256)) % 2 }
    let state := { state with a := (val &&& 0xff) % 256 }
    pure state
  else if op = 0xb8 then do  -- CMP B
    let val := Int.toNat (((state.a : Int) - (state.b : Int)) % 65536)
    let state := { state with cc.z := cbool ((val &&& 0xff) = 0) }
    let state := { state with cc.s := cbool ((val &&& 0x80) ≠ 0) }
    let state := { state with cc.cy := cbool (val > 0xff) }
    let state := { state with cc.p := (parity ((val &&& 0xff) % 256)) % 2 }
    pure state
  else if op = 0xb9 then do  -- CMP C
    let val := Int.toNat (((state.a : Int) - (state.c : Int)) % 65536)
    let state := { state with cc.z := cbool ((val &&& 0xff) = 0) }
    let state := { state with cc.s := cbool ((val &&& 0x80) ≠ 0) }
    let state := { state with cc.cy := cbool (val > 0xff) }
    let state := { state with cc.p := (parity ((val &&& 0xff) % 256)) % 2 }
    pure state
  else if op = 0xba then do  -- CMP D
    let val := Int.toNat (((state.a : Int) - (state.d : Int)) % 65536)
    let state := { state with cc.z := cbool ((val &&& 0xff) = 0) }
    let state := { state with cc.s := cbool ((val &&& 0x80) ≠ 0) }
    let state := { state with cc.cy := cbool (val > 0xff) }
    let state := { state with cc.p := (parity ((val &&& 0xff) % 256)) % 2 }
    pure state
  else if op = 0xbb then do  -- CMP E
    let val := Int.toNat (((state.a : Int) - (state.e : Int)) % 65536)
    let state := { state with cc.z := cbool ((val &&& 0xff) = 0) }
    let state := { state with cc.s := cbool ((val &&& 0x80) ≠ 0) }
    let state := { state with cc.cy := cbool (val > 0xff) }
    let state := { state with cc.p := (parity ((val &&& 0xff) % 256)) % 2 }
    pure state
  else if op = 0xbc then do  -- CMP H
    let val := Int.toNat (((state.a : Int) - (state.h : Int)) % 65536)
    let state := { state with cc.z := cbool ((val &&& 0xff) = 0) }
    let state := { state with cc.s := cbool ((val &&& 0x80) ≠ 0) }
    let state := { state with cc.cy := cbool (val > 0xff) }
    let state := { state with cc.p := (parity ((val &&& 0xff) % 256)) % 2 }
    pure state
  else if op = 0xbd then do  -- CMP L
    let val := Int.toNat (((state.a : Int) - (state.l : Int)) % 65536)
    let state := { state with cc.z := cbool ((val &&& 0xff) = 0) }
    let state := { state with cc.s := cbool ((val &&& 0x80) ≠ 0) }
    let state := { state with cc.cy := cbool (val > 0xff) }
    let state := { state with cc.p := (parity ((val &&& 0xff) % 256)) % 2 }
    pure state
  else if op = 0xbe then do  -- CMP M
    let val := Int.toNat (((state.a : Int) - ((← readFromMemory state state.h state.l) : Int)) % 65536)
    let state := { state with cc.z := cbool ((val &&& 0xff) = 0) }
    let state := { state with cc.s := cbool ((val &&& 0x80) ≠ 0) }
    let state := { state with cc.cy := cbool (val > 0xff) }
    let state := { state with cc.p := (parity ((val &&& 0xff) % 256)) % 2 }
    pure state
  else if op = 0xbf then do  -- CMP A
    let val := Int.toNat (((state.a : Int) - (state.a : Int)) % 65536)
    let state := { state with cc.z := 1 }
    let state := { state with cc.s := cbool ((val &&& 0x80) ≠ 0) }
    let state := { state with cc.cy := cbool (val > 0xff) }
    let state := { state with cc.p := (parity ((val &&& 0xff) % 256)) % 2 }
    pure state
  else pure state

set_option linter.unusedVariables false in
/-- Cases 0xc0 to 0xff of the switch in `emulateOp` (source section "Branches and Stack Management"): one branch per
case label, one line per C statement. The argument `opCode` is the pointer taken at entry. -/
def emulateOpBranch (op : Nat) (opCode : Int) (state : state8080) : Except Stop state8080 :=
  if op = 0xc0 then do  -- RNZ
    let state :=
      if state.cc.z = 0 then
        let state := { state with pc := (((state.memory ((state.sp + 1 : Nat) : Int)) <<< 8) ||| (state.memory (state.sp : Int))) % 65536 }
        let state := { state with sp := (state.sp + 2) % 65536 }
        state
      else
        state
    pure state
  else if op = 0xc1 then do  -- POP B
    let state := { state with c := state.memory (state.sp : Int) }
    let state := { state with b := state.memory ((state.sp + 1 : Nat) : Int) }
    let state := { state with sp := (state.sp + 2) % 65536 }
    pure state
  else if op = 0xc2 then do  -- JNZ adr
    let state :=
      if state.cc.z = 0 then
        let state := { state with pc := (((state.memory (opCode + 2)) <<< 8) ||| (state.memory (opCode + 1))) % 65536 }
        state
      else
        let state := { state with pc := (state.pc + 2) % 65536 }
        state
    pure state
  else if op = 0xc3 then do  -- JMP adr
    let state := { state with pc := (((state.memory (opCode + 2)) <<< 8) ||| (state.memory (opCode + 1))) % 65536 }
    let state := { state with pc := (state.pc + 2) % 65536 }
    pure state
  else if op = 0xc4 then do  -- CNZ
    let state :=
      if state.cc.z = 0 then
        let state := { state with memory := store state.memory ((state.pc : Int) - 1) (((state.pc >>> 8) &&& 0xff) % 256) }
        let state := { state with memory := store state.memory ((state.pc : Int) - 2) ((state.pc &&& 0xff) % 256) }
        let state := { state with sp := (state.sp + 2) % 65536 }
        let state := { state with pc := (((state.memory (opCode + 2)) <<< 8) ||| (state.memory (opCode + 1))) % 65536 }
        state
      else
        let state := { state with pc := (state.pc + 2) % 65536 }
        state
    pure state
  else if op = 0xc5 then do  -- PUSH B
    let state := { state with memory := store state.memory ((state.sp : Int) - 1) (state.b) }
    let state := { state with memory := store state.memory ((state.sp : Int) - 2) (state.c) }
    let state := { state with sp := Int.toNat (((state.sp : Int) - 2) % 65536) }
    pure state
  else if op = 0xc6 then do  -- ADI D8
    let val := (state.a + (state.memory (opCode + 1))) % 65536
    let state := { state with cc.z := cbool ((val &&& 0xff) = 0) }
    let state := { state with cc.s := cbool ((val &&& 0x80) ≠ 0) }
    let state := { state with cc.cy := cbool (val > 0xff) }
    let state := { state with cc.p := (parity ((val &&& 0xff) % 256)) % 2 }
    let state := { state with a := (val &&& 0xff) % 256 }
    let state := { state with pc := (state.pc + 1) % 65536 }
    pure state
  else if op = 0xc7 then do  -- RST 0
    let state := { state with memory := store state.memory ((state.pc : Int) - 1) (((state.pc >>> 8) &&& 0xff) % 256) }
    let state := { state with memory := store state.memory ((state.pc : Int) - 2) ((state.pc &&& 0xff) % 256) }
    let state := { state with sp := (state.sp + 2) % 65536 }
    let state := { state with pc := 0x00 }
    pure state
  else if op = 0xc8 then do  -- RZ
    let state :=
      if state.cc.z = 1 then
        let state := { state with pc := (((state.memory ((state.sp + 1 : Nat) : Int)) <<< 8) ||| (state.memory (state.sp : Int))) % 65536 }
        let state := { state with sp := (state.sp + 2) % 65536 }
        state
      else
        state
    pure state
  else if op = 0xc9 then do  -- RET
    let state := { state with pc := (((state.memory ((state.sp + 1 : Nat) : Int)) <<< 8) ||| (state.memory (state.sp : Int))) % 65536 }
    let state := { state with sp := (state.sp + 2) % 65536 }
    pure state
  else if op = 0xca then do  -- JZ adr
    let state :=
      if state.cc.z = 1 then
        let state := { state with pc := (((state.memory (opCode + 2)) <<< 8) ||| (state.memory (opCode + 1))) % 65536 }
        state
      else
        let state := { state with pc := (state.pc + 2) % 65536 }
        state
    pure state
  else if op = 0xcc then do  -- CZ adr
    let state :=
      if state.cc.z = 1 then
        let state := { state with memory := store state.memory ((state.pc : Int) - 1) (((state.pc >>> 8) &&& 0xff) % 256) }
        let state := { state with memory := store state.memory ((state.pc : Int) - 2) ((state.pc &&& 0xff) % 256) }
        let state := { state with sp := (state.sp + 2) % 65536 }
        let state := { state with pc := (((state.memory (opCode + 2)) <<< 8) ||| (state.memory (opCode + 1))) % 65536 }
        state
      else
        let state := { state with pc := (state.pc + 2) % 65536 }
        state
    pure state
  else if op = 0xcd then do  -- CALL adr
    let state := { state with memory := store state.memory ((state.pc : Int) - 1) (((state.pc >>> 8) &&& 0xff) % 256) }
    let state := { state with memory := store state.memory ((state.pc : Int) - 2) ((state.pc &&& 0xff) % 256) }
    let state := { state with sp := (state.sp + 2) % 65536 }
    let state := { state with pc := (((state.memory (opCode + 2)) <<< 8) ||| (state.memory (opCode + 1))) % 65536 }
    pure state
  else if op = 0xce then do  -- ACI D8
    let val := ((state.a + (state.memory (opCode + 1))) + state.cc.cy) % 65536
    let state := { state with cc.z := cbool ((val &&& 0xff) = 0) }
    let state := { state with cc.s := cbool ((val &&& 0x80) ≠ 0) }
    let state := { state with cc.cy := cbool (val > 0xff) }
    let state := { state with cc.p := (parity ((val &&& 0xff) % 256)) % 2 }
    let state := { state with a := (val &&& 0xff) % 256 }
    let state := { state with pc := (state.pc + 1) % 65536 }
    pure state
  else if op = 0xcf then do  -- RST 1
    let state := { state with memory := store state.memory ((state.pc : Int) - 1) (((state.pc >>> 8) &&& 0xff) % 256) }
    let state := { state with memory := store state.memory ((state.pc : Int) - 2) ((state.pc &&& 0xff) % 256) }
    let state := { state with sp := (state.sp + 2) % 65536 }
    let state := { state with pc := 0x08 }
    pure state
  else if op = 0xd0 then do  -- RNC
    let state :=
      if state.cc.cy = 0 then
        let state := { state with pc := (((state.memory ((state.sp + 1 : Nat) : Int)) <<< 8) ||| (state.memory (state.sp : Int))) % 65536 }
        let state := { state with sp := (state.sp + 2) % 65536 }
        state
      else
        state
    pure state
  else if op = 0xd1 then do  -- POP D
    let state := { state with e := state.memory (state.sp : Int) }
    let state := { state with d := state.memory ((state.sp + 1 : Nat) : Int) }
    let state := { state with sp := (state.sp + 2) % 65536 }
    pure state
  else if op = 0xd2 then do  -- JNC
    let state :=
      if state.cc.cy = 0 then
        let state := { state with pc := (((state.memory (opCode + 2)) <<< 8) ||| (state.memory (opCode + 1))) % 65536 }
        state
      else
        let state := { state with pc := (state.pc + 2) % 65536 }
        state
    pure state
  else if op = 0xd3 then do  -- OUT D8
    pure state
  else if op = 0xd4 then do  -- CNC
    let state :=
      if state.cc.cy = 0 then
        let state := { state with memory := store state.memory ((state.pc : Int) - 1) (((state.pc >>> 8) &&& 0xff) % 256) }
        let state := { state with memory := store state.memory ((state.pc : Int) - 2) ((state.pc &&& 0xff) % 256) }
        let state := { state with sp := (state.sp + 2) % 65536 }
        let state := { state with pc := (((state.memory (opCode + 2)) <<< 8) ||| (state.memory (opCode + 1))) % 65536 }
        state
      else
        let state := { state with pc := (state.pc + 2) % 65536 }
        state
    pure state
  else if op = 0xd5 then do  -- PUSH D
    let state := { state with memory := store state.memory ((state.sp : Int) - 1) (state.d) }
    let state := { state with memory := store state.memory ((state.sp : Int) - 2) (state.e) }
    let state := { state with sp := Int.toNat (((state.sp : Int) - 2) % 65536) }
    pure state
  else if op = 0xd6 then do  -- SUI D8
    let val := Int.toNat (((state.a : Int) - ((state.memory (opCode + 1) : Nat) : Int)) % 65536)
    let state := { state with cc.z := cbool ((val &&& 0xff) = 0) }
    let state := { state with cc.s := cbool ((val &&& 0x80) ≠ 0) }
    let state := { state with cc.cy := cbool (val > 0xff) }
    let state := { state with cc.p := (parity ((val &&& 0xff) % 256)) % 2 }
    let state := { state with a := (val &&& 0xff) % 256 }
    let state := { state with pc := (state.pc + 1) % 65536 }
    pure state
  else if op = 0xd7 then do  -- RST 2
    let state := { state with memory := store state.memory ((state.pc : Int) - 1) (((state.pc >>> 8) &&& 0xff) % 256) }
    let state := { state with memory := store state.memory ((state.pc : Int) - 2) ((state.pc &&& 0xff) % 256) }
    let state := { state with sp := (state.sp + 2) % 65536 }
    let state := { state with pc := 0x10 }
    pure state
  else if op = 0xd8 then do  -- RC
    let state :=
      if state.cc.cy = 1 then
        let state := { state with pc := (((state.memory ((state.sp + 1 : Nat) : Int)) <<< 8) ||| (state.memory (state.sp : Int))) % 65536 }
        let state := { state with sp := (state.sp + 2) % 65536 }
        state
      else
        state
    pure state
  else if op = 0xda then do  -- JC adr
    let state :=
      if state.cc.cy = 1 then
        let state := { state with pc := (((state.memory (opCode + 2)) <<< 8) ||| (state.memory (opCode + 1))) % 65536 }
        state
      else
        let state := { state with pc := (state.pc + 2) % 65536 }
        state
    pure state
  else if op = 0xdb then do  -- IN D8
    pure state
  else if op = 0xdc then do  -- CC
    let state :=
      if state.cc.cy = 1 then
        let state := { state with memory := store state.memory ((state.pc : Int) - 1) (((state.pc >>> 8) &&& 0xff) % 256) }
        let state := { state with memory := store state.memory ((state.pc : Int) - 2) ((state.pc &&& 0xff) % 256) }
        let state := { state with sp := (state.sp + 2) % 65536 }
        let state := { state with pc := (((state.memory (opCode + 2)) <<< 8) ||| (state.memory (opCode + 1))) % 65536 }
        state
      else
        let state := { state with pc := (state.pc + 2) % 65536 }
        state
    pure state
  else if op = 0xde then do  -- SUI D8
    let val := Int.toNat ((((state.a : Int) - ((state.memory (opCode + 1) : Nat) : Int)) - (state.cc.cy : Int)) % 65536)
    let state := { state with cc.z := cbool ((val &&& 0xff) = 0) }
    let state := { state with cc.s := cbool ((val &&& 0x80) ≠ 0) }
    let state := { state with cc.cy := cbool (val > 0xff) }
    let state := { state with cc.p := (parity ((val &&& 0xff) % 256)) % 2 }
    let state := { state with a := (val &&& 0xff) % 256 }
    let state := { state with pc := (state.pc + 1) % 65536 }
    pure state
  else if op = 0xdf then do  -- RST 3
    let state := { state with memory := store state.memory ((state.pc : Int) - 1) (((state.pc >>> 8) &&& 0xff) % 256) }
    let state := { state with memory := store state.memory ((state.pc : Int) - 2) ((state.pc &&& 0xff) % 256) }
    let state := { state with sp := (state.sp + 2) % 65536 }
    let state := { state with pc := 0x18 }
    pure state
  else if op = 0xe0 then do  -- RPO
    let state :=
      if state.cc.p = 1 then
        let state := { state with pc := (((state.memory ((state.sp + 1 : Nat) : Int)) <<< 8) ||| (state.memory (state.sp : Int))) % 65536 }
        let state := { state with sp := (state.sp + 2) % 65536 }
        state
      else
        state
    pure state
  else if op = 0xe1 then do  -- POP H
    let state := { state with l := state.memory (state.sp : Int) }
    let state := { state with h := state.memory ((state.sp + 1 : Nat) : Int) }
    let state := { state with sp := (state.sp + 2) % 65536 }
    pure state
  else if op = 0xe2 then do  -- JPO adr
    let state :=
      if state.cc.p = 1 then
        let state := { state with pc := (((state.memory (opCode + 2)) <<< 8) ||| (state.memory (opCode + 1))) % 65536 }
        state
      else
        let state := { state with pc := (state.pc + 2) % 65536 }
        state
    pure state
  else if op = 0xe3 then do  -- XTHL
    let storage := state.memory (state.sp : Int)
    let state := { state with memory := store state.memory (state.sp : Int) (state.l) }
    let state := { state with l := storage }
    let storage := state.memory ((state.sp + 1 : Nat) : Int)
    let state := { state with memory := store state.memory ((state.sp + 1 : Nat) : Int) (state.h) }
    pure state
  else if op = 0xe4 then do  -- CPO adr
    let state :=
      if state.cc.p = 1 then
        let state := { state with memory := store state.memory ((state.pc : Int) - 1) (((state.pc >>> 8) &&& 0xff) % 256) }
        let state := { state with memory := store state.memory ((state.pc : Int) - 2) ((state.pc &&& 0xff) % 256) }
        let state := { state with sp := (state.sp + 2) % 65536 }
        let state := { state with pc := (((state.memory (opCode + 2)) <<< 8) ||| (state.memory (opCode + 1))) % 65536 }
        state
      else
        let state := { state with pc := (state.pc + 2) % 65536 }
        state
    pure state
  else if op = 0xe5 then do  -- PUSH H
    let state := { state with memory := store state.memory ((state.sp : Int) - 1) (state.h) }
    let state := { state with memory := store state.memory ((state.sp : Int) - 2) (state.l) }
    let state := { state with sp := Int.toNat (((state.sp : Int) - 2) % 65536) }
    pure state
  else if op = 0xe6 then do  -- ANI D8
    let val := (state.a &&& (state.memory (opCode + 1))) % 65536
    let state := { state with cc.z := cbool ((val &&& 0xff) = 0) }
    let state := { state with cc.s := cbool ((val &&& 0x80) ≠ 0) }
    let state := { state with cc.cy := cbool (val > 0xff) }
    let state := { state with cc.p := (parity ((val &&& 0xff) % 256)) % 2 }
    let state := { state with a := (val &&& 0xff) % 256 }
    let state := { state with pc := (state.pc + 1) % 65536 }
    pure state
  else if op = 0xe7 then do  -- RST 4
    let state := { state with memory := store state.memory ((state.pc : Int) - 1) (((state.pc >>> 8) &&& 0xff) % 256) }
    let state := { state with memory := store state.memory ((state.pc : Int) - 2) ((state.pc &&& 0xff) % 256) }
    let state := { state with sp := (state.sp + 2) % 65536 }
    let state := { state with pc := 0x20 }
    pure state
  else if op = 0xe8 then do  -- RPE
    let state :=
      if state.cc.p = 0 then
        let state := { state with pc := (((state.memory ((state.sp + 1 : Nat) : Int)) <<< 8) ||| (state.memory (state.sp : Int))) % 65536 }
        let state := { state with sp := (state.sp + 2) % 65536 }
        state
      else
        state
    pure state
  else if op = 0xe9 then do  -- PCHL
    let state := { state with pc := ((state.h <<< 8) ||| state.l) % 65536 }
    pure state
  else if op = 0xea then do  -- JPE adr
    let state :=
      if state.cc.p = 0 then
        let state := { state with pc := (((state.memory (opCode + 2)) <<< 8) ||| (state.memory (opCode + 1))) % 65536 }
        state
      else
        let state := { state with pc := (state.pc + 2) % 65536 }
        state
    pure state
  else if op = 0xeb then do  -- XCHG
    let storage := state.h
    let state := { state with h := state.d }
    let state := { state with d := storage }
    let storage := state.l
    let state := { state with l := state.e }
    let state := { state with e := storage }
    pure state
  else if op = 0xec then do  -- CPE adr
    let state :=
      if state.cc.p = 0 then
        let state := { state with memory := store state.memory ((state.pc : Int) - 1) (((state.pc >>> 8) &&& 0xff) % 256) }
        let state := { state with memory := store state.memory ((state.pc : Int) - 2) ((state.pc &&& 0xff) % 256) }
        let state := { state with sp := (state.sp + 2) % 65536 }
        let state := { state with pc := (((state.memory (opCode + 2)) <<< 8) ||| (state.memory (opCode + 1))) % 65536 }
        state
      else
        let state := { state with pc := (state.pc + 2) % 65536 }
        state
    pure state
  else if op = 0xee then do  -- XRI D8
    let val := (state.a ^^^ (state.memory (opCode + 1))) % 65536
    let state := { state with cc.z := cbool ((val &&& 0xff) = 0) }
    let state := { state with cc.s := cbool ((val &&& 0x80) ≠ 0) }
    let state := { state with cc.cy := cbool (val > 0xff) }
    let state := { state with cc.p := (parity ((val &&& 0xff) % 256)) % 2 }
    let state := { state with a := (val &&& 0xff) % 256 }
    let state := { state with pc := (state.pc + 1) % 65536 }
    pure state
  else if op = 0xef then do  -- RST 5
    let state := { state with memory := store state.memory ((state.pc : Int) - 1) (((state.pc >>> 8) &&& 0xff) % 256) }
    let state := { state with memory := store state.memory ((state.pc : Int) - 2) ((state.pc &&& 0xff) % 256) }
    let state := { state with sp := (state.sp + 2) % 65536 }
    let state := { state with pc := 0x28 }
    pure state
  else if op = 0xf0 then do  -- RP
    let state :=
      if state.cc.cy = 0 then
        let state := { state with pc := (((state.memory ((state.sp + 1 : Nat) : Int)) <<< 8) ||| (state.memory (state.sp : Int))) % 65536 }
        let state := { state with sp := (state.sp + 2) % 65536 }
        state
      else
        state
    pure state
  else if op = 0xf1 then do  -- POP PSW
    let state := { state with a := state.memory ((state.sp + 1 : Nat) : Int) }
    let psw := state.memory (state.sp : Int)
    let state := { state with cc.z := (psw &&& 0xfe) % 2 }
    let state := { state with cc.s := (psw &&& 0xfd) % 2 }
    let state := { state with cc.p := (psw &&& 0xfb) % 2 }
    let state := { state with cc.cy := (psw &&& 0xf7) % 2 }
    let state := { state with cc.ac := (psw &&& 0x2f) % 2 }
    let state := { state with cc.pad := (psw &&& 0x1f) % 2 }
    pure state
  else if op = 0xf2 then do  -- JP adr
    let state :=
      if state.cc.p = 0 then
        let state := { state with pc := (((state.memory (opCode + 2)) <<< 8) ||| (state.memory (opCode + 1))) % 65536 }
        state
      else
        let state := { state with pc := (state.pc + 2) % 65536 }
        state
    pure state
  else if op = 0xf3 then do  -- DI
    let state := { state with intEnable := 0 }
    pure state
  else if op = 0xf4 then do  -- CP adr
    let state :=
      if state.cc.p = 0 then
        let state := { state with memory := store state.memory ((state.pc : Int) - 1) (((state.pc >>> 8) &&& 0xff) % 256) }
        let state := { state with memory := store state.memory ((state.pc : Int) - 2) ((state.pc &&& 0xff) % 256) }
        let state := { state with sp := (state.sp + 2) % 65536 }
        let state := { state with pc := (((state.memory (opCode + 2)) <<< 8) ||| (state.memory (opCode + 1))) % 65536 }
        state
      else
        let state := { state with pc := (state.pc + 2) % 65536 }
        state
    pure state
  else if op = 0xf5 then do  -- PUSH PSW
    let state := { state with memory := store state.memory ((state.sp : Int) - 1) (state.a) }
    let state := { state with memory := store state.memory ((state.sp : Int) - 2) ((((((state.cc.z ||| (state.cc.s <<< 1)) ||| (state.cc.p <<< 2)) ||| (state.cc.cy <<< 3)) ||| (state.cc.ac <<< 4)) ||| (state.cc.pad <<< 5)) % 256) }
    let state := { state with sp := Int.toNat (((state.sp : Int) - 2) % 65536) }
    pure state
  else if op = 0xf6 then do  -- ORI D8
    let val := (state.a ||| (state.memory (opCode + 1))) % 65536
    let state := { state with cc.z := cbool ((val &&& 0xff) = 0) }
    let state := { state with cc.s := cbool ((val &&& 0x80) ≠ 0) }
    let state := { state with cc.cy := cbool (val > 0xff) }
    let state := { state with cc.p := (parity ((val &&& 0xff) % 256)) % 2 }
    let state := { state with a := (val &&& 0xff) % 256 }
    let state := { state with pc := (state.pc + 1) % 65536 }
    pure state
  else if op = 0xf7 then do  -- RST 6
    let state := { state with memory := store state.memory ((state.pc : Int) - 1) (((state.pc >>> 8) &&& 0xff) % 256) }
    let state := { state with memory := store state.memory ((state.pc : Int) - 2) ((state.pc &&& 0xff) % 256) }
    let state := { state with sp := (state.sp + 2) % 65536 }
    let state := { state with pc := 0x30 }
    pure state
  else if op = 0xf8 then do  -- RM
    let state :=
      if state.cc.s = 1 then
        let state := { state with pc := (((state.memory ((state.sp + 1 : Nat) : Int)) <<< 8) ||| (state.memory (state.sp : Int))) % 65536 }
        let state := { state with sp := (state.sp + 2) % 65536 }
        state
      else
        state
    pure state
  else if op = 0xf9 then do  -- SPHL
    let state := { state with sp := ((state.h <<< 8) ||| state.l) % 65536 }
    pure state
  else if op = 0xfa then do  -- JM adr
    let state :=
      if state.cc.s = 1 then
        let state := { state with pc := (((state.memory (opCode + 2)) <<< 8) ||| (state.memory (opCode + 1))) % 65536 }
        state
      else
        let state := { state with pc := (state.pc + 2) % 65536 }
        state
    pure state
  else if op = 0xfb then do  -- EI
    let state := { state with intEnable := 1 }
    pure state
  else if op = 0xfc then do  -- CM adr
    let state :=
      if state.cc.s = 1 then
        let state := { state with memory := store state.memory ((state.pc : Int) - 1) (((state.pc >>> 8) &&& 0xff) % 256) }
        let state := { state with memory := store state.memory ((state.pc : Int) - 2) ((state.pc &&& 0xff) % 256) }
        let state := { state with sp := (state.sp + 2) % 65536 }
        let state := { state with pc := (((state.memory (opCode + 2)) <<< 8) ||| (state.memory (opCode + 1))) % 65536 }
        state
      else
        let state := { state with pc := (state.pc + 2) % 65536 }
        state
    pure state
  else if op = 0xfe then do  -- CPI D8
    let val := Int.toNat (((state.a : Int) - ((state.memory (opCode + 1) : Nat) : Int)) % 65536)
    let state := { state with cc.z := cbool ((val &&& 0xff) = 0) }
    let state := { state with cc.s := cbool ((val &&& 0x80) ≠ 0) }
    let state := { state with cc.cy := cbool (val > 0xff) }
    let state := { state with cc.p := (parity ((val &&& 0xff) % 256)) % 2 }
    let state := { state with pc := (state.pc + 1) % 65536 }
    pure state
  else if op = 0xff then do  -- RST 7
    let state := { state with memory := store state.memory ((state.pc : Int) - 1) (((state.pc >>> 8) &&& 0xff) % 256) }
    let state := { state with memory := store state.memory ((state.pc : Int) - 2) ((state.pc &&& 0xff) % 256) }
    let state := { state with sp := (state.sp + 2) % 65536 }
    let state := { state with pc := 0x38 }
    pure state
  else pure state

/-- The `switch(*opCode)` of `emulateOp`. The thirteen labels of the first group share the
body `break`; a byte that matches no label leaves the state as it is. -/
def emulateOpSwitch (opCode : Int) (state : state8080) : Except Stop state8080 :=
  let op := state.memory opCode
  if op = 0x00 ∨ op = 0x08 ∨ op = 0x10 ∨ op = 0x18 ∨ op = 0x20 ∨ op = 0x28 ∨ op = 0x30 ∨ op = 0x38
      ∨ op = 0xcb ∨ op = 0xd9 ∨ op = 0xdd ∨ op = 0xed ∨ op = 0xfd then
    pure state  -- NOP
  else if op ≤ 0x3f then emulateOpRegister op opCode state
  else if op ≤ 0x7f then emulateOpTransfer op state
  else if op ≤ 0x9f then emulateOpArith op state
  else if op ≤ 0xbf then emulateOpLogic op state
  else emulateOpBranch op opCode state

/-- Function `emulateOp`: executes the instruction at `pc`, then increments `pc` and returns
`cycles[*opCode]`, where `*opCode` is read from memory after the instruction has run. -/
def emulateOp (state : state8080) : Except Stop (state8080 × Option Nat) := do
  let opCode : Int := state.pc
  let state ← emulateOpSwitch opCode state
  let state := { state with pc := (state.pc + 1) % 65536 }
  pure (state, cycles[state.memory opCode]?)

/-- Function `generateInterrupt`. -/
def generateInterrupt (state : state8080) (number : Int) : state8080 :=
  let state := { state with memory := store state.memory ((state.sp : Int) - 2) ((state.pc &&& 0xff) % 256) }
  let state := { state with memory := store state.memory ((state.sp : Int) - 1) (((state.pc >>> 8) &&& 0xff) % 256) }
  let state := { state with pc := Int.toNat ((8 * number) % 65536) }
  state

/-! ## Notions used to state the properties -/

/-- Runs `emulateOp` the given number of times, as the loop of `main` does, and collects the
returned costs. The run ends at the first step that ends the process. -/
def emulateOpTimes : Nat → state8080 → Except Stop (state8080 × List (Option Nat))
  | 0, state => pure (state, [])
  | n + 1, state => do
    let (state, cost) ← emulateOp state
    let (state, costs) ← emulateOpTimes n state
    pure (state, cost :: costs)

/-- State used to instantiate the no-op property: three no-op bytes at the top of memory, so
that the program counter wraps around. -/
def nopState : state8080 :=
  { a := 1, b := 2, c := 3, d := 4, e := 5, h := 6, l := 7, sp := 0x2400, pc := 0xFFFE,
    memory := fun i => if i = 0xFFFE ∨ i = 0xFFFF ∨ i = 0 then 0x00 else 0x76,
    cc := { z := 1, s := 0, p := 1, cy := 0, ac := 1, pad := 0 }, intEnable := 1 }

/-- Opcodes of the ADD, ADC, SUB, SBB, ANA, XRA, ORA and CMP families: the register and M
forms 0x80 to 0xBF and the immediate forms 0xC6, 0xCE, 0xD6, 0xDE, 0xE6, 0xEE, 0xF6, 0xFE. -/
@[reducible] def isAluOpcode (op : Nat) : Prop :=
  (0x80 ≤ op ∧ op ≤ 0xBF) ∨ op = 0xC6 ∨ op = 0xCE ∨ op = 0xD6 ∨ op = 0xDE ∨ op = 0xE6
    ∨ op = 0xEE ∨ op = 0xF6 ∨ op = 0xFE

/-- Family of an ALU opcode, bits 3 to 5 of the opcode: 0 ADD, 1 ADC, 2 SUB, 3 SBB, 4 ANA,
5 XRA, 6 ORA, 7 CMP. -/
def aluFamily (op : Nat) : Nat := op / 8 % 8

/-- Operand of an ALU opcode: the byte after the opcode for the immediate forms, otherwise the
register selected by bits 0 to 2 (B, C, D, E, H, L, the memory operand M at address
`(H << 8) | L`, A). -/
def aluOperand (state : state8080) (op : Nat) : Nat :=
  if 0xC0 ≤ op then state.memory ((state.pc : Int) + 1)
  else if op % 8 = 0 then state.b
  else if op % 8 = 1 then state.c
  else if op % 8 = 2 then state.d
  else if op % 8 = 3 then state.e
  else if op % 8 = 4 then state.h
  else if op % 8 = 5 then state.l
  else if op % 8 = 6 then state.memory (((state.h <<< 8) ||| state.l : Nat) : Int)
  else state.a

/-- Carry or borrow taken in by an ALU opcode: the Carry flag for ADC and SBB, 0 otherwise. -/
def aluCarryIn (state : state8080) (op : Nat) : Nat :=
  if aluFamily op = 1 ∨ aluFamily op = 3 then state.cc.cy else 0

/-- Result of the operation of an ALU opcode as an integer, before any truncation:
sum for ADD and ADC, difference for SUB, SBB and CMP, bitwise combination for ANA, XRA, ORA. -/
def aluResult (state : state8080) (op : Nat) : Int :=
  if aluFamily op = 0 ∨ aluFamily op = 1 then
    (state.a : Int) + (aluOperand state op : Int) + (aluCarryIn state op : Int)
  else if aluFamily op = 2 ∨ aluFamily op = 3 ∨ aluFamily op = 7 then
    (state.a : Int) - (aluOperand state op : Int) - (aluCarryIn state op : Int)
  else if aluFamily op = 4 then ((state.a &&& aluOperand state op : Nat) : Int)
  else if aluFamily op = 5 then ((state.a ^^^ aluOperand state op : Nat) : Int)
  else ((state.a ||| aluOperand state op : Nat) : Int)

/-- Low 8 bits of an integer result (two's complement for a negative one). -/
def lowByte (r : Int) : Nat := Int.toNat (r % 256)

/-- Number of set bits among the bits 0 to 7 of a number. -/
def setBitCount (x : Nat) : Nat := (List.range 8).countP (fun i => Nat.testBit x i)

/-- The 16-bit intermediate `val` of the ALU cases of the switch, family by family. -/
def aluVal (state : state8080) (op : Nat) : Nat :=
  if aluFamily op = 0 then (state.a + aluOperand state op) % 65536
  else if aluFamily op = 1 then (state.a + aluOperand state op + state.cc.cy) % 65536
  else if aluFamily op = 2 ∨ aluFamily op = 7 then
    Int.toNat (((state.a : Int) - (aluOperand state op : Int)) % 65536)
  else if aluFamily op = 3 then
    Int.toNat (((state.a : Int) - (aluOperand state op : Int) - (state.cc.cy : Int)) % 65536)
  else if aluFamily op = 4 then (state.a &&& aluOperand state op) % 65536
  else if aluFamily op = 5 then (state.a ^^^ aluOperand state op) % 65536
  else (state.a ||| aluOperand state op) % 65536

/-- State after one step at an ALU opcode, in terms of the intermediate `val`: the four flag
assignments, the write-back to A (absent for CMP and CPI) and the movement of `pc`. -/
def aluNext (state : state8080) (op : Nat) : state8080 :=
  let val := aluVal state op
  { state with
    a := if aluFamily op = 7 then state.a else (val &&& 0xff) % 256
    cc := { state.cc with
      z := cbool ((val &&& 0xff) = 0)
      s := cbool ((val &&& 0x80) ≠ 0)
      cy := cbool (val > 0xff)
      p := (parity ((val &&& 0xff) % 256)) % 2 }
    pc := if 0xC0 ≤ op then ((state.pc + 1) % 65536 + 1) % 65536 else (state.pc + 1) % 65536 }

/-- Addition opcodes: ADD r, ADD M (0x80 to 0x87), ADC r, ADC M (0x88 to 0x8F), ADI (0xC6)
and ACI (0xCE). -/
@[reducible] def isAddOpcode (op : Nat) : Prop := (0x80 ≤ op ∧ op ≤ 0x8F) ∨ op = 0xC6 ∨ op = 0xCE

/-- Subtraction opcodes: SUB and SBB (0x90 to 0x9F), CMP (0xB8 to 0xBF), SUI (0xD6),
SBI (0xDE) and CPI (0xFE). -/
@[reducible] def isSubOpcode (op : Nat) : Prop :=
  (0x90 ≤ op ∧ op ≤ 0x9F) ∨ (0xB8 ≤ op ∧ op ≤ 0xBF) ∨ op = 0xD6 ∨ op = 0xDE ∨ op = 0xFE

/-- A well-formed state with the given opcode at `pc = 0x1000` and the given two bytes after
it; H:L points to a byte 0xFF at 0x2410 and the Carry flag is set. -/
def sampleState (op imm1 imm2 : Nat) : state8080 :=
  { a := 0x3A, b := 0x5C, c := 0x03, d := 0x04, e := 0x05, h := 0x24, l := 0x10,
    sp := 0x2400, pc := 0x1000,
    memory := fun i =>
      if i = 0x1000 then op else if i = 0x1001 then imm1 else if i = 0x1002 then imm2
      else if i = 0x2410 then 0xFF else 0x00,
    cc := { z := 0, s := 0, p := 0, cy := 1, ac := 0, pad := 0 }, intEnable := 0 }

/-- Register pairs that PUSH and POP move as a 16-bit value. -/
inductive RegPair where
  | BC
  | DE
  | HL

/-- Opcode of `PUSH rp`. -/
def RegPair.pushOpcode : RegPair → Nat
  | .BC => 0xC5
  | .DE => 0xD5
  | .HL => 0xE5

/-- Opcode of `POP rp`. -/
def RegPair.popOpcode : RegPair → Nat
  | .BC => 0xC1
  | .DE => 0xD1
  | .HL => 0xE1

/-- High register of a pair (B, D or H). -/
def RegPair.high : RegPair → state8080 → Nat
  | .BC, state => state.b
  | .DE, state => state.d
  | .HL, state => state.h

/-- Low register of a pair (C, E or L). -/
def RegPair.low : RegPair → state8080 → Nat
  | .BC, state => state.c
  | .DE, state => state.e
  | .HL, state => state.l

/-- A well-formed state with `PUSH PSW` at `pc = 0x1000` followed by `POP PSW`, the Zero flag
set and the other flags clear; the stack slots 0x23FF and 0x23FE are away from the code. -/
def pswState : state8080 :=
  { a := 0x3A, b := 0x5C, c := 0x03, d := 0x04, e := 0x05, h := 0x24, l := 0x10,
    sp := 0x2400, pc := 0x1000,
    memory := fun i => if i = 0x1000 then 0xF5 else if i = 0x1001 then 0xF1 else 0x00,
    cc := { z := 1, s := 0, p := 0, cy := 0, ac := 0, pad := 0 }, intEnable := 0 }

/-- A well-formed state with `CALL 0x5000` at `pc = 0x3000`, `RET` at 0x5000, no-op bytes
everywhere else and `sp = 0x4000`. -/
def callState : state8080 :=
  { a := 0x3A, b := 0x5C, c := 0x03, d := 0x04, e := 0x05, h := 0x24, l := 0x10,
    sp := 0x4000, pc := 0x3000,
    memory := fun i =>
      if i = 0x3000 then 0xCD else if i = 0x3001 then 0x00 else if i = 0x3002 then 0x50
      else if i = 0x5000 then 0xC9 else 0x00,
    cc := { z := 0, s := 0, p := 0, cy := 0, ac := 0, pad := 0 }, intEnable := 0 }

/-- Register pairs of the INX and DCX instructions: B:C, D:E, H:L and the stack pointer. -/
inductive WidePair where
  | BC
  | DE
  | HL
  | SP

/-- Opcode of `INX rp`. -/
def WidePair.inxOpcode : WidePair → Nat
  | .BC => 0x03
  | .DE => 0x13
  | .HL => 0x23
  | .SP => 0x33

/-- Opcode of `DCX rp`. -/
def WidePair.dcxOpcode : WidePair → Nat
  | .BC => 0x0B
  | .DE => 0x1B
  | .HL => 0x2B
  | .SP => 0x3B

/-- The 16-bit value of a pair: the first-named register is the high byte. -/
def WidePair.value : WidePair → state8080 → Nat
  | .BC, state => state.b * 256 + state.c
  | .DE, state => state.d * 256 + state.e
  | .HL, state => state.h * 256 + state.l
  | .SP, state => state.sp

/-- The state `sampleState op 0 0` with the given bytes in H and L. -/
def pairState (op h l : Nat) : state8080 :=
  { sampleState op 0 0 with h := h, l := l }

/-- A well-formed state with `pc = 0x1234`, `sp = 0x2400`, interrupts enabled and a memory of
no-op bytes. -/
def interruptState : state8080 :=
  { a := 0x3A, b := 0x5C, c := 0x03, d := 0x04, e := 0x05, h := 0x24, l := 0x10,
    sp := 0x2400, pc := 0x1234,
    memory := fun _ => 0x00,
    cc := { z := 0, s := 1, p := 0, cy := 1, ac := 0, pad := 0 }, intEnable := 1 }

/-- A well-formed state whose instruction `MOV M,A` at `pc = 0x3000` stores A = 0x01 at the
address H:L = 0x3000, that is, over its own opcode byte. -/
def selfStoreState : state8080 :=
  { a := 0x01, b := 0x5C, c := 0x03, d := 0x04, e := 0x05, h := 0x30, l := 0x00,
    sp := 0x2400, pc := 0x3000,
    memory := fun i => if i = 0x3000 then 0x77 else 0x00,
    cc := { z := 0, s := 0, p := 0, cy := 0, ac := 0, pad := 0 }, intEnable := 0 }

/-- Opcodes of the conditional returns (0xC0 + 8k), jumps (0xC2 + 8k) and calls (0xC4 + 8k),
k = 0 .. 7. -/
@[reducible] def isConditionalOpcode (op : Nat) : Prop :=
  0xC0 ≤ op ∧ op ≤ 0xFF ∧ (op % 8 = 0 ∨ op % 8 = 2 ∨ op % 8 = 4)

/-- The state `sampleState op imm1 imm2` with the Zero, Sign and Parity flags set and the
Carry flag clear. -/
def flippedState (op imm1 imm2 : Nat) : state8080 :=
  { sampleState op imm1 imm2 with cc := { z := 1, s := 1, p := 1, cy := 0, ac := 0, pad := 0 } }

/-- Opcodes that transfer control or end the run: JMP and the conditional jumps, CALL and the
conditional calls, RET and the conditional returns, RST n, PCHL, IN, OUT, HLT and DAA. -/
@[reducible] def isControlOpcode (op : Nat) : Prop :=
  op = 0xC3 ∨ op = 0xCD ∨ op = 0xC9 ∨ op = 0xE9 ∨ op = 0xDB ∨ op = 0xD3 ∨ op = 0x76
    ∨ op = 0x27
    ∨ (0xC0 ≤ op ∧ (op % 8 = 0 ∨ op % 8 = 2 ∨ op % 8 = 4 ∨ op % 8 = 7))

/-- Number of immediate bytes of an opcode: 2 for LXI, SHLD, LHLD, STA and LDA, 1 for MVI
and the immediate ALU opcodes (ADI, ACI, SUI, SBI, ANI, XRI, ORI, CPI), 0 otherwise. -/
def operandLength (op : Nat) : Nat :=
  if op = 0x01 ∨ op = 0x11 ∨ op = 0x21 ∨ op = 0x31 ∨ op = 0x22 ∨ op = 0x2A ∨ op = 0x32
      ∨ op = 0x3A then 2
  else if (op < 0x40 ∧ op % 8 = 6) ∨ (0xC0 ≤ op ∧ op % 8 = 6) then 1
  else 0

/-- Data-movement opcodes: MOV (0x40 to 0x7F except 0x76), MVI, LXI, LDA, STA, LDAX, STAX,
LHLD, SHLD, XCHG, SPHL, and PUSH and POP of the pairs B, D, H. -/
@[reducible] def isDataMovementOpcode (op : Nat) : Prop :=
  (0x40 ≤ op ∧ op ≤ 0x7F ∧ op ≠ 0x76) ∨ (op < 0x40 ∧ op % 8 = 6)
    ∨ op = 0x01 ∨ op = 0x11 ∨ op = 0x21 ∨ op = 0x31
    ∨ op = 0x3A ∨ op = 0x32 ∨ op = 0x0A ∨ op = 0x1A ∨ op = 0x02 ∨ op = 0x12
    ∨ op = 0x2A ∨ op = 0x22 ∨ op = 0xEB ∨ op = 0xF9
    ∨ op = 0xC5 ∨ op = 0xD5 ∨ op = 0xE5 ∨ op = 0xC1 ∨ op = 0xD1 ∨ op = 0xE1

/-- Opcode of `LXI rp,d16`. -/
def WidePair.lxiOpcode : WidePair → Nat
  | .BC => 0x01
  | .DE => 0x11
  | .HL => 0x21
  | .SP => 0x31

/-- Low half of a pair: C, E, L, or the low byte of the stack pointer. -/
def WidePair.lowHalf : WidePair → state8080 → Nat
  | .BC, state => state.c
  | .DE, state => state.e
  | .HL, state => state.l
  | .SP, state => state.sp % 256

/-- High half of a pair: B, D, H, or the high byte of the stack pointer. -/
def WidePair.highHalf : WidePair → state8080 → Nat
  | .BC, state => state.b
  | .DE, state => state.d
  | .HL, state => state.h
  | .SP, state => state.sp / 256

/-- The seven 8-bit registers. -/
inductive Reg8 where
  | B
  | C
  | D
  | E
  | H
  | L
  | A

/-- Value of a register in a state. -/
def Reg8.get : Reg8 → state8080 → Nat
  | .B, state => state.b
  | .C, state => state.c
  | .D, state => state.d
  | .E, state => state.e
  | .H, state => state.h
  | .L, state => state.l
  | .A, state => state.a

/-- Opcode of `MOV r,M`. -/
def Reg8.movFromMOpcode : Reg8 → Nat
  | .B => 0x46
  | .C => 0x4E
  | .D => 0x56
  | .E => 0x5E
  | .H => 0x66
  | .L => 0x6E
  | .A => 0x7E

/-- Opcode of `MOV M,r`. -/
def Reg8.movToMOpcode : Reg8 → Nat
  | .B => 0x70
  | .C => 0x71
  | .D => 0x72
  | .E => 0x73
  | .H => 0x74
  | .L => 0x75
  | .A => 0x77

/-- The M forms of the ALU opcodes: ADD M, ADC M, SUB M, SBB M, ANA M, XRA M, ORA M, CMP M. -/
@[reducible] def isAluMOpcode (op : Nat) : Prop :=
  op = 0x86 ∨ op = 0x8E ∨ op = 0x96 ∨ op = 0x9E ∨ op = 0xA6 ∨ op = 0xAE ∨ op = 0xB6
    ∨ op = 0xBE

/-- Address of the memory operand M: `(H << 8) | L`. -/
def addressM (state : state8080) : Nat := (state.h <<< 8) ||| state.l

/-- The state `sampleState op imm1 imm2` with the Sign flag set and the Zero, Parity and
Carry flags clear. -/
def signState (op imm1 imm2 : Nat) : state8080 :=
  { sampleState op imm1 imm2 with cc := { z := 0, s := 1, p := 0, cy := 0, ac := 0, pad := 0 } }

/-- A well-formed state with RAL at `pc = 0x1000` followed by RAR, A = 0x80 and the Carry
flag clear. -/
def rotateState : state8080 :=
  { a := 0x80, b := 0x5C, c := 0x03, d := 0x04, e := 0x05, h := 0x24, l := 0x10,
    sp := 0x2400, pc := 0x1000,
    memory := fun i => if i = 0x1000 then 0x17 else if i = 0x1001 then 0x1F else 0x00,
    cc := { z := 0, s := 0, p := 0, cy := 0, ac := 0, pad := 0 }, intEnable := 0 }

/-- A well-formed state with `SHLD 0x1001` at `pc = 0x1000`, whose address operand is the
instruction's own second byte, followed by `LHLD 0x1001` at 0x1003; H = 0x24, L = 0x10. -/
def shldState : state8080 :=
  { a := 0x3A, b := 0x5C, c := 0x03, d := 0x04, e := 0x05, h := 0x24, l := 0x10,
    sp := 0x2400, pc := 0x1000,
    memory := fun i =>
      if i = 0x1000 then 0x22 else if i = 0x1001 then 0x01 else if i = 0x1002 then 0x10
      else if i = 0x1003 then 0x2A else if i = 0x1004 then 0x01 else if i = 0x1005 then 0x10
      else 0x00,
    cc := { z := 0, s := 0, p := 0, cy := 0, ac := 0, pad := 0 }, intEnable := 0 }

/-- A well-formed state with XTHL at `pc = 0x1000`, H = 0x24, L = 0x10, `sp = 0x2400` and
the bytes 0xAA, 0xBB at the top of the stack. -/
def xthlState : state8080 :=
  { a := 0x3A, b := 0x5C, c := 0x03, d := 0x04, e := 0x05, h := 0x24, l := 0x10,
    sp := 0x2400, pc := 0x1000,
    memory := fun i =>
      if i = 0x1000 then 0xE3 else if i = 0x1001 then 0xE3 else if i = 0x2400 then 0xAA
      else if i = 0x2401 then 0xBB else 0x00,
    cc := { z := 0, s := 0, p := 0, cy := 0, ac := 0, pad := 0 }, intEnable := 0 }

/-- Compare opcodes: CMP r and CMP M (0xB8 to 0xBF) and CPI (0xFE). -/
@[reducible] def isCmpOpcode (op : Nat) : Prop := (0xB8 ≤ op ∧ op ≤ 0xBF) ∨ op = 0xFE

/-- The subtraction opcode with the same operand form as a compare opcode: SUB r for CMP r,
SUB M for CMP M, SUI for CPI. -/
def cmpToSub (op : Nat) : Nat := if op = 0xFE then 0xD6 else op - 0x28

/-- The same state with another opcode byte at `pc`. -/
def withOpcode (state : state8080) (op : Nat) : state8080 :=
  { state with memory := store state.memory (state.pc : Int) op }

/-- Logical opcodes: ANA, XRA, ORA in register and M forms (0xA0 to 0xB7), ANI (0xE6),
XRI (0xEE) and ORI (0xF6). -/
@[reducible] def isLogicOpcode (op : Nat) : Prop :=
  (0xA0 ≤ op ∧ op ≤ 0xB7) ∨ op = 0xE6 ∨ op = 0xEE ∨ op = 0xF6

/-- Targets of INR and DCR: the seven registers and the memory operand M. -/
inductive Target8 where
  | B
  | C
  | D
  | E
  | H
  | L
  | M
  | A

/-- Value of a target in a state; M is the byte at `(H << 8) | L`. -/
def Target8.get : Target8 → state8080 → Nat
  | .B, state => state.b
  | .C, state => state.c
  | .D, state => state.d
  | .E, state => state.e
  | .H, state => state.h
  | .L, state => state.l
  | .M, state => state.memory (addressM state)
  | .A, state => state.a

/-- Opcode of `INR t`. -/
def Target8.inrOpcode : Target8 → Nat
  | .B => 0x04
  | .C => 0x0C
  | .D => 0x14
  | .E => 0x1C
  | .H => 0x24
  | .L => 0x2C
  | .M => 0x34
  | .A => 0x3C

/-- Opcode of `DCR t`. -/
def Target8.dcrOpcode : Target8 → Nat
  | .B => 0x05
  | .C => 0x0D
  | .D => 0x15
  | .E => 0x1D
  | .H => 0x25
  | .L => 0x2D
  | .M => 0x35
  | .A => 0x3D

/-! ## Auxiliary facts: accessors and bit operations -/

/-- The fault branch of `readFromMemory` is never taken: the 16-bit address is below 0x10000. -/
theorem readFromMemory_eq (state : state8080) (topBits botBits : Nat) :
    readFromMemory state topBits botBits
      = .ok (state.memory ((((topBits <<< 8) ||| botBits) % 65536 : Nat) : Int)) := by
  have h : ¬ ((topBits <<< 8 ||| botBits) % 65536 ≥ 0x10000) := by omega
  simp only [readFromMemory, h, if_false, pure, Except.pure]

/-- Two bytes combined as `(x << 8) | y` stay below 0x10000. -/
theorem shl8_or_lt (x y : Nat) (hx : x < 256) (hy : y < 256) : (x <<< 8 ||| y) < 65536 := by
  have h1 : x <<< 8 < 2 ^ 16 := by rw [Nat.shiftLeft_eq]; omega
  have h2 : y < 2 ^ 16 := by omega
  exact Nat.or_lt_two_pow h1 h2

/-- Masking with 0xff keeps the low byte. -/
theorem and_255 (x : Nat) : x &&& 255 = x % 256 :=
  Nat.and_pow_two_sub_one_eq_mod x 8

/-- Masking with 0x80 isolates bit 7. -/
theorem and_128 (x : Nat) : x &&& 128 = x / 128 % 2 * 128 := by
  have h := Nat.and_two_pow x 7
  rw [Nat.testBit_to_div_mod] at h
  simp only [Nat.reducePow] at h
  rw [h]
  by_cases hb : x / 128 % 2 = 1
  · simp [hb]
  · have hb0 : x / 128 % 2 = 0 := by omega
    simp [hb0]

/-- On a byte, `parity` is the number of set bits modulo 2 (checked on all 256 bytes). -/
theorem parity_eq (x : Nat) (hx : x < 256) : parity x = setBitCount x % 2 := by
  revert x
  unfold setBitCount
  decide

/-! ## The sample states are well formed -/

/-- The states `sampleState op imm1 imm2` built from bytes are well formed. -/
theorem sampleState_wellFormed (op imm1 imm2 : Nat) (h0 : op < 256) (h1 : imm1 < 256)
    (h2 : imm2 < 256) : (sampleState op imm1 imm2).WellFormed := by
  refine ⟨?_, ?_, ?_, ?_, ?_, ?_, ?_, ?_, ?_, ?_, ?_, ?_, ?_, ?_, ?_, ?_, ?_⟩ <;>
    first
    | (intro i; simp only [sampleState]; split_ifs <;> first | assumption | decide)
    | simp [sampleState]

/-- The state `nopState` is well formed. -/
theorem nopState_wellFormed : nopState.WellFormed := by
  refine ⟨?_, ?_, ?_, ?_, ?_, ?_, ?_, ?_, ?_, ?_, ?_, ?_, ?_, ?_, ?_, ?_, ?_⟩ <;>
    first
    | (intro i; simp only [nopState]; split <;> decide)
    | decide

/-- The state `pswState` is well formed. -/
theorem pswState_wellFormed : pswState.WellFormed := by
  refine ⟨?_, ?_, ?_, ?_, ?_, ?_, ?_, ?_, ?_, ?_, ?_, ?_, ?_, ?_, ?_, ?_, ?_⟩ <;>
    first
    | (intro i; simp only [pswState]; split_ifs <;> decide)
    | decide

/-- The state `callState` is well formed. -/
theorem callState_wellFormed : callState.WellFormed := by
  refine ⟨?_, ?_, ?_, ?_, ?_, ?_, ?_, ?_, ?_, ?_, ?_, ?_, ?_, ?_, ?_, ?_, ?_⟩ <;>
    first
    | (intro i; simp only [callState]; split_ifs <;> decide)
    | decide

/-! ## Step lemmas shared by the properties -/

/-- One step at a no-op byte: only `pc` moves, and the cost is `cycles[0]`. -/
theorem emulateOp_nop (state : state8080) (h : state.memory state.pc = 0x00) :
    emulateOp state = .ok ({ state with pc := (state.pc + 1) % 65536 }, some 4) := by
  simp [emulateOp, emulateOpSwitch, h, bind, Except.bind, pure, Except.pure, cycles]

set_option maxHeartbeats 4000000 in
/-- One step at any of the 72 ALU opcodes, case by case: the step succeeds and yields
`aluNext`, and the cost is read at the opcode (memory is not written). -/
theorem emulateOp_alu (state : state8080) (hwf : state.WellFormed) (op : Nat)
    (hop : isAluOpcode op) (hfetch : state.memory state.pc = op) :
    emulateOp state = .ok (aluNext state op, cycles[op]?) := by
  have hhl : (state.h <<< 8 ||| state.l) % 65536 = state.h <<< 8 ||| state.l :=
    Nat.mod_eq_of_lt (shl8_or_lt _ _ hwf.h_lt hwf.l_lt)
  unfold isAluOpcode at hop
  rcases hop with ⟨h1, h2⟩ | h | h | h | h | h | h | h | h
  · interval_cases op <;>
      simp [emulateOp, emulateOpSwitch, emulateOpArith, emulateOpLogic, hfetch, bind, Except.bind,
        pure, Except.pure, readFromMemory_eq, aluNext, aluVal, aluOperand, aluFamily, hhl, cbool]
  all_goals
    subst h
    simp [emulateOp, emulateOpSwitch, emulateOpBranch, hfetch, bind, Except.bind,
        pure, Except.pure, aluNext, aluVal, aluOperand, aluFamily, cbool]

/-- The intermediate `val` is the integer result converted to 16 bits. -/
theorem aluVal_eq (state : state8080) (op : Nat) :
    aluVal state op = Int.toNat (aluResult state op % 65536) := by
  unfold aluVal aluResult aluCarryIn
  generalize aluFamily op = f
  generalize aluOperand state op = x
  generalize state.a &&& x = v1
  generalize state.a ^^^ x = v2
  generalize state.a ||| x = v3
  split_ifs <;> omega

/-- The operand of an ALU opcode is a byte. -/
theorem aluOperand_lt (state : state8080) (hwf : state.WellFormed) (op : Nat) :
    aluOperand state op < 256 := by
  unfold aluOperand
  split_ifs
  · exact hwf.memory_lt _
  · exact hwf.b_lt
  · exact hwf.c_lt
  · exact hwf.d_lt
  · exact hwf.e_lt
  · exact hwf.h_lt
  · exact hwf.l_lt
  · exact hwf.memory_lt _
  · exact hwf.a_lt

/-- Every subtraction opcode is an ALU opcode. -/
theorem isAluOpcode_of_sub (op : Nat) (hop : isSubOpcode op) : isAluOpcode op := by
  unfold isSubOpcode at hop
  unfold isAluOpcode
  omega

/-- For a subtraction opcode the intermediate `val` exceeds 0xFF exactly when the
accumulator is smaller than the operand plus the borrow taken in. -/
theorem aluVal_sub_gt (state : state8080) (hwf : state.WellFormed) (op : Nat)
    (hop : isSubOpcode op) :
    aluVal state op > 0xff ↔ state.a < aluOperand state op + aluCarryIn state op := by
  have hfam : aluFamily op = 2 ∨ aluFamily op = 3 ∨ aluFamily op = 7 := by
    unfold isSubOpcode at hop
    unfold aluFamily
    omega
  have hx := aluOperand_lt state hwf op
  have ha := hwf.a_lt
  have hc : aluCarryIn state op < 2 := by
    unfold aluCarryIn
    split_ifs
    · exact hwf.cy_lt
    · decide
  have hn : ¬ (aluFamily op = 0 ∨ aluFamily op = 1) := by omega
  rw [aluVal_eq]
  unfold aluResult
  rw [if_neg hn, if_pos hfam]
  omega

/-- One step at `PUSH rp`: the pair is stored at `sp - 1` (high) and `sp - 2` (low), and `sp`
moves down by 2. -/
theorem emulateOp_push (rp : RegPair) (state : state8080)
    (hfetch : state.memory state.pc = rp.pushOpcode) :
    ∃ cost, emulateOp state = .ok ({ state with
        memory := store (store state.memory ((state.sp : Int) - 1) (rp.high state))
          ((state.sp : Int) - 2) (rp.low state)
        sp := Int.toNat (((state.sp : Int) - 2) % 65536)
        pc := (state.pc + 1) % 65536 }, cost) := by
  cases rp <;> simp only [RegPair.pushOpcode] at hfetch <;>
    simp [emulateOp, emulateOpSwitch, emulateOpBranch, hfetch, bind, Except.bind, pure,
      Except.pure, RegPair.high, RegPair.low]

/-- One step at `POP rp`: the pair is loaded from `sp` (low) and `sp + 1` (high), and `sp`
moves up by 2. -/
theorem emulateOp_pop (rp : RegPair) (state : state8080)
    (hfetch : state.memory state.pc = rp.popOpcode) :
    ∃ next cost, emulateOp state = .ok (next, cost) ∧
      rp.high next = state.memory ((state.sp + 1 : Nat) : Int) ∧
      rp.low next = state.memory (state.sp : Int) ∧
      next.sp = (state.sp + 2) % 65536 ∧ next.pc = (state.pc + 1) % 65536 ∧
      next.memory = state.memory := by
  cases rp <;> simp only [RegPair.popOpcode] at hfetch <;>
    simp [emulateOp, emulateOpSwitch, emulateOpBranch, hfetch, bind, Except.bind, pure,
      Except.pure, RegPair.high, RegPair.low]

/-! ## Properties of the specification -/

/-- C1: in a well-formed state whose memory holds 0x00 at the N addresses PC, PC+1, ...,
PC+N-1 (mod 0x10000), running emulateOp N times succeeds, returns cost 4 at each step, and
ends in the initial state with PC replaced by (PC + N) mod 0x10000: registers, SP, flags,
intEnable and memory are unchanged. -/
theorem C1_nop_repeated (N : Nat) : ∀ (state : state8080), state.WellFormed →
    (∀ k, k < N → state.memory (((state.pc + k) % 65536 : Nat) : Int) = 0x00) →
    emulateOpTimes N state
      = .ok ({ state with pc := (state.pc + N) % 65536 }, List.replicate N (some 4)) := by
  induction N with
  | zero =>
    intro state hwf _
    simp [emulateOpTimes, pure, Except.pure, Nat.mod_eq_of_lt hwf.pc_lt]
  | succ n ih =>
    intro state hwf hnop
    have hpc := hwf.pc_lt
    have h0 : state.memory (state.pc : Int) = 0x00 := by
      have := hnop 0 (Nat.succ_pos n)
      simpa [Nat.mod_eq_of_lt hpc] using this
    have hstep := emulateOp_nop state h0
    have hwf1 : state8080.WellFormed { state with pc := (state.pc + 1) % 65536 } :=
      { hwf with pc_lt := Nat.mod_lt _ (by decide) }
    have hrest := ih { state with pc := (state.pc + 1) % 65536 } hwf1 (by
      intro k hk
      have := hnop (k + 1) (Nat.succ_lt_succ hk)
      have e : ((state.pc + 1) % 65536 + k) % 65536 = (state.pc + (k + 1)) % 65536 := by omega
      simpa [e] using this)
    have e2 : ((state.pc + 1) % 65536 + n) % 65536 = (state.pc + (n + 1)) % 65536 := by omega
    simp [emulateOpTimes, hstep, hrest, bind, Except.bind, pure, Except.pure, e2,
      List.replicate_succ]

/-- C1 at `nopState` with N = 3: the three steps cost 4 each and PC wraps from 0xFFFE to 1. -/
theorem C1_nop_repeated_witness :
    nopState.WellFormed ∧
    (∀ k, k < 3 → nopState.memory (((nopState.pc + k) % 65536 : Nat) : Int) = 0x00) ∧
    emulateOpTimes 3 nopState
      = .ok ({ nopState with pc := (nopState.pc + 3) % 65536 }, List.replicate 3 (some 4)) :=
  have hmem : ∀ k, k < 3 → nopState.memory (((nopState.pc + k) % 65536 : Nat) : Int) = 0x00 := by
    decide
  ⟨nopState_wellFormed, hmem, C1_nop_repeated 3 nopState nopState_wellFormed hmem⟩

/-- C2: in every well-formed state whose opcode at PC is one of the ADD/ADC/SUB/SBB/ANA/XRA/
ORA/CMP opcodes (0x80 to 0xBF, 0xC6, 0xCE, 0xD6, 0xDE, 0xE6, 0xEE, 0xF6, 0xFE), emulateOp
succeeds, the Zero flag is 1 exactly when the low 8 bits of the result of the operation are 0
(and 0 otherwise), and the Sign flag equals bit 7 of that result. -/
theorem C2_zero_sign_flags (state : state8080) (hwf : state.WellFormed) (op : Nat)
    (hop : isAluOpcode op) (hfetch : state.memory state.pc = op) :
    ∃ next cost, emulateOp state = .ok (next, cost) ∧
      next.cc.z = cbool (lowByte (aluResult state op) = 0) ∧
      next.cc.s = lowByte (aluResult state op) / 128 % 2 := by
  refine ⟨aluNext state op, cycles[op]?, emulateOp_alu state hwf op hop hfetch, ?_, ?_⟩
  · simp only [aluNext, and_255, aluVal_eq, lowByte]
    congr 1
    apply propext
    constructor <;> intro h <;> omega
  · simp only [aluNext, and_128, aluVal_eq, lowByte, cbool]
    split_ifs with h <;> omega

/-- C2 instantiated at ADD B (0x80) with A = 0x3A and B = 0x5C. -/
theorem C2_zero_sign_flags_witness :
    (sampleState 0x80 0 0).WellFormed ∧ isAluOpcode 0x80 ∧
    (sampleState 0x80 0 0).memory (sampleState 0x80 0 0).pc = 0x80 ∧
    ∃ next cost, emulateOp (sampleState 0x80 0 0) = .ok (next, cost) ∧
      next.cc.z = cbool (lowByte (aluResult (sampleState 0x80 0 0) 0x80) = 0) ∧
      next.cc.s = lowByte (aluResult (sampleState 0x80 0 0) 0x80) / 128 % 2 :=
  have hwf := sampleState_wellFormed 0x80 0 0 (by decide) (by decide) (by decide)
  have hop : isAluOpcode 0x80 := by unfold isAluOpcode; decide
  have hfetch : (sampleState 0x80 0 0).memory (sampleState 0x80 0 0).pc = 0x80 := by decide
  ⟨hwf, hop, hfetch, C2_zero_sign_flags (sampleState 0x80 0 0) hwf 0x80 hop hfetch⟩

/-- C3 as stated fails: at ADD B with A = 0x3A and B = 0x5C the low byte of the result is
0x96, which has an even number (four) of set bits, yet emulateOp leaves the Parity flag 0;
likewise parity(0x96) = 0. -/
theorem C3_parity_counterexample :
    (sampleState 0x80 0 0).WellFormed ∧ isAluOpcode 0x80 ∧
    (sampleState 0x80 0 0).memory (sampleState 0x80 0 0).pc = 0x80 ∧
    lowByte (aluResult (sampleState 0x80 0 0) 0x80) = 0x96 ∧
    Even (setBitCount (lowByte (aluResult (sampleState 0x80 0 0) 0x80))) ∧
    (emulateOp (sampleState 0x80 0 0)).toOption.map (fun r => r.1.cc.p) = some 0 ∧
    parity 0x96 = 0 ∧ Even (setBitCount 0x96) := by
  refine ⟨sampleState_wellFormed 0x80 0 0 (by decide) (by decide) (by decide), ?_, ?_, ?_, ?_, ?_, ?_, ?_⟩
  · unfold isAluOpcode; decide
  · decide
  · decide
  · decide
  · decide
  · decide
  · decide

/-- C3 amended: for every ALU opcode and every well-formed state, the Parity flag after
emulateOp is 1 if and only if the low byte of the result has an odd number of set bits; and
for every byte x, parity(x) = 1 iff x has an odd number of 1 bits. -/
theorem C3_parity_flag_odd (state : state8080) (hwf : state.WellFormed) (op : Nat)
    (hop : isAluOpcode op) (hfetch : state.memory state.pc = op) :
    (∃ next cost, emulateOp state = .ok (next, cost) ∧
      (next.cc.p = 1 ↔ Odd (setBitCount (lowByte (aluResult state op))))) ∧
    (∀ x, x < 256 → (parity x = 1 ↔ Odd (setBitCount x))) := by
  have hpar : ∀ x, x < 256 → (parity x = 1 ↔ Odd (setBitCount x)) := by
    intro x hx
    rw [parity_eq x hx, Nat.odd_iff]
  refine ⟨⟨aluNext state op, cycles[op]?, emulateOp_alu state hwf op hop hfetch, ?_⟩, hpar⟩
  have hlow : (aluVal state op &&& 0xff) % 256 = lowByte (aluResult state op) := by
    simp only [and_255, aluVal_eq, lowByte]
    omega
  have hlt : lowByte (aluResult state op) < 256 := by
    unfold lowByte
    omega
  simp only [aluNext, hlow]
  rw [← hpar _ hlt, parity_eq _ hlt]
  omega

/-- C3 amended, instantiated at XRA M (0xAE) with A = 0x3A and the memory operand 0xFF. -/
theorem C3_parity_flag_odd_witness :
    (sampleState 0xAE 0 0).WellFormed ∧ isAluOpcode 0xAE ∧
    (sampleState 0xAE 0 0).memory (sampleState 0xAE 0 0).pc = 0xAE ∧
    ((∃ next cost, emulateOp (sampleState 0xAE 0 0) = .ok (next, cost) ∧
      (next.cc.p = 1 ↔ Odd (setBitCount (lowByte (aluResult (sampleState 0xAE 0 0) 0xAE))))) ∧
    (∀ x, x < 256 → (parity x = 1 ↔ Odd (setBitCount x)))) :=
  have hwf := sampleState_wellFormed 0xAE 0 0 (by decide) (by decide) (by decide)
  have hop : isAluOpcode 0xAE := by unfold isAluOpcode; decide
  have hfetch : (sampleState 0xAE 0 0).memory (sampleState 0xAE 0 0).pc = 0xAE := by decide
  ⟨hwf, hop, hfetch, C3_parity_flag_odd (sampleState 0xAE 0 0) hwf 0xAE hop hfetch⟩

/-- C4: in every well-formed state whose opcode at PC is an addition opcode (ADD r, ADD M,
ADI with carry-in 0; ADC r, ADC M, ACI with carry-in the Carry flag before the step), emulateOp
succeeds, the accumulator becomes (A + operand + carry-in) mod 256 and the Carry flag is 1
exactly when A + operand + carry-in > 0xFF (and 0 otherwise). -/
theorem C4_addition_carry (state : state8080) (hwf : state.WellFormed) (op : Nat)
    (hop : isAddOpcode op) (hfetch : state.memory state.pc = op) :
    ∃ next cost, emulateOp state = .ok (next, cost) ∧
      next.a = (state.a + aluOperand state op + aluCarryIn state op) % 256 ∧
      next.cc.cy = cbool (state.a + aluOperand state op + aluCarryIn state op > 0xFF) := by
  have halu : isAluOpcode op := by
    unfold isAddOpcode at hop
    unfold isAluOpcode
    omega
  have hfam : aluFamily op = 0 ∨ aluFamily op = 1 := by
    unfold isAddOpcode at hop
    unfold aluFamily
    omega
  have hx := aluOperand_lt state hwf op
  have ha := hwf.a_lt
  have hc : aluCarryIn state op < 2 := by
    unfold aluCarryIn
    split_ifs
    · exact hwf.cy_lt
    · decide
  have hval : aluVal state op = state.a + aluOperand state op + aluCarryIn state op := by
    rw [aluVal_eq]
    unfold aluResult
    rw [if_pos hfam]
    omega
  have hne : aluFamily op ≠ 7 := by omega
  refine ⟨aluNext state op, cycles[op]?, emulateOp_alu state hwf op halu hfetch, ?_, ?_⟩
  · simp only [aluNext, if_neg hne, and_255, hval]
    omega
  · simp only [aluNext, hval]

/-- C4 instantiated at ACI 0xF0 (0xCE) with A = 0x3A and Carry = 1. -/
theorem C4_addition_carry_witness :
    (sampleState 0xCE 0xF0 0).WellFormed ∧ isAddOpcode 0xCE ∧
    (sampleState 0xCE 0xF0 0).memory (sampleState 0xCE 0xF0 0).pc = 0xCE ∧
    ∃ next cost, emulateOp (sampleState 0xCE 0xF0 0) = .ok (next, cost) ∧
      next.a = ((sampleState 0xCE 0xF0 0).a + aluOperand (sampleState 0xCE 0xF0 0) 0xCE
        + aluCarryIn (sampleState 0xCE 0xF0 0) 0xCE) % 256 ∧
      next.cc.cy = cbool ((sampleState 0xCE 0xF0 0).a + aluOperand (sampleState 0xCE 0xF0 0) 0xCE
        + aluCarryIn (sampleState 0xCE 0xF0 0) 0xCE > 0xFF) :=
  have hwf := sampleState_wellFormed 0xCE 0xF0 0 (by decide) (by decide) (by decide)
  have hop : isAddOpcode 0xCE := by unfold isAddOpcode; decide
  have hfetch : (sampleState 0xCE 0xF0 0).memory (sampleState 0xCE 0xF0 0).pc = 0xCE := by decide
  ⟨hwf, hop, hfetch, C4_addition_carry (sampleState 0xCE 0xF0 0) hwf 0xCE hop hfetch⟩

/-- C5 as stated fails: there is no well-formed state and subtraction opcode for which the
Carry flag left by emulateOp differs from the true unsigned borrow (A < b + c). -/
theorem C5_no_borrow_mismatch :
    ¬ ∃ (state : state8080) (op : Nat), state.WellFormed ∧ isSubOpcode op ∧
      state.memory state.pc = op ∧
      ∃ next cost, emulateOp state = .ok (next, cost) ∧
        ¬ (next.cc.cy = 1 ↔ state.a < aluOperand state op + aluCarryIn state op) := by
  rintro ⟨state, op, hwf, hop, hfetch, next, cost, hstep, hne⟩
  rw [emulateOp_alu state hwf op (isAluOpcode_of_sub op hop) hfetch] at hstep
  have hnext : aluNext state op = next := by
    injection hstep with hpair
    exact congrArg Prod.fst hpair
  apply hne
  rw [← hnext, ← aluVal_sub_gt state hwf op hop]
  simp only [aluNext, cbool]
  split_ifs with h1
  · exact ⟨fun _ => h1, fun _ => rfl⟩
  · exact ⟨fun h => absurd h (by decide), fun h => absurd h h1⟩

/-- C5 amended: the carry rule applied to subtraction models borrow correctly. In every
well-formed state whose opcode at PC is a subtraction opcode (SUB, SBB, CMP, SUI, SBI, CPI),
with operand b and borrow-in c (0 for SUB/SUI/CMP/CPI, the old Carry for SBB/SBI), emulateOp
leaves the Carry flag 1 exactly when A < b + c, the true unsigned borrow, and 0 otherwise. -/
theorem C5_subtraction_carry_is_borrow (state : state8080) (hwf : state.WellFormed) (op : Nat)
    (hop : isSubOpcode op) (hfetch : state.memory state.pc = op) :
    ∃ next cost, emulateOp state = .ok (next, cost) ∧
      next.cc.cy = cbool (state.a < aluOperand state op + aluCarryIn state op) := by
  refine ⟨aluNext state op, cycles[op]?,
    emulateOp_alu state hwf op (isAluOpcode_of_sub op hop) hfetch, ?_⟩
  have h := aluVal_sub_gt state hwf op hop
  simp only [aluNext, cbool]
  split_ifs with h1 h2 h2
  · rfl
  · exact absurd (h.mp h1) h2
  · exact absurd (h.mpr h2) h1
  · rfl

/-- C5 amended, instantiated at SBB B (0x98) with A = 0x3A, B = 0x5C and Carry = 1. -/
theorem C5_subtraction_carry_is_borrow_witness :
    (sampleState 0x98 0 0).WellFormed ∧ isSubOpcode 0x98 ∧
    (sampleState 0x98 0 0).memory (sampleState 0x98 0 0).pc = 0x98 ∧
    ∃ next cost, emulateOp (sampleState 0x98 0 0) = .ok (next, cost) ∧
      next.cc.cy = cbool ((sampleState 0x98 0 0).a
        < aluOperand (sampleState 0x98 0 0) 0x98 + aluCarryIn (sampleState 0x98 0 0) 0x98) :=
  have hwf := sampleState_wellFormed 0x98 0 0 (by decide) (by decide) (by decide)
  have hop : isSubOpcode 0x98 := by unfold isSubOpcode; decide
  have hfetch : (sampleState 0x98 0 0).memory (sampleState 0x98 0 0).pc = 0x98 := by decide
  ⟨hwf, hop, hfetch, C5_subtraction_carry_is_borrow (sampleState 0x98 0 0) hwf 0x98 hop hfetch⟩

/-- C6: for each register pair rp among B:C, D:E, H:L and every well-formed state with
SP >= 2 whose memory holds PUSH rp at PC and POP rp at PC+1 (mod 0x10000), and whose stack
slots SP-1 and SP-2 are not the address PC+1, two steps of emulateOp succeed and leave both
registers of the pair and SP equal to their values before the PUSH. -/
theorem C6_push_pop_roundtrip (rp : RegPair) (state : state8080) (hwf : state.WellFormed)
    (hsp : 2 ≤ state.sp)
    (hpush : state.memory state.pc = rp.pushOpcode)
    (hpop : state.memory (((state.pc + 1) % 65536 : Nat) : Int) = rp.popOpcode)
    (hslot1 : (state.sp : Int) - 1 ≠ (((state.pc + 1) % 65536 : Nat) : Int))
    (hslot2 : (state.sp : Int) - 2 ≠ (((state.pc + 1) % 65536 : Nat) : Int)) :
    ∃ final costs, emulateOpTimes 2 state = .ok (final, costs) ∧
      rp.high final = rp.high state ∧ rp.low final = rp.low state ∧ final.sp = state.sp := by
  have hsplt := hwf.sp_lt
  obtain ⟨c1, h1⟩ := emulateOp_push rp state hpush
  have hsp1 : Int.toNat (((state.sp : Int) - 2) % 65536) = state.sp - 2 := by omega
  rw [hsp1] at h1
  have hfetch2 : (store (store state.memory ((state.sp : Int) - 1) (rp.high state))
      ((state.sp : Int) - 2) (rp.low state)) (((state.pc + 1) % 65536 : Nat) : Int)
      = rp.popOpcode := by
    simp only [store, if_neg hslot1.symm, if_neg hslot2.symm, hpop]
  obtain ⟨final, c2, h2, hhigh, hlow, hsp2, -, -⟩ := emulateOp_pop rp
    { state with
      memory := store (store state.memory ((state.sp : Int) - 1) (rp.high state))
        ((state.sp : Int) - 2) (rp.low state)
      sp := state.sp - 2
      pc := (state.pc + 1) % 65536 } hfetch2
  refine ⟨final, [c1, c2], ?_, ?_, ?_, ?_⟩
  · simp [emulateOpTimes, h1, h2, bind, Except.bind, pure, Except.pure]
  · rw [hhigh]
    have e1 : ((state.sp - 2 + 1 : Nat) : Int) = (state.sp : Int) - 1 := by omega
    have e2 : (state.sp : Int) - 1 ≠ (state.sp : Int) - 2 := by omega
    simp only [store, e1, if_neg e2, if_true]
  · rw [hlow]
    have e1 : ((state.sp - 2 : Nat) : Int) = (state.sp : Int) - 2 := by omega
    simp only [store, e1, if_true]
  · rw [hsp2]
    show (state.sp - 2 + 2) % 65536 = state.sp
    omega

/-- C6 instantiated at PUSH D; POP D with D:E = 0x0405 and SP = 0x2400. -/
theorem C6_push_pop_roundtrip_witness :
    (sampleState 0xD5 0xD1 0).WellFormed ∧ 2 ≤ (sampleState 0xD5 0xD1 0).sp ∧
    (sampleState 0xD5 0xD1 0).memory (sampleState 0xD5 0xD1 0).pc = RegPair.DE.pushOpcode ∧
    (sampleState 0xD5 0xD1 0).memory ((((sampleState 0xD5 0xD1 0).pc + 1) % 65536 : Nat) : Int)
      = RegPair.DE.popOpcode ∧
    ((sampleState 0xD5 0xD1 0).sp : Int) - 1
      ≠ ((((sampleState 0xD5 0xD1 0).pc + 1) % 65536 : Nat) : Int) ∧
    ((sampleState 0xD5 0xD1 0).sp : Int) - 2
      ≠ ((((sampleState 0xD5 0xD1 0).pc + 1) % 65536 : Nat) : Int) ∧
    ∃ final costs, emulateOpTimes 2 (sampleState 0xD5 0xD1 0) = .ok (final, costs) ∧
      RegPair.DE.high final = RegPair.DE.high (sampleState 0xD5 0xD1 0) ∧
      RegPair.DE.low final = RegPair.DE.low (sampleState 0xD5 0xD1 0) ∧
      final.sp = (sampleState 0xD5 0xD1 0).sp :=
  have hwf := sampleState_wellFormed 0xD5 0xD1 0 (by decide) (by decide) (by decide)
  have hsp : 2 ≤ (sampleState 0xD5 0xD1 0).sp := by decide
  have hpush : (sampleState 0xD5 0xD1 0).memory (sampleState 0xD5 0xD1 0).pc
      = RegPair.DE.pushOpcode := by decide
  have hpop : (sampleState 0xD5 0xD1 0).memory
      ((((sampleState 0xD5 0xD1 0).pc + 1) % 65536 : Nat) : Int) = RegPair.DE.popOpcode := by
    decide
  have hslot1 : ((sampleState 0xD5 0xD1 0).sp : Int) - 1
      ≠ ((((sampleState 0xD5 0xD1 0).pc + 1) % 65536 : Nat) : Int) := by decide
  have hslot2 : ((sampleState 0xD5 0xD1 0).sp : Int) - 2
      ≠ ((((sampleState 0xD5 0xD1 0).pc + 1) % 65536 : Nat) : Int) := by decide
  ⟨hwf, hsp, hpush, hpop, hslot1, hslot2,
    C6_push_pop_roundtrip RegPair.DE (sampleState 0xD5 0xD1 0) hwf hsp hpush hpop hslot1 hslot2⟩

/-- C7 fails on the code: in `pswState` (PUSH PSW at PC, POP PSW at PC+1, SP = 0x2400,
flags Z = 1, S = P = CY = AC = 0) the two steps restore the accumulator but leave SP = 0x23FE
and the flags Z = 0, S = P = CY = AC = 1. -/
theorem C7_push_pop_psw_failing_input :
    pswState.WellFormed ∧ 2 ≤ pswState.sp ∧
    pswState.memory pswState.pc = 0xF5 ∧
    pswState.memory (((pswState.pc + 1) % 65536 : Nat) : Int) = 0xF1 ∧
    (pswState.sp : Int) - 1 ≠ (((pswState.pc + 1) % 65536 : Nat) : Int) ∧
    (pswState.sp : Int) - 2 ≠ (((pswState.pc + 1) % 65536 : Nat) : Int) ∧
    [pswState.a, pswState.sp] = [0x3A, 0x2400] ∧
    [pswState.cc.z, pswState.cc.s, pswState.cc.p, pswState.cc.cy, pswState.cc.ac]
      = [1, 0, 0, 0, 0] ∧
    (emulateOpTimes 2 pswState).toOption.map
        (fun r => [r.1.a, r.1.sp, r.1.cc.z, r.1.cc.s, r.1.cc.p, r.1.cc.cy, r.1.cc.ac])
      = some [0x3A, 0x23FE, 0, 1, 1, 1, 1] := by
  refine ⟨pswState_wellFormed, ?_, ?_, ?_, ?_, ?_, ?_, ?_, ?_⟩ <;> decide

/-- C8 fails on the code: in `callState` (CALL 0x5000 at PC = 0x3000, RET at 0x5000,
SP = 0x4000) the CALL, which leaves the instruction bytes untouched, ends with PC = 0x5001 and
SP = 0x4002, and after the second step PC = 0x5002 and SP = 0x4002, not PC = 0x3003 and
SP = 0x4000. -/
theorem C8_call_ret_failing_input :
    callState.WellFormed ∧ callState.memory callState.pc = 0xCD ∧
    ((callState.memory ((callState.pc : Int) + 2) <<< 8)
      ||| callState.memory ((callState.pc : Int) + 1)) = 0x5000 ∧
    callState.memory 0x5000 = 0xC9 ∧
    [callState.pc, callState.sp] = [0x3000, 0x4000] ∧
    (emulateOp callState).toOption.map
        (fun r => [r.1.pc, r.1.sp, r.1.memory 0x3000, r.1.memory 0x3001, r.1.memory 0x3002,
          r.1.memory 0x5000])
      = some [0x5001, 0x4002, 0xCD, 0x00, 0x50, 0xC9] ∧
    (emulateOpTimes 2 callState).toOption.map (fun r => [r.1.pc, r.1.sp])
      = some [0x5002, 0x4002] := by
  refine ⟨callState_wellFormed, ?_, ?_, ?_, ?_, ?_, ?_⟩ <;> decide

/-- C9 fails on the code: after CALL 0x1234 at PC = 0x1000 with SP = 0x2400 the slots
0x23FF and 0x23FE still hold 0 and SP = 0x2402; the bytes 0x10 and 0x00 of the address of the
CALL itself were written at PC-1 and PC-2. RST 1 and a taken CNZ leave the stack slots and SP
the same way. -/
theorem C9_call_push_failing_input :
    (sampleState 0xCD 0x34 0x12).WellFormed ∧ 2 ≤ (sampleState 0xCD 0x34 0x12).sp ∧
    (sampleState 0xCD 0x34 0x12).memory (sampleState 0xCD 0x34 0x12).pc = 0xCD ∧
    [(sampleState 0xCD 0x34 0x12).pc, (sampleState 0xCD 0x34 0x12).sp] = [0x1000, 0x2400] ∧
    (emulateOp (sampleState 0xCD 0x34 0x12)).toOption.map
        (fun r => [r.1.memory 0x23FF, r.1.memory 0x23FE, r.1.sp, r.1.memory 0x0FFF,
          r.1.memory 0x0FFE])
      = some [0x00, 0x00, 0x2402, 0x10, 0x00] ∧
    (emulateOp (sampleState 0xCF 0 0)).toOption.map
        (fun r => [r.1.memory 0x23FF, r.1.memory 0x23FE, r.1.sp])
      = some [0x00, 0x00, 0x2402] ∧
    (sampleState 0xC4 0x34 0x12).cc.z = 0 ∧
    (emulateOp (sampleState 0xC4 0x34 0x12)).toOption.map
        (fun r => [r.1.memory 0x23FF, r.1.memory 0x23FE, r.1.sp])
      = some [0x00, 0x00, 0x2402] := by
  refine ⟨sampleState_wellFormed 0xCD 0x34 0x12 (by decide) (by decide) (by decide),
    ?_, ?_, ?_, ?_, ?_, ?_, ?_⟩ <;> decide

/-- C10 fails on the code: JMP 0x1234 at PC = 0x1000 leaves PC = 0x1237, and JNZ 0x1234
taken (Zero flag 0) leaves PC = 0x1235, not 0x1234. -/
theorem C10_jump_failing_input :
    (sampleState 0xC3 0x34 0x12).WellFormed ∧
    (sampleState 0xC3 0x34 0x12).memory (sampleState 0xC3 0x34 0x12).pc = 0xC3 ∧
    (((sampleState 0xC3 0x34 0x12).memory (((sampleState 0xC3 0x34 0x12).pc : Int) + 2) <<< 8)
      ||| (sampleState 0xC3 0x34 0x12).memory (((sampleState 0xC3 0x34 0x12).pc : Int) + 1))
      = 0x1234 ∧
    (emulateOp (sampleState 0xC3 0x34 0x12)).toOption.map (fun r => r.1.pc) = some 0x1237 ∧
    (sampleState 0xC2 0x34 0x12).cc.z = 0 ∧
    (emulateOp (sampleState 0xC2 0x34 0x12)).toOption.map (fun r => r.1.pc) = some 0x1235 := by
  refine ⟨sampleState_wellFormed 0xC3 0x34 0x12 (by decide) (by decide) (by decide),
    ?_, ?_, ?_, ?_, ?_⟩ <;> decide

/-! ## Further shared lemmas -/

/-- Two bytes combined as `(x << 8) | y` form the number `x * 256 + y`. -/
theorem shl8_or_eq (x y : Nat) (hy : y < 256) : x <<< 8 ||| y = x * 256 + y := by
  have h := Nat.mul_add_lt_is_or (show y < 2 ^ 8 by omega) x
  rw [Nat.shiftLeft_eq, Nat.mul_comm x (2 ^ 8), ← h]

/-- The fault branch of `writeToMemory` is never taken: the call returns, and memory is either
untouched (address at most 2000) or changed at the one address. -/
theorem writeToMemory_eq (state : state8080) (value topBits botBits : Nat) :
    writeToMemory state value topBits botBits
      = .ok { state with
          memory := (if ((topBits <<< 8) ||| botBits) % 65536 ≤ 2000 then state.memory
            else store state.memory ((((topBits <<< 8) ||| botBits) % 65536 : Nat) : Int)
              value) } := by
  have h : ¬ ((topBits <<< 8 ||| botBits) % 65536 ≥ 0x10000) := by omega
  unfold writeToMemory
  by_cases h2 : (topBits <<< 8 ||| botBits) % 65536 ≤ 2000
  · simp only [h2, if_true, pure, Except.pure]
  · simp only [h2, h, if_false, pure, Except.pure]

/-- The states `pairState op h l` built from bytes are well formed. -/
theorem pairState_wellFormed (op h l : Nat) (h0 : op < 256) (h1 : h < 256) (h2 : l < 256) :
    (pairState op h l).WellFormed :=
  { sampleState_wellFormed op 0 0 h0 (by decide) (by decide) with h_lt := h1, l_lt := h2 }

/-- The states `flippedState op imm1 imm2` built from bytes are well formed. -/
theorem flippedState_wellFormed (op imm1 imm2 : Nat) (h0 : op < 256) (h1 : imm1 < 256)
    (h2 : imm2 < 256) : (flippedState op imm1 imm2).WellFormed :=
  { sampleState_wellFormed op imm1 imm2 h0 h1 h2 with
    z_lt := by simp [flippedState], s_lt := by simp [flippedState],
    p_lt := by simp [flippedState], cy_lt := by simp [flippedState],
    ac_lt := by simp [flippedState], pad_lt := by simp [flippedState] }

/-- The state `interruptState` is well formed. -/
theorem interruptState_wellFormed : interruptState.WellFormed := by
  refine ⟨?_, ?_, ?_, ?_, ?_, ?_, ?_, ?_, ?_, ?_, ?_, ?_, ?_, ?_, ?_, ?_, ?_⟩ <;>
    first
    | (intro i; simp only [interruptState]; decide)
    | decide

/-- The state `selfStoreState` is well formed. -/
theorem selfStoreState_wellFormed : selfStoreState.WellFormed := by
  refine ⟨?_, ?_, ?_, ?_, ?_, ?_, ?_, ?_, ?_, ?_, ?_, ?_, ?_, ?_, ?_, ?_, ?_⟩ <;>
    first
    | (intro i; simp only [selfStoreState]; split_ifs <;> decide)
    | decide

set_option maxHeartbeats 8000000 in
/-- Every opcode other than DAA (0x27) and HLT (0x76), case by case: the step returns, it
leaves `intEnable` as it was unless the opcode is DI (0xF3) or EI (0xFB), and it leaves the
Auxiliary-Carry flag as it was unless the opcode is POP PSW (0xF1). -/
theorem emulateOp_frame (state : state8080) (hwf : state.WellFormed)
    (hdaa : state.memory state.pc ≠ 0x27) (hhlt : state.memory state.pc ≠ 0x76) :
    ∃ next cost, emulateOp state = .ok (next, cost) ∧
      (state.memory state.pc ≠ 0xF3 → state.memory state.pc ≠ 0xFB →
        next.intEnable = state.intEnable) ∧
      (state.memory state.pc ≠ 0xF1 → next.cc.ac = state.cc.ac) := by
  have hlt := hwf.memory_lt state.pc
  generalize hop : state.memory (state.pc : Int) = op at hlt hdaa hhlt
  interval_cases op <;>
    first
    | exact absurd rfl hdaa
    | exact absurd rfl hhlt
    | (simp [emulateOp, emulateOpSwitch, emulateOpRegister, emulateOpTransfer, emulateOpArith,
        emulateOpLogic, emulateOpBranch, hop, bind, Except.bind, pure, Except.pure,
        readFromMemory_eq, writeToMemory_eq] <;> (try split_ifs) <;> simp)

/-- One step at a conditional return, jump or call, case by case: the step returns and the
cost is the table entry of the opcode, whether or not the condition holds. -/
theorem emulateOp_conditional (state : state8080) (op : Nat) (hop : isConditionalOpcode op)
    (hfetch : state.memory state.pc = op) :
    ∃ next, emulateOp state = .ok (next, cycles[op]?) := by
  have e1 : (state.pc : Int) ≠ (state.pc : Int) - 1 := by omega
  have e2 : (state.pc : Int) ≠ (state.pc : Int) - 2 := by omega
  obtain ⟨h1, h2, h3⟩ := hop
  interval_cases op <;>
    first
    | (exfalso; revert h3; decide)
    | (simp [emulateOp, emulateOpSwitch, emulateOpBranch, hfetch, bind, Except.bind, pure,
        Except.pure]
       split_ifs <;> simp [store, hfetch, e1, e2])

/-- One step at DAA (0x27): the process ends through `unimplementedInstruction`. -/
theorem emulateOp_daa (state : state8080) (h : state.memory state.pc = 0x27) :
    emulateOp state = .error Stop.unimplemented := by
  simp [emulateOp, emulateOpSwitch, emulateOpRegister, h, bind, Except.bind,
    unimplementedInstruction, throw, throwThe, MonadExceptOf.throw]

/-- One step at HLT (0x76): the process ends with `exit(0)`. -/
theorem emulateOp_hlt (state : state8080) (h : state.memory state.pc = 0x76) :
    emulateOp state = .error Stop.halt := by
  simp [emulateOp, emulateOpSwitch, emulateOpTransfer, h, bind, Except.bind,
    throw, throwThe, MonadExceptOf.throw]

/-! ## Properties of the specification, continued -/

/-- C11: for every register pair rp among B:C, D:E, H:L and SP and every well-formed state,
INX rp sets the pair to (rp + 1) mod 0x10000 and DCX rp sets it to (rp - 1) mod 0x10000, and
neither instruction changes any flag. -/
theorem C11_inx_dcx_wrap (rp : WidePair) (state : state8080) (hwf : state.WellFormed) :
    (state.memory state.pc = rp.inxOpcode →
      ∃ next cost, emulateOp state = .ok (next, cost) ∧
        rp.value next = (rp.value state + 1) % 65536 ∧ next.cc = state.cc) ∧
    (state.memory state.pc = rp.dcxOpcode →
      ∃ next cost, emulateOp state = .ok (next, cost) ∧
        rp.value next = Int.toNat (((rp.value state : Int) - 1) % 65536) ∧
        next.cc = state.cc) := by
  have hb := hwf.b_lt
  have hc := hwf.c_lt
  have hd := hwf.d_lt
  have he := hwf.e_lt
  have hh := hwf.h_lt
  have hl := hwf.l_lt
  have hsp := hwf.sp_lt
  constructor
  · intro hfetch
    cases rp <;> simp only [WidePair.inxOpcode] at hfetch <;>
      simp [emulateOp, emulateOpSwitch, emulateOpRegister, hfetch, bind, Except.bind, pure,
        Except.pure, WidePair.value, shl8_or_eq _ _ hc, shl8_or_eq _ _ he, shl8_or_eq _ _ hl,
        and_255, Nat.shiftRight_eq_div_pow] <;> omega
  · intro hfetch
    cases rp <;> simp only [WidePair.dcxOpcode] at hfetch <;>
      simp [emulateOp, emulateOpSwitch, emulateOpRegister, hfetch, bind, Except.bind, pure,
        Except.pure, WidePair.value, shl8_or_eq _ _ hc, shl8_or_eq _ _ he, shl8_or_eq _ _ hl,
        and_255, Nat.shiftRight_eq_div_pow] <;> omega

/-- C11 instantiated at INX H with H:L = 0xFFFF, which yields 0x0000, and at DCX H with
H:L = 0x0000, which yields 0xFFFF. -/
theorem C11_inx_dcx_wrap_witness :
    (pairState 0x23 0xFF 0xFF).WellFormed ∧
    (pairState 0x23 0xFF 0xFF).memory (pairState 0x23 0xFF 0xFF).pc = WidePair.HL.inxOpcode ∧
    WidePair.HL.value (pairState 0x23 0xFF 0xFF) = 0xFFFF ∧
    (∃ next cost, emulateOp (pairState 0x23 0xFF 0xFF) = .ok (next, cost) ∧
      WidePair.HL.value next = (0xFFFF + 1) % 65536 ∧
      next.cc = (pairState 0x23 0xFF 0xFF).cc) ∧
    (pairState 0x2B 0x00 0x00).WellFormed ∧
    (pairState 0x2B 0x00 0x00).memory (pairState 0x2B 0x00 0x00).pc = WidePair.HL.dcxOpcode ∧
    WidePair.HL.value (pairState 0x2B 0x00 0x00) = 0x0000 ∧
    (∃ next cost, emulateOp (pairState 0x2B 0x00 0x00) = .ok (next, cost) ∧
      WidePair.HL.value next = Int.toNat (((0x0000 : Nat) - 1 : Int) % 65536) ∧
      next.cc = (pairState 0x2B 0x00 0x00).cc) :=
  have hwf := pairState_wellFormed 0x23 0xFF 0xFF (by decide) (by decide) (by decide)
  have hfetch : (pairState 0x23 0xFF 0xFF).memory (pairState 0x23 0xFF 0xFF).pc
      = WidePair.HL.inxOpcode := by decide
  have hwf2 := pairState_wellFormed 0x2B 0x00 0x00 (by decide) (by decide) (by decide)
  have hfetch2 : (pairState 0x2B 0x00 0x00).memory (pairState 0x2B 0x00 0x00).pc
      = WidePair.HL.dcxOpcode := by decide
  ⟨hwf, hfetch, by decide,
    (C11_inx_dcx_wrap WidePair.HL (pairState 0x23 0xFF 0xFF) hwf).1 hfetch,
    hwf2, hfetch2, by decide,
    (C11_inx_dcx_wrap WidePair.HL (pairState 0x2B 0x00 0x00) hwf2).2 hfetch2⟩

/-- C12: for every well-formed state with SP >= 2 and every vector number n in 0..7,
generateInterrupt(state, n) leaves the low byte of the current PC at memory[SP - 2] and the
high byte at memory[SP - 1], and sets PC = 8 * n. -/
theorem C12_generateInterrupt_push (state : state8080) (hwf : state.WellFormed)
    (number : Int) (_hsp : 2 ≤ state.sp) (h0 : 0 ≤ number) (h7 : number ≤ 7) :
    (generateInterrupt state number).memory ((state.sp : Int) - 2) = state.pc % 256 ∧
    (generateInterrupt state number).memory ((state.sp : Int) - 1) = state.pc / 256 ∧
    ((generateInterrupt state number).pc : Int) = 8 * number := by
  have hpc := hwf.pc_lt
  have e : (state.sp : Int) - 2 ≠ (state.sp : Int) - 1 := by omega
  refine ⟨?_, ?_, ?_⟩
  · simp only [generateInterrupt, store, if_neg e, if_true, and_255]
    omega
  · simp only [generateInterrupt, store, if_true, and_255, Nat.shiftRight_eq_div_pow]
    omega
  · simp only [generateInterrupt]
    omega

/-- C12 instantiated at n = 1 and PC = 0x1234: PC becomes 0x0008, and 0x34 is stored at
SP - 2 and 0x12 at SP - 1. -/
theorem C12_generateInterrupt_push_witness :
    interruptState.WellFormed ∧ 2 ≤ interruptState.sp ∧ (0 : Int) ≤ 1 ∧ (1 : Int) ≤ 7 ∧
    interruptState.pc = 0x1234 ∧
    (generateInterrupt interruptState 1).memory ((interruptState.sp : Int) - 2) = 0x34 ∧
    (generateInterrupt interruptState 1).memory ((interruptState.sp : Int) - 1) = 0x12 ∧
    ((generateInterrupt interruptState 1).pc : Int) = 0x0008 :=
  have hsp : 2 ≤ interruptState.sp := by decide
  ⟨interruptState_wellFormed, hsp, by decide, by decide, rfl,
    C12_generateInterrupt_push interruptState interruptState_wellFormed 1 hsp (by decide)
      (by decide)⟩

/-- C13: for every state with SP >= 2 and every vector number, generateInterrupt leaves SP,
intEnable, the registers A, B, C, D, E, H, L, all flags and every memory byte other than
those at SP - 2 and SP - 1 unchanged, and its effect on PC and memory is the same whatever
the value of intEnable. -/
theorem C13_generateInterrupt_frame (state : state8080) (number : Int)
    (_hsp : 2 ≤ state.sp) :
    (generateInterrupt state number).sp = state.sp ∧
    (generateInterrupt state number).intEnable = state.intEnable ∧
    (generateInterrupt state number).a = state.a ∧
    (generateInterrupt state number).b = state.b ∧
    (generateInterrupt state number).c = state.c ∧
    (generateInterrupt state number).d = state.d ∧
    (generateInterrupt state number).e = state.e ∧
    (generateInterrupt state number).h = state.h ∧
    (generateInterrupt state number).l = state.l ∧
    (generateInterrupt state number).cc = state.cc ∧
    (∀ i : Int, i ≠ (state.sp : Int) - 2 → i ≠ (state.sp : Int) - 1 →
      (generateInterrupt state number).memory i = state.memory i) ∧
    (∀ enable : Nat,
      (generateInterrupt { state with intEnable := enable } number).pc
        = (generateInterrupt state number).pc ∧
      (generateInterrupt { state with intEnable := enable } number).memory
        = (generateInterrupt state number).memory) := by
  refine ⟨rfl, rfl, rfl, rfl, rfl, rfl, rfl, rfl, rfl, rfl, ?_, ?_⟩
  · intro i h2 h1
    simp only [generateInterrupt, store, if_neg h1, if_neg h2]
  · intro enable
    exact ⟨rfl, rfl⟩

/-- C13 instantiated at `interruptState` (intEnable = 1) and vector 2, against the same state
with intEnable = 0. -/
theorem C13_generateInterrupt_frame_witness :
    2 ≤ interruptState.sp ∧
    (generateInterrupt interruptState 2).sp = interruptState.sp ∧
    (generateInterrupt interruptState 2).intEnable = interruptState.intEnable ∧
    (generateInterrupt interruptState 2).cc = interruptState.cc ∧
    (generateInterrupt { interruptState with intEnable := 0 } 2).pc
      = (generateInterrupt interruptState 2).pc ∧
    (generateInterrupt { interruptState with intEnable := 0 } 2).memory
      = (generateInterrupt interruptState 2).memory :=
  have hsp : 2 ≤ interruptState.sp := by decide
  have h := C13_generateInterrupt_frame interruptState 2 hsp
  ⟨hsp, h.1, h.2.1, h.2.2.2.2.2.2.2.2.2.1, (h.2.2.2.2.2.2.2.2.2.2.2 0).1,
    (h.2.2.2.2.2.2.2.2.2.2.2 0).2⟩

/-- C14 fails on the code in its last part: in `selfStoreState` the instruction MOV M,A at
PC = 0x3000 stores 0x01 at H:L = 0x3000 (outside the protected region), PC advances by 1, and
the cost returned is cycles[0x01] = 10, read at the overwritten opcode byte, not the table
cost cycles[0x77] = 5 of the instruction. -/
theorem C14_store_cost_failing_input :
    selfStoreState.WellFormed ∧ selfStoreState.memory selfStoreState.pc = 0x77 ∧
    ((selfStoreState.h <<< 8) ||| selfStoreState.l) = 0x3000 ∧ 2000 < 0x3000 ∧
    cycles[0x77]? = some 5 ∧
    (emulateOp selfStoreState).toOption.map (fun r => ([r.1.pc, r.1.memory 0x3000], r.2))
      = some ([0x3001, 0x01], some 10) := by
  refine ⟨selfStoreState_wellFormed, ?_, ?_, ?_, ?_, ?_⟩ <;> decide

/-- C15 fails on the code: SHLD 0x0100 at PC = 0x1000 with H:L = 0x2410 changes the bytes at
the protected addresses 0x0100 and 0x0101 from 0x00 to 0x10 and 0x24. -/
theorem C15_protected_region_failing_input :
    (sampleState 0x22 0x00 0x01).WellFormed ∧
    (sampleState 0x22 0x00 0x01).memory (sampleState 0x22 0x00 0x01).pc = 0x22 ∧
    (0x0101 : Int) ≤ 2000 ∧
    [(sampleState 0x22 0x00 0x01).memory 0x0100, (sampleState 0x22 0x00 0x01).memory 0x0101]
      = [0x00, 0x00] ∧
    (emulateOp (sampleState 0x22 0x00 0x01)).toOption.map
        (fun r => [r.1.memory 0x0100, r.1.memory 0x0101]) = some [0x10, 0x24] := by
  refine ⟨sampleState_wellFormed 0x22 0x00 0x01 (by decide) (by decide) (by decide),
    ?_, ?_, ?_, ?_⟩ <;> decide

/-- C16: in every well-formed state, emulateOp ends in the fatal unsupported-instruction
error (exit code 1) if and only if the opcode at PC is 0x27 (DAA); the halt opcode 0x76 ends
in the controlled stop (exit code 0), which is distinct from the fatal error; and for every
other opcode the step returns a state. -/
theorem C16_fatal_only_daa (state : state8080) (hwf : state.WellFormed) :
    (emulateOp state = .error Stop.unimplemented ↔ state.memory state.pc = 0x27) ∧
    (state.memory state.pc = 0x76 → emulateOp state = .error Stop.halt) ∧
    Stop.halt ≠ Stop.unimplemented ∧ Stop.halt.code = 0 ∧ Stop.unimplemented.code = 1 ∧
    (state.memory state.pc ≠ 0x27 → state.memory state.pc ≠ 0x76 →
      ∃ next cost, emulateOp state = .ok (next, cost)) := by
  have hdaa := emulateOp_daa state
  have hhlt := emulateOp_hlt state
  refine ⟨⟨?_, hdaa⟩, hhlt, by decide, rfl, rfl, ?_⟩
  · intro herr
    by_contra hne
    by_cases h76 : state.memory state.pc = 0x76
    · rw [hhlt h76] at herr
      simp at herr
    · obtain ⟨next, cost, hok, -⟩ := emulateOp_frame state hwf hne h76
      rw [hok] at herr
      simp at herr
  · intro h27 h76
    obtain ⟨next, cost, hok, -⟩ := emulateOp_frame state hwf h27 h76
    exact ⟨next, cost, hok⟩

/-- C16 instantiated at a state with DAA at PC: the step ends in the fatal error. -/
theorem C16_fatal_only_daa_witness :
    (sampleState 0x27 0 0).WellFormed ∧
    (sampleState 0x27 0 0).memory (sampleState 0x27 0 0).pc = 0x27 ∧
    emulateOp (sampleState 0x27 0 0) = .error Stop.unimplemented :=
  have hwf := sampleState_wellFormed 0x27 0 0 (by decide) (by decide) (by decide)
  have hfetch : (sampleState 0x27 0 0).memory (sampleState 0x27 0 0).pc = 0x27 := by decide
  ⟨hwf, hfetch, (C16_fatal_only_daa (sampleState 0x27 0 0) hwf).1.mpr hfetch⟩

/-- C17 fails on the code: the table `cycles` has 254 entries, so the lookups cycles[0xFE]
and cycles[0xFF] lie beyond its end, and a step at CPI (0xFE) or RST 7 (0xFF) returns no
defined cost. -/
theorem C17_cycles_table_failing_input :
    cycles.length = 254 ∧ cycles[0xFE]? = none ∧ cycles[0xFF]? = none ∧
    (sampleState 0xFE 0 0).WellFormed ∧
    (sampleState 0xFE 0 0).memory (sampleState 0xFE 0 0).pc = 0xFE ∧
    (emulateOp (sampleState 0xFE 0 0)).toOption.map (fun r => r.2) = some none ∧
    (emulateOp (sampleState 0xFF 0 0)).toOption.map (fun r => r.2) = some none := by
  refine ⟨?_, ?_, ?_, sampleState_wellFormed 0xFE 0 0 (by decide) (by decide) (by decide),
    ?_, ?_, ?_⟩ <;> decide

/-- C18: for every conditional jump, conditional call and conditional return opcode, any two
states that have that opcode at PC return the same cost from emulateOp, whatever their
flags. -/
theorem C18_conditional_cost_fixed (first second : state8080) (op : Nat)
    (hop : isConditionalOpcode op) (hfirst : first.memory first.pc = op)
    (hsecond : second.memory second.pc = op) :
    ∃ next1 next2 cost, emulateOp first = .ok (next1, some cost) ∧
      emulateOp second = .ok (next2, some cost) := by
  obtain ⟨next1, h1⟩ := emulateOp_conditional first op hop hfirst
  obtain ⟨next2, h2⟩ := emulateOp_conditional second op hop hsecond
  have hlen : op < cycles.length := by
    have : cycles.length = 254 := by decide
    obtain ⟨-, hle, hmod⟩ := hop
    omega
  refine ⟨next1, next2, cycles[op], ?_, ?_⟩
  · rw [h1, List.getElem?_eq_getElem hlen]
  · rw [h2, List.getElem?_eq_getElem hlen]

/-- C18 instantiated at CNZ (0xC4), taken in the first state (Zero flag 0) and not taken in
the second (Zero flag 1). -/
theorem C18_conditional_cost_fixed_witness :
    isConditionalOpcode 0xC4 ∧
    (sampleState 0xC4 0x34 0x12).memory (sampleState 0xC4 0x34 0x12).pc = 0xC4 ∧
    (flippedState 0xC4 0x34 0x12).memory (flippedState 0xC4 0x34 0x12).pc = 0xC4 ∧
    (sampleState 0xC4 0x34 0x12).cc.z = 0 ∧ (flippedState 0xC4 0x34 0x12).cc.z = 1 ∧
    ∃ next1 next2 cost, emulateOp (sampleState 0xC4 0x34 0x12) = .ok (next1, some cost) ∧
      emulateOp (flippedState 0xC4 0x34 0x12) = .ok (next2, some cost) :=
  have hop : isConditionalOpcode 0xC4 := by decide
  have h1 : (sampleState 0xC4 0x34 0x12).memory (sampleState 0xC4 0x34 0x12).pc = 0xC4 := by
    decide
  have h2 : (flippedState 0xC4 0x34 0x12).memory (flippedState 0xC4 0x34 0x12).pc = 0xC4 := by
    decide
  ⟨hop, h1, h2, by decide, by decide,
    C18_conditional_cost_fixed (sampleState 0xC4 0x34 0x12) (flippedState 0xC4 0x34 0x12) 0xC4
      hop h1 h2⟩

/-- C19: for every state, EI (0xFB) sets intEnable to 1 and DI (0xF3) sets intEnable to 0,
and the state after the step differs from the state before only in intEnable and in PC, which
advances by 1 (mod 0x10000): registers, SP, flags and memory are unchanged. -/
theorem C19_ei_di_only_intEnable (state : state8080) :
    (state.memory state.pc = 0xFB →
      ∃ cost, emulateOp state
        = .ok ({ state with intEnable := 1, pc := (state.pc + 1) % 65536 }, cost)) ∧
    (state.memory state.pc = 0xF3 →
      ∃ cost, emulateOp state
        = .ok ({ state with intEnable := 0, pc := (state.pc + 1) % 65536 }, cost)) := by
  constructor <;> intro hfetch <;>
    simp [emulateOp, emulateOpSwitch, emulateOpBranch, hfetch, bind, Except.bind, pure,
      Except.pure]

/-- C19 instantiated at EI in a state with intEnable = 0. -/
theorem C19_ei_di_only_intEnable_witness :
    (sampleState 0xFB 0 0).memory (sampleState 0xFB 0 0).pc = 0xFB ∧
    (sampleState 0xFB 0 0).intEnable = 0 ∧
    ∃ cost, emulateOp (sampleState 0xFB 0 0)
      = .ok ({ sampleState 0xFB 0 0 with
          intEnable := 1, pc := ((sampleState 0xFB 0 0).pc + 1) % 65536 }, cost) :=
  have hfetch : (sampleState 0xFB 0 0).memory (sampleState 0xFB 0 0).pc = 0xFB := by decide
  ⟨hfetch, by decide, (C19_ei_di_only_intEnable (sampleState 0xFB 0 0)).1 hfetch⟩

/-- C20: in every well-formed state whose opcode at PC is neither 0xF3 (DI) nor 0xFB (EI),
every state returned by emulateOp has the intEnable of the state before; and the step does
return a state unless the opcode is DAA (0x27) or HLT (0x76), which end the process. -/
theorem C20_intEnable_only_by_ei_di (state : state8080) (hwf : state.WellFormed)
    (hdi : state.memory state.pc ≠ 0xF3) (hei : state.memory state.pc ≠ 0xFB) :
    (∀ next cost, emulateOp state = .ok (next, cost) → next.intEnable = state.intEnable) ∧
    (state.memory state.pc ≠ 0x27 → state.memory state.pc ≠ 0x76 →
      ∃ next cost, emulateOp state = .ok (next, cost) ∧ next.intEnable = state.intEnable) := by
  have hret : state.memory state.pc ≠ 0x27 → state.memory state.pc ≠ 0x76 →
      ∃ next cost, emulateOp state = .ok (next, cost) ∧ next.intEnable = state.intEnable := by
    intro h27 h76
    obtain ⟨next, cost, hok, hint, -⟩ := emulateOp_frame state hwf h27 h76
    exact ⟨next, cost, hok, hint hdi hei⟩
  refine ⟨?_, hret⟩
  intro next cost hok
  by_cases h27 : state.memory state.pc = 0x27
  · rw [emulateOp_daa state h27] at hok
    simp at hok
  · by_cases h76 : state.memory state.pc = 0x76
    · rw [emulateOp_hlt state h76] at hok
      simp at hok
    · obtain ⟨next2, cost2, hok2, hint2⟩ := hret h27 h76
      rw [hok2] at hok
      simp at hok
      rw [← hok.1]
      exact hint2

/-- C20 instantiated at PUSH B (0xC5). -/
theorem C20_intEnable_only_by_ei_di_witness :
    (sampleState 0xC5 0 0).WellFormed ∧
    (sampleState 0xC5 0 0).memory (sampleState 0xC5 0 0).pc ≠ 0xF3 ∧
    (sampleState 0xC5 0 0).memory (sampleState 0xC5 0 0).pc ≠ 0xFB ∧
    (sampleState 0xC5 0 0).memory (sampleState 0xC5 0 0).pc ≠ 0x27 ∧
    (sampleState 0xC5 0 0).memory (sampleState 0xC5 0 0).pc ≠ 0x76 ∧
    ∃ next cost, emulateOp (sampleState 0xC5 0 0) = .ok (next, cost) ∧
      next.intEnable = (sampleState 0xC5 0 0).intEnable :=
  have hwf := sampleState_wellFormed 0xC5 0 0 (by decide) (by decide) (by decide)
  have hdi : (sampleState 0xC5 0 0).memory (sampleState 0xC5 0 0).pc ≠ 0xF3 := by decide
  have hei : (sampleState 0xC5 0 0).memory (sampleState 0xC5 0 0).pc ≠ 0xFB := by decide
  have h27 : (sampleState 0xC5 0 0).memory (sampleState 0xC5 0 0).pc ≠ 0x27 := by decide
  have h76 : (sampleState 0xC5 0 0).memory (sampleState 0xC5 0 0).pc ≠ 0x76 := by decide
  ⟨hwf, hdi, hei, h27, h76,
    (C20_intEnable_only_by_ei_di (sampleState 0xC5 0 0) hwf hdi hei).2 h27 h76⟩

/-! ## Shared lemmas for sequential and data-movement opcodes -/

set_option maxHeartbeats 16000000 in
/-- Every opcode that does not transfer control, case by case: the step returns, `pc` moves
past the opcode and its immediate bytes, and a data-movement opcode leaves the flags as they
were. -/
theorem emulateOp_sequential (state : state8080) (hwf : state.WellFormed)
    (hseq : ¬ isControlOpcode (state.memory state.pc)) :
    ∃ next cost, emulateOp state = .ok (next, cost) ∧
      next.pc = (state.pc + 1 + operandLength (state.memory state.pc)) % 65536 ∧
      (isDataMovementOpcode (state.memory state.pc) → next.cc = state.cc) := by
  have hlt := hwf.memory_lt state.pc
  generalize hop : state.memory (state.pc : Int) = op at hlt hseq
  interval_cases op <;>
    first
    | (exfalso; apply hseq; decide)
    | (simp [emulateOp, emulateOpSwitch, emulateOpRegister, emulateOpTransfer, emulateOpArith,
        emulateOpLogic, emulateOpBranch, hop, bind, Except.bind, pure, Except.pure,
        readFromMemory_eq, writeToMemory_eq, operandLength] <;> (try split_ifs) <;>
        (try simp))

/-- The states `signState op imm1 imm2` built from bytes are well formed. -/
theorem signState_wellFormed (op imm1 imm2 : Nat) (h0 : op < 256) (h1 : imm1 < 256)
    (h2 : imm2 < 256) : (signState op imm1 imm2).WellFormed :=
  { sampleState_wellFormed op imm1 imm2 h0 h1 h2 with
    z_lt := by simp [signState], s_lt := by simp [signState],
    p_lt := by simp [signState], cy_lt := by simp [signState],
    ac_lt := by simp [signState], pad_lt := by simp [signState] }

/-- The state `rotateState` is well formed. -/
theorem rotateState_wellFormed : rotateState.WellFormed := by
  refine ⟨?_, ?_, ?_, ?_, ?_, ?_, ?_, ?_, ?_, ?_, ?_, ?_, ?_, ?_, ?_, ?_, ?_⟩ <;>
    first
    | (intro i; simp only [rotateState]; split_ifs <;> decide)
    | decide

/-- The state `shldState` is well formed. -/
theorem shldState_wellFormed : shldState.WellFormed := by
  refine ⟨?_, ?_, ?_, ?_, ?_, ?_, ?_, ?_, ?_, ?_, ?_, ?_, ?_, ?_, ?_, ?_, ?_⟩ <;>
    first
    | (intro i; simp only [shldState]; split_ifs <;> decide)
    | decide

/-! ## Properties of the specification, third part -/

/-- C21: in every well-formed state whose opcode at PC is a data-movement opcode (MOV except
0x76, MVI, LXI, LDA, STA, LDAX, STAX, LHLD, SHLD, XCHG, SPHL, PUSH and POP of the pairs B, D,
H), emulateOp returns and leaves the Zero, Sign, Parity, Carry and Auxiliary-Carry flags
unchanged. -/
theorem C21_data_movement_keeps_flags (state : state8080) (hwf : state.WellFormed)
    (op : Nat) (hop : isDataMovementOpcode op) (hfetch : state.memory state.pc = op) :
    ∃ next cost, emulateOp state = .ok (next, cost) ∧
      next.cc.z = state.cc.z ∧ next.cc.s = state.cc.s ∧ next.cc.p = state.cc.p ∧
      next.cc.cy = state.cc.cy ∧ next.cc.ac = state.cc.ac := by
  have hseq : ¬ isControlOpcode (state.memory state.pc) := by
    rw [hfetch]
    intro hc
    omega
  obtain ⟨next, cost, hok, -, hcc⟩ := emulateOp_sequential state hwf hseq
  have h := hcc (by rw [hfetch]; exact hop)
  exact ⟨next, cost, hok, by rw [h], by rw [h], by rw [h], by rw [h], by rw [h]⟩

/-- C21 instantiated at XCHG (0xEB). -/
theorem C21_data_movement_keeps_flags_witness :
    (sampleState 0xEB 0 0).WellFormed ∧ isDataMovementOpcode 0xEB ∧
    (sampleState 0xEB 0 0).memory (sampleState 0xEB 0 0).pc = 0xEB ∧
    ∃ next cost, emulateOp (sampleState 0xEB 0 0) = .ok (next, cost) ∧
      next.cc.z = (sampleState 0xEB 0 0).cc.z ∧ next.cc.s = (sampleState 0xEB 0 0).cc.s ∧
      next.cc.p = (sampleState 0xEB 0 0).cc.p ∧ next.cc.cy = (sampleState 0xEB 0 0).cc.cy ∧
      next.cc.ac = (sampleState 0xEB 0 0).cc.ac :=
  have hwf := sampleState_wellFormed 0xEB 0 0 (by decide) (by decide) (by decide)
  have hop : isDataMovementOpcode 0xEB := by decide
  have hfetch : (sampleState 0xEB 0 0).memory (sampleState 0xEB 0 0).pc = 0xEB := by decide
  ⟨hwf, hop, hfetch, C21_data_movement_keeps_flags (sampleState 0xEB 0 0) hwf 0xEB hop hfetch⟩

/-- C22: in every well-formed state, LXI rp,d16 (0x01, 0x11, 0x21, 0x31) puts the byte at
PC+1 in the low half of the pair (C, E, L, or the low byte of SP) and the byte at PC+2 in the
high half (B, D, H, or the high byte of SP), so that the 16-bit value of the pair is
(memory[PC+2] << 8) | memory[PC+1]; and PC advances by 3 (mod 0x10000). -/
theorem C22_lxi_little_endian (rp : WidePair) (state : state8080) (hwf : state.WellFormed)
    (hfetch : state.memory state.pc = rp.lxiOpcode) :
    ∃ next cost, emulateOp state = .ok (next, cost) ∧
      rp.lowHalf next = state.memory ((state.pc : Int) + 1) ∧
      rp.highHalf next = state.memory ((state.pc : Int) + 2) ∧
      rp.value next
        = (state.memory ((state.pc : Int) + 2) <<< 8) ||| state.memory ((state.pc : Int) + 1) ∧
      next.pc = (state.pc + 3) % 65536 := by
  have h1 := hwf.memory_lt ((state.pc : Int) + 1)
  have h2 := hwf.memory_lt ((state.pc : Int) + 2)
  have e := shl8_or_eq (state.memory ((state.pc : Int) + 2)) _ h1
  have hlt := shl8_or_lt _ _ h2 h1
  cases rp <;> simp only [WidePair.lxiOpcode] at hfetch <;>
    simp [emulateOp, emulateOpSwitch, emulateOpRegister, hfetch, bind, Except.bind, pure,
      Except.pure, WidePair.value, WidePair.lowHalf, WidePair.highHalf,
      Nat.mod_eq_of_lt hlt] <;>
    omega

/-- C22 instantiated at LXI SP,0x1234 (bytes 31 34 12). -/
theorem C22_lxi_little_endian_witness :
    (sampleState 0x31 0x34 0x12).WellFormed ∧
    (sampleState 0x31 0x34 0x12).memory (sampleState 0x31 0x34 0x12).pc
      = WidePair.SP.lxiOpcode ∧
    ∃ next cost, emulateOp (sampleState 0x31 0x34 0x12) = .ok (next, cost) ∧
      WidePair.SP.lowHalf next
        = (sampleState 0x31 0x34 0x12).memory (((sampleState 0x31 0x34 0x12).pc : Int) + 1) ∧
      WidePair.SP.highHalf next
        = (sampleState 0x31 0x34 0x12).memory (((sampleState 0x31 0x34 0x12).pc : Int) + 2) ∧
      WidePair.SP.value next
        = ((sampleState 0x31 0x34 0x12).memory (((sampleState 0x31 0x34 0x12).pc : Int) + 2)
            <<< 8)
          ||| (sampleState 0x31 0x34 0x12).memory (((sampleState 0x31 0x34 0x12).pc : Int) + 1) ∧
      next.pc = ((sampleState 0x31 0x34 0x12).pc + 3) % 65536 :=
  have hwf := sampleState_wellFormed 0x31 0x34 0x12 (by decide) (by decide) (by decide)
  have hfetch : (sampleState 0x31 0x34 0x12).memory (sampleState 0x31 0x34 0x12).pc
      = WidePair.SP.lxiOpcode := by decide
  ⟨hwf, hfetch, C22_lxi_little_endian WidePair.SP (sampleState 0x31 0x34 0x12) hwf hfetch⟩

/-- C23: the memory operand M is the byte at address (H << 8) | L, with H and L taken before
the step. In every well-formed state: MOV r,M loads r with that byte; each ALU M form (0x86,
0x8E, 0x96, 0x9E, 0xA6, 0xAE, 0xB6, 0xBE) has that byte as its operand, the step being the
ALU step `aluNext` on it; and MOV M,r and MVI M store the register, respectively the byte at
PC+1, at that address whenever it is above 2000, outside the protected region. -/
theorem C23_memory_operand_is_hl (state : state8080) (hwf : state.WellFormed) :
    (∀ r : Reg8, state.memory state.pc = r.movFromMOpcode →
      ∃ next cost, emulateOp state = .ok (next, cost) ∧
        r.get next = state.memory (addressM state)) ∧
    (∀ op, isAluMOpcode op → state.memory state.pc = op →
      aluOperand state op = state.memory (addressM state) ∧
      emulateOp state = .ok (aluNext state op, cycles[op]?)) ∧
    (∀ r : Reg8, state.memory state.pc = r.movToMOpcode → 2000 < addressM state →
      ∃ next cost, emulateOp state = .ok (next, cost) ∧
        next.memory (addressM state) = r.get state) ∧
    (state.memory state.pc = 0x36 → 2000 < addressM state →
      ∃ next cost, emulateOp state = .ok (next, cost) ∧
        next.memory (addressM state) = state.memory ((state.pc : Int) + 1)) := by
  have hhl : (state.h <<< 8 ||| state.l) % 65536 = state.h <<< 8 ||| state.l :=
    Nat.mod_eq_of_lt (shl8_or_lt _ _ hwf.h_lt hwf.l_lt)
  refine ⟨?_, ?_, ?_, ?_⟩
  · intro r hfetch
    cases r <;> simp only [Reg8.movFromMOpcode] at hfetch <;>
      simp [emulateOp, emulateOpSwitch, emulateOpTransfer, hfetch, bind, Except.bind, pure,
        Except.pure, readFromMemory_eq, Reg8.get, addressM, hhl]
  · intro op hop hfetch
    have halu : isAluOpcode op := by
      have h := hop
      omega
    refine ⟨?_, emulateOp_alu state hwf op halu hfetch⟩
    rcases hop with h | h | h | h | h | h | h | h <;> subst h <;>
      simp [aluOperand, addressM]
  · intro r hfetch hram
    have hn : ¬ (state.h <<< 8 ||| state.l) ≤ 2000 := by
      unfold addressM at hram
      omega
    cases r <;> simp only [Reg8.movToMOpcode] at hfetch <;>
      simp [emulateOp, emulateOpSwitch, emulateOpTransfer, hfetch, bind, Except.bind, pure,
        Except.pure, writeToMemory_eq, Reg8.get, addressM, hhl, hn, store]
  · intro hfetch hram
    have hn : ¬ (state.h <<< 8 ||| state.l) ≤ 2000 := by
      unfold addressM at hram
      omega
    simp [emulateOp, emulateOpSwitch, emulateOpRegister, hfetch, bind, Except.bind, pure,
      Except.pure, writeToMemory_eq, addressM, hhl, hn, store]

/-- C23 instantiated at MOV A,M with H:L = 0x2410. -/
theorem C23_memory_operand_is_hl_witness :
    (sampleState 0x7E 0 0).WellFormed ∧
    (sampleState 0x7E 0 0).memory (sampleState 0x7E 0 0).pc = Reg8.A.movFromMOpcode ∧
    addressM (sampleState 0x7E 0 0) = 0x2410 ∧
    ∃ next cost, emulateOp (sampleState 0x7E 0 0) = .ok (next, cost) ∧
      Reg8.A.get next = (sampleState 0x7E 0 0).memory (addressM (sampleState 0x7E 0 0)) :=
  have hwf := sampleState_wellFormed 0x7E 0 0 (by decide) (by decide) (by decide)
  have hfetch : (sampleState 0x7E 0 0).memory (sampleState 0x7E 0 0).pc
      = Reg8.A.movFromMOpcode := by decide
  ⟨hwf, hfetch, by decide,
    (C23_memory_operand_is_hl (sampleState 0x7E 0 0) hwf).1 Reg8.A hfetch⟩

/-- C24 fails on the code: in `shldState`, SHLD 0x1001 at PC = 0x1000 (H = 0x24, L = 0x10)
stores L at 0x1001, its own operand byte, and then stores H at 0x1011, the address read again
from the changed operand, so memory[0x1002] is not H; the LHLD 0x1001 that follows at 0x1003,
whose bytes do not overlap 0x1001 and 0x1002, loads H = 0x10 and L = 0x10. -/
theorem C24_shld_lhld_failing_input :
    shldState.WellFormed ∧ shldState.memory shldState.pc = 0x22 ∧
    ((shldState.memory ((shldState.pc : Int) + 2) <<< 8)
      ||| shldState.memory ((shldState.pc : Int) + 1)) = 0x1001 ∧
    0x1001 < 0xFFFF ∧
    [shldState.h, shldState.l] = [0x24, 0x10] ∧
    (emulateOp shldState).toOption.map
        (fun r => [r.1.pc, r.1.memory 0x1001, r.1.memory 0x1002, r.1.memory 0x1011])
      = some [0x1003, 0x10, 0x10, 0x24] ∧
    [shldState.memory 0x1003, shldState.memory 0x1004, shldState.memory 0x1005]
      = [0x2A, 0x01, 0x10] ∧
    (emulateOpTimes 2 shldState).toOption.map (fun r => [r.1.pc, r.1.h, r.1.l])
      = some [0x1006, 0x10, 0x10] := by
  refine ⟨shldState_wellFormed, ?_, ?_, ?_, ?_, ?_, ?_, ?_⟩ <;> decide

/-- C25 fails on the code: OUT 0x05 (0xD3) and IN 0x05 (0xDB) at PC = 0x1000 leave
PC = 0x1001, the address of the port byte, not PC = 0x1002. -/
theorem C25_in_out_failing_input :
    (sampleState 0xD3 0x05 0).WellFormed ∧
    (sampleState 0xD3 0x05 0).memory (sampleState 0xD3 0x05 0).pc = 0xD3 ∧
    (sampleState 0xDB 0x05 0).memory (sampleState 0xDB 0x05 0).pc = 0xDB ∧
    [(sampleState 0xD3 0x05 0).pc, (sampleState 0xDB 0x05 0).pc] = [0x1000, 0x1000] ∧
    (emulateOp (sampleState 0xD3 0x05 0)).toOption.map (fun r => r.1.pc) = some 0x1001 ∧
    (emulateOp (sampleState 0xDB 0x05 0)).toOption.map (fun r => r.1.pc) = some 0x1001 := by
  refine ⟨sampleState_wellFormed 0xD3 0x05 0 (by decide) (by decide) (by decide),
    ?_, ?_, ?_, ?_, ?_⟩ <;> decide

/-- C26: in every well-formed state whose opcode at PC is not a jump, call, return, RST,
PCHL, IN, OUT, HLT or DAA, emulateOp returns and PC becomes (PC + 1 + operand length) mod
0x10000, the operand length being 2 for LXI, SHLD, LHLD, STA and LDA, 1 for MVI and the
immediate ALU opcodes, and 0 otherwise. -/
theorem C26_pc_advances_by_length (state : state8080) (hwf : state.WellFormed)
    (op : Nat) (hseq : ¬ isControlOpcode op) (hfetch : state.memory state.pc = op) :
    ∃ next cost, emulateOp state = .ok (next, cost) ∧
      next.pc = (state.pc + 1 + operandLength op) % 65536 := by
  have hseq2 : ¬ isControlOpcode (state.memory state.pc) := by
    rw [hfetch]
    exact hseq
  obtain ⟨next, cost, hok, hpc, -⟩ := emulateOp_sequential state hwf hseq2
  rw [hfetch] at hpc
  exact ⟨next, cost, hok, hpc⟩

/-- C26 instantiated at STA 0x3000 (0x32), whose operand length is 2. -/
theorem C26_pc_advances_by_length_witness :
    (sampleState 0x32 0x00 0x30).WellFormed ∧ ¬ isControlOpcode 0x32 ∧
    (sampleState 0x32 0x00 0x30).memory (sampleState 0x32 0x00 0x30).pc = 0x32 ∧
    operandLength 0x32 = 2 ∧
    ∃ next cost, emulateOp (sampleState 0x32 0x00 0x30) = .ok (next, cost) ∧
      next.pc = ((sampleState 0x32 0x00 0x30).pc + 1 + operandLength 0x32) % 65536 :=
  have hwf := sampleState_wellFormed 0x32 0x00 0x30 (by decide) (by decide) (by decide)
  have hseq : ¬ isControlOpcode 0x32 := by decide
  have hfetch : (sampleState 0x32 0x00 0x30).memory (sampleState 0x32 0x00 0x30).pc = 0x32 := by
    decide
  ⟨hwf, hseq, hfetch, by decide,
    C26_pc_advances_by_length (sampleState 0x32 0x00 0x30) hwf 0x32 hseq hfetch⟩

/-- C27 fails on the code: writeToMemory with value 0xAA and address 0x07FF = 2047, inside
the first 2K, changes memory[2047] from 0x00 to 0xAA; the guard stops at 2000 (address 2000
is not written, address 2001 is). -/
theorem C27_first_2k_failing_input :
    (sampleState 0 0 0).WellFormed ∧ ((0x07 <<< 8) ||| 0xFF) = 2047 ∧ 2047 < 2048 ∧
    (sampleState 0 0 0).memory 2047 = 0x00 ∧
    (writeToMemory (sampleState 0 0 0) 0xAA 0x07 0xFF).toOption.map (fun s => s.memory 2047)
      = some 0xAA ∧
    (writeToMemory (sampleState 0 0 0) 0xAA 0x07 0xD0).toOption.map (fun s => s.memory 2000)
      = some 0x00 ∧
    (writeToMemory (sampleState 0 0 0) 0xAA 0x07 0xD1).toOption.map (fun s => s.memory 2001)
      = some 0xAA := by
  refine ⟨sampleState_wellFormed 0 0 0 (by decide) (by decide) (by decide),
    ?_, ?_, ?_, ?_, ?_, ?_⟩ <;> decide

/-- C28 fails on the code: with Sign = 1, Parity = 0 and Carry = 0 both JP and JM jump
(PC = 0x1235), both CP and CM call, and both RP and RM return (SP moves to 0x2402), so JP, CP
and RP are taken although the Sign flag is 1; with Sign = 0 and Carry = 1 neither RP nor RM
returns (PC = 0x1001, SP unchanged). -/
theorem C28_opposite_conditions_failing_input :
    (signState 0xF2 0x34 0x12).WellFormed ∧ (signState 0xF2 0x34 0x12).cc.s = 1 ∧
    [(signState 0xF2 0x34 0x12).pc, (signState 0xF2 0x34 0x12).sp] = [0x1000, 0x2400] ∧
    [0xF2, 0xFA, 0xF4, 0xFC, 0xF0, 0xF8].map
        (fun op => (emulateOp (signState op 0x34 0x12)).toOption.map
          (fun r => [r.1.pc, r.1.sp]))
      = [some [0x1235, 0x2400], some [0x1235, 0x2400], some [0x1235, 0x2402],
         some [0x1235, 0x2402], some [0x0001, 0x2402], some [0x0001, 0x2402]] ∧
    (sampleState 0xF0 0 0).cc.s = 0 ∧
    [0xF0, 0xF8].map
        (fun op => (emulateOp (sampleState op 0 0)).toOption.map (fun r => [r.1.pc, r.1.sp]))
      = [some [0x1001, 0x2400], some [0x1001, 0x2400]] := by
  refine ⟨signState_wellFormed 0xF2 0x34 0x12 (by decide) (by decide) (by decide),
    ?_, ?_, ?_, ?_, ?_⟩ <;> decide

/-- C29 fails on the code: DAD SP with H:L = 0x2410, SP = 0x2400 and Carry = 1 gives
H:L = 0x4810 without overflow and leaves Carry = 1, whereas DAD B from the same state clears
it. -/
theorem C29_dad_sp_carry_failing_input :
    (sampleState 0x39 0 0).WellFormed ∧
    (sampleState 0x39 0 0).memory (sampleState 0x39 0 0).pc = 0x39 ∧
    [(sampleState 0x39 0 0).h, (sampleState 0x39 0 0).l, (sampleState 0x39 0 0).sp,
      (sampleState 0x39 0 0).cc.cy] = [0x24, 0x10, 0x2400, 1] ∧
    0x2410 + 0x2400 ≤ 0xFFFF ∧
    (emulateOp (sampleState 0x39 0 0)).toOption.map (fun r => [r.1.h, r.1.l, r.1.cc.cy])
      = some [0x48, 0x10, 1] ∧
    (emulateOp (sampleState 0x09 0 0)).toOption.map (fun r => [r.1.h, r.1.l, r.1.cc.cy])
      = some [0x80, 0x13, 0] := by
  refine ⟨sampleState_wellFormed 0x39 0 0 (by decide) (by decide) (by decide),
    ?_, ?_, ?_, ?_, ?_⟩ <;> decide

/-- C30 fails on the code: from A = 0x80 and Carry = 0, RAL gives A = 0x00 and Carry = 1,
and RAR then gives A = 0x00 and Carry = 0: the accumulator is not restored, because RAR keeps
the old bit 7 instead of taking in the Carry. -/
theorem C30_ral_rar_failing_input :
    rotateState.WellFormed ∧ rotateState.memory rotateState.pc = 0x17 ∧
    rotateState.memory (((rotateState.pc + 1) % 65536 : Nat) : Int) = 0x1F ∧
    [rotateState.a, rotateState.cc.cy] = [0x80, 0] ∧
    (emulateOp rotateState).toOption.map (fun r => [r.1.a, r.1.cc.cy]) = some [0x00, 1] ∧
    (emulateOpTimes 2 rotateState).toOption.map (fun r => [r.1.a, r.1.cc.cy])
      = some [0x00, 0] := by
  refine ⟨rotateState_wellFormed, ?_, ?_, ?_, ?_, ?_⟩ <;> decide


/-! ## Shared lemmas for XTHL, compare, logic and increment opcodes -/

/-- The state `xthlState` is well formed. -/
theorem xthlState_wellFormed : xthlState.WellFormed := by
  refine ⟨?_, ?_, ?_, ?_, ?_, ?_, ?_, ?_, ?_, ?_, ?_, ?_, ?_, ?_, ?_, ?_, ?_⟩ <;>
    first
    | (intro i; simp only [xthlState]; split_ifs <;> decide)
    | decide

/-- Replacing the opcode byte by another byte keeps a state well formed. -/
theorem withOpcode_wellFormed (state : state8080) (hwf : state.WellFormed) (op : Nat)
    (hop : op < 256) : (withOpcode state op).WellFormed :=
  { hwf with
    memory_lt := by
      intro i
      simp only [withOpcode, store]
      split_ifs
      · exact hop
      · exact hwf.memory_lt i }

/-- The result of `parity` is 0 or 1. -/
theorem parity_mod_two (x : Nat) : parity x % 2 = parity x := by
  unfold parity
  exact Nat.mod_mod _ 2

/-- Reducing modulo 0x10000 and then modulo 0x100 is reducing modulo 0x100. -/
theorem mod_65536_mod_256 (x : Nat) : x % 65536 % 256 = x % 256 := by omega

/-- Reducing an integer modulo 0x10000 and then modulo 0x100 is reducing it modulo 0x100. -/
theorem toNat_mod_65536_mod_256 (x : Int) :
    Int.toNat (x % 65536) % 256 = Int.toNat (x % 256) := by omega

/-- Reducing modulo 0x100 twice is reducing once. -/
theorem toNat_mod_256_mod_256 (x : Int) :
    Int.toNat (x % 256) % 256 = Int.toNat (x % 256) := by omega

/-- One step at `INR t`: the target is incremented modulo 256, Zero, Sign and Parity come from
the incremented byte and Carry is kept. -/
theorem emulateOp_inr (t : Target8) (state : state8080)
    (hfetch : state.memory state.pc = t.inrOpcode) :
    ∃ next cost, emulateOp state = .ok (next, cost) ∧
      t.get next = (t.get state + 1) % 256 ∧
      next.cc.z = cbool ((t.get state + 1) % 256 = 0) ∧
      next.cc.s = (t.get state + 1) % 256 / 128 % 2 ∧
      next.cc.p = parity ((t.get state + 1) % 256) ∧
      next.cc.cy = state.cc.cy := by
  cases t <;> simp only [Target8.inrOpcode] at hfetch <;>
    simp [emulateOp, emulateOpSwitch, emulateOpRegister, hfetch, bind, Except.bind, pure,
      Except.pure, Target8.get, addressM, store, and_255, and_128, parity_mod_two,
      mod_65536_mod_256, cbool] <;>
    split_ifs <;> omega

/-- One step at `DCR t`: the target is decremented modulo 256, Zero, Sign and Parity come from
the decremented byte and Carry is kept. -/
theorem emulateOp_dcr (t : Target8) (state : state8080)
    (hfetch : state.memory state.pc = t.dcrOpcode) :
    ∃ next cost, emulateOp state = .ok (next, cost) ∧
      t.get next = Int.toNat (((t.get state : Int) - 1) % 256) ∧
      next.cc.z = cbool (Int.toNat (((t.get state : Int) - 1) % 256) = 0) ∧
      next.cc.s = Int.toNat (((t.get state : Int) - 1) % 256) / 128 % 2 ∧
      next.cc.p = parity (Int.toNat (((t.get state : Int) - 1) % 256)) ∧
      next.cc.cy = state.cc.cy := by
  cases t <;> simp only [Target8.dcrOpcode] at hfetch <;>
    simp [emulateOp, emulateOpSwitch, emulateOpRegister, hfetch, bind, Except.bind, pure,
      Except.pure, Target8.get, addressM, store, and_255, and_128, parity_mod_two,
      mod_65536_mod_256, toNat_mod_65536_mod_256, toNat_mod_256_mod_256, cbool] <;>
    split_ifs <;> omega

/-! ## Properties of the specification, fourth part -/

/-- C31 fails at `xthlState`, a well-formed state with SP = 0x2400 < 0xFFFF, XTHL (0xE3) at PC
and PC + 1, H = 0x24, L = 0x10, memory[SP] = 0xAA and memory[SP+1] = 0xBB. One step leaves SP
at 0x2400, sets L to 0xAA and memory[SP] to 0x10, and stores the old H in memory[SP+1], but H
stays 0x24 instead of becoming 0xBB. After a second step L and memory[SP] are back at 0x10
and 0xAA, while memory[SP+1] is 0x24 and not the original 0xBB. -/
theorem C31_xthl_failing_input :
    xthlState.WellFormed ∧ xthlState.memory xthlState.pc = 0xE3 ∧ xthlState.sp < 0xFFFF ∧
    [xthlState.sp, xthlState.h, xthlState.l, xthlState.memory 0x2400, xthlState.memory 0x2401]
      = [0x2400, 0x24, 0x10, 0xAA, 0xBB] ∧
    (emulateOp xthlState).toOption.map
        (fun r => [r.1.sp, r.1.h, r.1.l, r.1.memory 0x2400, r.1.memory 0x2401])
      = some [0x2400, 0x24, 0xAA, 0x10, 0x24] ∧
    (emulateOpTimes 2 xthlState).toOption.map
        (fun r => [r.1.sp, r.1.h, r.1.l, r.1.memory 0x2400, r.1.memory 0x2401])
      = some [0x2400, 0x24, 0x10, 0xAA, 0x24] := by
  refine ⟨xthlState_wellFormed, ?_, ?_, ?_, ?_, ?_⟩ <;> decide

/-- C32: let `state` be a well-formed state whose opcode at PC is a compare opcode (CMP r,
CMP M or CPI d8), and let `subState` be a well-formed state whose opcode at PC is the
subtraction of the same operand form (SUB r, SUB M or SUI d8) and which has the same
accumulator and the same operand value. Then emulateOp succeeds on both, the compare leaves
the accumulator unchanged, and Zero, Sign, Parity and Carry after the compare equal those
after the subtraction. -/
theorem C32_compare_is_subtract (state subState : state8080) (hwf : state.WellFormed)
    (hsubwf : subState.WellFormed) (op : Nat) (hop : isCmpOpcode op)
    (hfetch : state.memory state.pc = op)
    (hsubfetch : subState.memory subState.pc = cmpToSub op)
    (ha : subState.a = state.a)
    (hoperand : aluOperand subState (cmpToSub op) = aluOperand state op) :
    ∃ next cost subNext subCost,
      emulateOp state = .ok (next, cost) ∧
      emulateOp subState = .ok (subNext, subCost) ∧
      next.a = state.a ∧
      next.cc.z = subNext.cc.z ∧ next.cc.s = subNext.cc.s ∧ next.cc.p = subNext.cc.p ∧
      next.cc.cy = subNext.cc.cy := by
  have halu : isAluOpcode op := by
    have h := hop
    omega
  have hsubalu : isAluOpcode (cmpToSub op) := by
    unfold cmpToSub
    split_ifs <;> omega
  have h1 := emulateOp_alu state hwf op halu hfetch
  have h2 := emulateOp_alu subState hsubwf (cmpToSub op) hsubalu hsubfetch
  have hfam : aluFamily op = 7 := by
    have h := hop
    unfold aluFamily
    omega
  have hsubfam : aluFamily (cmpToSub op) = 2 := by
    have h := hop
    unfold aluFamily cmpToSub
    split_ifs <;> omega
  have hval : aluVal subState (cmpToSub op) = aluVal state op := by
    simp [aluVal, hfam, hsubfam, ha, hoperand]
  refine ⟨_, _, _, _, h1, h2, ?_, ?_, ?_, ?_, ?_⟩
  · simp [aluNext, hfam]
  · simp only [aluNext, hval]
  · simp only [aluNext, hval]
  · simp only [aluNext, hval]
  · simp only [aluNext, hval]

/-- C32 instantiated at CMP M (0xBE) with A = 0x3A and the memory operand 0xFF, against the
same state with SUB M (0x96) in place of the opcode byte. -/
theorem C32_compare_is_subtract_witness :
    (sampleState 0xBE 0 0).WellFormed ∧
    (withOpcode (sampleState 0xBE 0 0) (cmpToSub 0xBE)).WellFormed ∧ isCmpOpcode 0xBE ∧
    (sampleState 0xBE 0 0).memory (sampleState 0xBE 0 0).pc = 0xBE ∧
    (withOpcode (sampleState 0xBE 0 0) (cmpToSub 0xBE)).memory
        (withOpcode (sampleState 0xBE 0 0) (cmpToSub 0xBE)).pc = cmpToSub 0xBE ∧
    (withOpcode (sampleState 0xBE 0 0) (cmpToSub 0xBE)).a = (sampleState 0xBE 0 0).a ∧
    aluOperand (withOpcode (sampleState 0xBE 0 0) (cmpToSub 0xBE)) (cmpToSub 0xBE)
      = aluOperand (sampleState 0xBE 0 0) 0xBE ∧
    ∃ next cost subNext subCost,
      emulateOp (sampleState 0xBE 0 0) = .ok (next, cost) ∧
      emulateOp (withOpcode (sampleState 0xBE 0 0) (cmpToSub 0xBE)) = .ok (subNext, subCost) ∧
      next.a = (sampleState 0xBE 0 0).a ∧
      next.cc.z = subNext.cc.z ∧ next.cc.s = subNext.cc.s ∧ next.cc.p = subNext.cc.p ∧
      next.cc.cy = subNext.cc.cy :=
  have hwf := sampleState_wellFormed 0xBE 0 0 (by decide) (by decide) (by decide)
  have hsubwf := withOpcode_wellFormed (sampleState 0xBE 0 0) hwf (cmpToSub 0xBE) (by decide)
  have hop : isCmpOpcode 0xBE := by decide
  have hfetch : (sampleState 0xBE 0 0).memory (sampleState 0xBE 0 0).pc = 0xBE := by decide
  have hsubfetch : (withOpcode (sampleState 0xBE 0 0) (cmpToSub 0xBE)).memory
      (withOpcode (sampleState 0xBE 0 0) (cmpToSub 0xBE)).pc = cmpToSub 0xBE := by decide
  have ha : (withOpcode (sampleState 0xBE 0 0) (cmpToSub 0xBE)).a
      = (sampleState 0xBE 0 0).a := rfl
  have hoperand : aluOperand (withOpcode (sampleState 0xBE 0 0) (cmpToSub 0xBE))
      (cmpToSub 0xBE) = aluOperand (sampleState 0xBE 0 0) 0xBE := by decide
  ⟨hwf, hsubwf, hop, hfetch, hsubfetch, ha, hoperand,
    C32_compare_is_subtract (sampleState 0xBE 0 0)
      (withOpcode (sampleState 0xBE 0 0) (cmpToSub 0xBE)) hwf hsubwf 0xBE hop hfetch hsubfetch
      ha hoperand⟩

/-- C33: in every well-formed state whose opcode at PC is a logical opcode (ANA, XRA, ORA in
register and M forms, ANI, XRI, ORI), emulateOp succeeds, leaves the Carry flag 0, and sets
the accumulator to the bitwise AND (ANA, ANI), XOR (XRA, XRI) or OR (ORA, ORI) of the old
accumulator and the operand. -/
theorem C33_logic_clears_carry (state : state8080) (hwf : state.WellFormed) (op : Nat)
    (hop : isLogicOpcode op) (hfetch : state.memory state.pc = op) :
    ∃ next cost, emulateOp state = .ok (next, cost) ∧
      next.cc.cy = 0 ∧
      (aluFamily op = 4 → next.a = state.a &&& aluOperand state op) ∧
      (aluFamily op = 5 → next.a = state.a ^^^ aluOperand state op) ∧
      (aluFamily op = 6 → next.a = state.a ||| aluOperand state op) := by
  have halu : isAluOpcode op := by
    have h := hop
    omega
  have ha := hwf.a_lt
  have ho := aluOperand_lt state hwf op
  have hand : state.a &&& aluOperand state op < 256 :=
    lt_of_le_of_lt Nat.and_le_left ha
  have hxor : state.a ^^^ aluOperand state op < 256 := Nat.xor_lt_two_pow (n := 8) ha ho
  have hor : state.a ||| aluOperand state op < 256 := Nat.or_lt_two_pow (n := 8) ha ho
  have hfam : aluFamily op = 4 ∨ aluFamily op = 5 ∨ aluFamily op = 6 := by
    have h := hop
    unfold aluFamily
    omega
  refine ⟨_, _, emulateOp_alu state hwf op halu hfetch, ?_, ?_, ?_, ?_⟩
  · rcases hfam with h | h | h <;>
      simp [aluNext, aluVal, h, cbool] <;> omega
  · intro h
    simp [aluNext, aluVal, h, and_255]
    omega
  · intro h
    simp [aluNext, aluVal, h, and_255]
    omega
  · intro h
    simp [aluNext, aluVal, h, and_255]
    omega

/-- C33 instantiated at XRI (0xEE) with A = 0x3A, the immediate 0x0F and Carry set before
the step. -/
theorem C33_logic_clears_carry_witness :
    (sampleState 0xEE 0x0F 0).WellFormed ∧ isLogicOpcode 0xEE ∧
    (sampleState 0xEE 0x0F 0).memory (sampleState 0xEE 0x0F 0).pc = 0xEE ∧
    ∃ next cost, emulateOp (sampleState 0xEE 0x0F 0) = .ok (next, cost) ∧
      next.cc.cy = 0 ∧
      (aluFamily 0xEE = 4 →
        next.a = (sampleState 0xEE 0x0F 0).a &&& aluOperand (sampleState 0xEE 0x0F 0) 0xEE) ∧
      (aluFamily 0xEE = 5 →
        next.a = (sampleState 0xEE 0x0F 0).a ^^^ aluOperand (sampleState 0xEE 0x0F 0) 0xEE) ∧
      (aluFamily 0xEE = 6 →
        next.a = (sampleState 0xEE 0x0F 0).a ||| aluOperand (sampleState 0xEE 0x0F 0) 0xEE) :=
  have hwf := sampleState_wellFormed 0xEE 0x0F 0 (by decide) (by decide) (by decide)
  have hop : isLogicOpcode 0xEE := by decide
  have hfetch : (sampleState 0xEE 0x0F 0).memory (sampleState 0xEE 0x0F 0).pc = 0xEE := by
    decide
  ⟨hwf, hop, hfetch, C33_logic_clears_carry (sampleState 0xEE 0x0F 0) hwf 0xEE hop hfetch⟩

/-- C34: in every well-formed state whose opcode at PC is not POP PSW (0xF1), every result
of emulateOp has the Auxiliary-Carry flag of the initial state, and emulateOp does return
such a result unless the opcode is DAA (0x27) or HLT (0x76), which end the process; and
generateInterrupt leaves the Auxiliary-Carry flag unchanged for every interrupt number. -/
theorem C34_aux_carry_untouched (state : state8080) (hwf : state.WellFormed)
    (hpop : state.memory state.pc ≠ 0xF1) (number : Int) :
    (∀ next cost, emulateOp state = .ok (next, cost) → next.cc.ac = state.cc.ac) ∧
    (state.memory state.pc ≠ 0x27 → state.memory state.pc ≠ 0x76 →
      ∃ next cost, emulateOp state = .ok (next, cost) ∧ next.cc.ac = state.cc.ac) ∧
    (generateInterrupt state number).cc.ac = state.cc.ac := by
  have hret : state.memory state.pc ≠ 0x27 → state.memory state.pc ≠ 0x76 →
      ∃ next cost, emulateOp state = .ok (next, cost) ∧ next.cc.ac = state.cc.ac := by
    intro h27 h76
    obtain ⟨next, cost, hok, -, hac⟩ := emulateOp_frame state hwf h27 h76
    exact ⟨next, cost, hok, hac hpop⟩
  refine ⟨?_, hret, rfl⟩
  intro next cost hok
  by_cases h27 : state.memory state.pc = 0x27
  · rw [emulateOp_daa state h27] at hok
    simp at hok
  · by_cases h76 : state.memory state.pc = 0x76
    · rw [emulateOp_hlt state h76] at hok
      simp at hok
    · obtain ⟨next2, cost2, hok2, hac2⟩ := hret h27 h76
      rw [hok2] at hok
      simp at hok
      rw [← hok.1]
      exact hac2

/-- C34 instantiated at ADD B (0x80) with A = 0x3A and B = 0x5C, where a 4-bit carry out of
the low nibble occurs, and at interrupt number 2. -/
theorem C34_aux_carry_untouched_witness :
    (sampleState 0x80 0 0).WellFormed ∧
    (sampleState 0x80 0 0).memory (sampleState 0x80 0 0).pc ≠ 0xF1 ∧
    ((∀ next cost, emulateOp (sampleState 0x80 0 0) = .ok (next, cost) →
        next.cc.ac = (sampleState 0x80 0 0).cc.ac) ∧
    ((sampleState 0x80 0 0).memory (sampleState 0x80 0 0).pc ≠ 0x27 →
      (sampleState 0x80 0 0).memory (sampleState 0x80 0 0).pc ≠ 0x76 →
      ∃ next cost, emulateOp (sampleState 0x80 0 0) = .ok (next, cost) ∧
        next.cc.ac = (sampleState 0x80 0 0).cc.ac) ∧
    (generateInterrupt (sampleState 0x80 0 0) 2).cc.ac = (sampleState 0x80 0 0).cc.ac) :=
  have hwf := sampleState_wellFormed 0x80 0 0 (by decide) (by decide) (by decide)
  have hpop : (sampleState 0x80 0 0).memory (sampleState 0x80 0 0).pc ≠ 0xF1 := by decide
  ⟨hwf, hpop, C34_aux_carry_untouched (sampleState 0x80 0 0) hwf hpop 2⟩

/-- C35: for every target t among the registers A, B, C, D, E, H, L and the memory operand
M, and every state whose opcode at PC is INR t or DCR t, emulateOp succeeds; the target
becomes (v + 1) mod 256 after INR and (v - 1) mod 256 after DCR, where v is its old value;
Zero is 1 exactly when the new value is 0, Sign is bit 7 of the new value, Parity is the
result of `parity` on the new value; and the Carry flag is unchanged. -/
theorem C35_inr_dcr (t : Target8) (state : state8080)
    (hfetch : state.memory state.pc = t.inrOpcode ∨ state.memory state.pc = t.dcrOpcode) :
    ∃ next cost, emulateOp state = .ok (next, cost) ∧
      (state.memory state.pc = t.inrOpcode → t.get next = (t.get state + 1) % 256) ∧
      (state.memory state.pc = t.dcrOpcode →
        t.get next = Int.toNat (((t.get state : Int) - 1) % 256)) ∧
      next.cc.z = cbool (t.get next = 0) ∧
      next.cc.s = t.get next / 128 % 2 ∧
      next.cc.p = parity (t.get next) ∧
      next.cc.cy = state.cc.cy := by
  have hne : t.inrOpcode ≠ t.dcrOpcode := by cases t <;> decide
  rcases hfetch with h | h
  · obtain ⟨next, cost, hok, hget, hz, hs, hp, hcy⟩ := emulateOp_inr t state h
    refine ⟨next, cost, hok, fun _ => hget, ?_, ?_, ?_, ?_, hcy⟩
    · intro h2
      exact absurd (h.symm.trans h2) hne
    · rw [hget]; exact hz
    · rw [hget]; exact hs
    · rw [hget]; exact hp
  · obtain ⟨next, cost, hok, hget, hz, hs, hp, hcy⟩ := emulateOp_dcr t state h
    refine ⟨next, cost, hok, ?_, fun _ => hget, ?_, ?_, ?_, hcy⟩
    · intro h2
      exact absurd (h2.symm.trans h) hne
    · rw [hget]; exact hz
    · rw [hget]; exact hs
    · rw [hget]; exact hp

/-- C35 instantiated at DCR M (0x35) with the memory operand 0xFF at address 0x2410. -/
theorem C35_inr_dcr_witness :
    ((sampleState 0x35 0 0).memory (sampleState 0x35 0 0).pc = Target8.M.inrOpcode ∨
      (sampleState 0x35 0 0).memory (sampleState 0x35 0 0).pc = Target8.M.dcrOpcode) ∧
    ∃ next cost, emulateOp (sampleState 0x35 0 0) = .ok (next, cost) ∧
      ((sampleState 0x35 0 0).memory (sampleState 0x35 0 0).pc = Target8.M.inrOpcode →
        Target8.M.get next = (Target8.M.get (sampleState 0x35 0 0) + 1) % 256) ∧
      ((sampleState 0x35 0 0).memory (sampleState 0x35 0 0).pc = Target8.M.dcrOpcode →
        Target8.M.get next
          = Int.toNat (((Target8.M.get (sampleState 0x35 0 0) : Int) - 1) % 256)) ∧
      next.cc.z = cbool (Target8.M.get next = 0) ∧
      next.cc.s = Target8.M.get next / 128 % 2 ∧
      next.cc.p = parity (Target8.M.get next) ∧
      next.cc.cy = (sampleState 0x35 0 0).cc.cy :=
  have hfetch : (sampleState 0x35 0 0).memory (sampleState 0x35 0 0).pc = Target8.M.inrOpcode ∨
      (sampleState 0x35 0 0).memory (sampleState 0x35 0 0).pc = Target8.M.dcrOpcode :=
    Or.inr (by decide)
  ⟨hfetch, C35_inr_dcr Target8.M (sampleState 0x35 0 0) hfetch⟩

/-- C36: for every state, every value and every pair of bytes topBits, botBits, the address
(topBits << 8) | botBits is below 0x10000, readFromMemory returns memory[address] and does
not take its out-of-bounds branch, and writeToMemory returns a state and does not take its
out-of-bounds branch. -/
theorem C36_out_of_bounds_unreachable (state : state8080) (value topBits botBits : Nat)
    (htop : topBits < 256) (hbot : botBits < 256) :
    ((topBits <<< 8) ||| botBits) < 0x10000 ∧
    readFromMemory state topBits botBits
      = .ok (state.memory (((topBits <<< 8) ||| botBits : Nat) : Int)) ∧
    readFromMemory state topBits botBits ≠ .error Stop.outOfBounds ∧
    writeToMemory state value topBits botBits ≠ .error Stop.outOfBounds ∧
    ∃ next, writeToMemory state value topBits botBits = .ok next := by
  have hlt := shl8_or_lt topBits botBits htop hbot
  have hmod : (topBits <<< 8 ||| botBits) % 65536 = topBits <<< 8 ||| botBits :=
    Nat.mod_eq_of_lt hlt
  refine ⟨hlt, ?_, ?_, ?_, ?_⟩
  · rw [readFromMemory_eq, hmod]
  · rw [readFromMemory_eq]
    simp
  · rw [writeToMemory_eq]
    simp
  · rw [writeToMemory_eq]
    exact ⟨_, rfl⟩

/-- C36 instantiated at the largest address, topBits = botBits = 0xFF. -/
theorem C36_out_of_bounds_unreachable_witness :
    (0xFF : Nat) < 256 ∧ (0xFF : Nat) < 256 ∧
    (((0xFF : Nat) <<< 8) ||| 0xFF) < 0x10000 ∧
    readFromMemory nopState 0xFF 0xFF
      = .ok (nopState.memory ((((0xFF : Nat) <<< 8) ||| 0xFF : Nat) : Int)) ∧
    readFromMemory nopState 0xFF 0xFF ≠ .error Stop.outOfBounds ∧
    writeToMemory nopState 0x12 0xFF 0xFF ≠ .error Stop.outOfBounds ∧
    ∃ next, writeToMemory nopState 0x12 0xFF 0xFF = .ok next :=
  ⟨by decide, by decide,
    C36_out_of_bounds_unreachable nopState 0x12 0xFF 0xFF (by decide) (by decide)⟩

end Emu8080
